import Mathlib

/-!
# g3-engine: the transform and shading pipeline

A shallow embedding of the `shapes` package (`Vector.go`, `matrices.go`,
`Triangle.go`, `shape.go`, `shapes.go`) and of `Controller.draw3D`, and theorems
about them.

* `float64` is idealised as exact arithmetic in a linearly ordered field `F`
  with a floor function (the rationals and the reals are instances).
* The functions of Go's `math` package are passed explicitly as a `MathLib F`.
* `*Triangle` pointers are addresses into a `Heap`; the stages `Normal` and
  `Shade` write through the pointer they receive, `process` allocates.
  `*Vector` cells are never written by the pipeline, so a triangle cell holds
  its vectors by value.
* `uint32` colours are natural numbers below `2 ^ 32`, `uint8` channels below `2 ^ 8`.
* For `Shape.duplicate` and `Vector.Map`, which are about sharing, namespace `Ptr`
  holds the structs with their `*Vector` fields as addresses into a `Store`.
* A Go string is its list of bytes; a panic of the loader is the result `none`.
* For the division by zero of `Normalize` in the `Normal` stage, `Float64` adds the
  special values of IEEE 754, and the flag it yields is shown to be the one of the field.
* Namespace `Binary64` has float64 with its rounding (round to nearest, ties to even,
  subnormal numbers, overflow to an infinity) for `Normal` and `Shade`, where a rounded
  product can decide the flag or a colour channel.
-/

namespace G3

variable {F : Type} [LinearOrderedField F]

/-! ## Go's math package -/

/-- The functions of Go's math package that the engine calls. -/
structure MathLib (F : Type) where
  /-- Go: math.Sqrt -/
  Sqrt : F → F
  /-- Go: math.Cos -/
  Cos : F → F
  /-- Go: math.Sin -/
  Sin : F → F

/-- Exactness of the square root on the non-negative scalars, as under real arithmetic. -/
structure MathLib.Exact (math : MathLib F) : Prop where
  sqrt_nonneg : ∀ x : F, 0 ≤ math.Sqrt x
  sqrt_mul_self : ∀ x : F, 0 ≤ x → math.Sqrt x * math.Sqrt x = x

/-! ## Vector.go -/

/-- Go: type Vector struct (X, Y, Z, W float64). -/
structure Vector (F : Type) where
  X : F
  Y : F
  Z : F
  W : F
deriving DecidableEq

/-- Go: type Matrix4X4 [4][4]float64; the entry m[r][c] is written m r c. -/
abbrev Matrix4X4 (F : Type) := Fin 4 → Fin 4 → F

/-- Go: NewVector. -/
def NewVector (x y z : F) : Vector F := ⟨x, y, z, 1⟩

/-- Go: NewVectorW. -/
def NewVectorW (x y z w : F) : Vector F := ⟨x, y, z, w⟩

/-- Go: center; the struct literal leaves W zero. -/
def center (x y : F) (v : Vector F) : Vector F :=
  ⟨(v.X + 1) * x, (v.Y + 1) * y, v.Z, 0⟩

namespace Vector

/-- Go: Vector.DotProduct, case 0 of the switch (no argument). -/
def DotProduct0 (v : Vector F) : F := v.X * v.X + v.Y * v.Y + v.Z * v.Z

/-- Go: Vector.DotProduct, case 1 of the switch (one argument). -/
def DotProduct1 (v v1 : Vector F) : F := v.X * v1.X + v.Y * v1.Y + v.Z * v1.Z

/-- Go: Vector.DotProduct, case 2 of the switch (two arguments). -/
def DotProduct2 (v1 v2 : Vector F) : F := v1.X * v2.X + v1.Y * v2.Y + v1.Z * v2.Z

/-- Go: Vector.DotProduct; the variadic call panics (none) on more than two arguments. -/
def DotProduct (v : Vector F) : List (Vector F) → Option F
  | [] => some (DotProduct0 v)
  | [v1] => some (DotProduct1 v v1)
  | [v1, v2] => some (DotProduct2 v1 v2)
  | _ => none

/-- Go: Vector.Length. -/
def Length (math : MathLib F) (v : Vector F) : F := math.Sqrt (DotProduct0 v)

/-- Go: Vector.Normalize. -/
def Normalize (math : MathLib F) (v : Vector F) : Vector F :=
  let l := Length math v
  ⟨v.X / l, v.Y / l, v.Z / l, 0⟩

/-- Go: Vector.CrossProduct. -/
def CrossProduct (v v1 : Vector F) : Vector F :=
  ⟨v.Y * v1.Z - v.Z * v1.Y, v.Z * v1.X - v.X * v1.Z, v.X * v1.Y - v.Y * v1.X, 0⟩

/-- Go: Vector.Add. -/
def Add (v v1 : Vector F) : Vector F := ⟨v.X + v1.X, v.Y + v1.Y, v.Z + v1.Z, 0⟩

/-- Go: Vector.Subtract. -/
def Subtract (v v1 : Vector F) : Vector F := ⟨v.X - v1.X, v.Y - v1.Y, v.Z - v1.Z, 0⟩

/-- Go: Vector.Multiply. -/
def Multiply (v : Vector F) (l : F) : Vector F := ⟨v.X * l, v.Y * l, v.Z * l, 0⟩

/-- Go: Vector.Divide. -/
def Divide (v : Vector F) (l : F) : Vector F := ⟨v.X / l, v.Y / l, v.Z / l, 0⟩

/-- Go: Vector.MatrixMultiply (row vector times matrix). -/
def MatrixMultiply (v : Vector F) (matrix : Matrix4X4 F) : Vector F :=
  ⟨v.X * matrix 0 0 + v.Y * matrix 1 0 + v.Z * matrix 2 0 + v.W * matrix 3 0,
   v.X * matrix 0 1 + v.Y * matrix 1 1 + v.Z * matrix 2 1 + v.W * matrix 3 1,
   v.X * matrix 0 2 + v.Y * matrix 1 2 + v.Z * matrix 2 2 + v.W * matrix 3 2,
   v.X * matrix 0 3 + v.Y * matrix 1 3 + v.Z * matrix 2 3 + v.W * matrix 3 3⟩

end Vector

/-- Go: project; projectionMatrix is the package variable, nil until LoadShapes sets it. -/
def project (projectionMatrix : Option (Matrix4X4 F)) (v : Vector F) : Vector F :=
  match projectionMatrix with
  | none => ⟨v.X, v.Y, v.Z, 0⟩
  | some pm =>
    let projected := v.MatrixMultiply pm
    if projected.W = 0 then projected else projected.Divide projected.W

/-! ## matrices.go -/

/-- A Go array literal with four entries, as a function of the index. -/
def arr4 {α : Type} (a b c d : α) : Fin 4 → α
  | 0 => a
  | 1 => b
  | 2 => c
  | 3 => d

/-- Go: Identity. -/
def Identity : Matrix4X4 F :=
  arr4
    (arr4 1 0 0 0)
    (arr4 0 1 0 0)
    (arr4 0 0 1 0)
    (arr4 0 0 0 1)

/-- Go: Translation. -/
def Translation (x y z : F) : Matrix4X4 F :=
  arr4
    (arr4 1 0 0 0)
    (arr4 0 1 0 0)
    (arr4 0 0 1 0)
    (arr4 x y z 1)

/-- Go: Projection. -/
def Projection (aspectRatio fovRad near far : F) : Matrix4X4 F :=
  arr4
    (arr4 (aspectRatio * fovRad) 0 0 0)
    (arr4 0 fovRad 0 0)
    (arr4 0 0 (far / (far - near)) 1)
    (arr4 0 0 ((-far * near) / (far - near)) 0)

/-- Go: RotationX. -/
def RotationX (math : MathLib F) (angle : F) : Matrix4X4 F :=
  arr4
    (arr4 1 0 0 0)
    (arr4 0 (math.Cos angle) (-math.Sin angle) 0)
    (arr4 0 (math.Sin angle) (math.Cos angle) 0)
    (arr4 0 0 0 1)

/-- Go: RotationY. -/
def RotationY (math : MathLib F) (angle : F) : Matrix4X4 F :=
  arr4
    (arr4 (math.Cos angle) 0 (math.Sin angle) 0)
    (arr4 0 1 0 0)
    (arr4 (-math.Sin angle) 0 (math.Cos angle) 0)
    (arr4 0 0 0 1)

/-- Go: RotationZ; the second row is written with three entries, the fourth is zero. -/
def RotationZ (math : MathLib F) (angle : F) : Matrix4X4 F :=
  arr4
    (arr4 (math.Cos angle) (-math.Sin angle) 0 0)
    (arr4 (math.Sin angle) (math.Cos angle) 0 0)
    (arr4 0 0 1 0)
    (arr4 0 0 0 1)

/-- Go: PointAt. -/
def PointAt (math : MathLib F) (pos target up : Vector F) : Matrix4X4 F :=
  let newForward := (target.Subtract pos).Normalize math
  let newUp := (up.Subtract (newForward.Multiply (up.DotProduct1 newForward))).Normalize math
  let newRight := newForward.CrossProduct newUp
  arr4
    (arr4 newRight.X newRight.Y newRight.Z 0)
    (arr4 newUp.X newUp.Y newUp.Z 0)
    (arr4 newForward.X newForward.Y newForward.Z 0)
    (arr4 pos.X pos.Y pos.Z 1)

/-- Go: LookAt. -/
def LookAt (math : MathLib F) (pos target up : Vector F) : Matrix4X4 F :=
  let newForward := (target.Subtract pos).Normalize math
  let newUp := (up.Subtract (newForward.Multiply (up.DotProduct1 newForward))).Normalize math
  let newRight := newForward.CrossProduct newUp
  arr4
    (arr4 newRight.X newUp.X newForward.X 0)
    (arr4 newRight.Y newUp.Y newForward.Y 0)
    (arr4 newRight.Z newUp.Z newForward.Z 0)
    (arr4
      (-(pos.X * newRight.X + pos.Y * newUp.X + pos.Z * newForward.X))
      (-(pos.X * newRight.Y + pos.Y * newUp.Y + pos.Z * newForward.Y))
      (-(pos.Z * newRight.Z + pos.Z * newUp.Z + pos.Z * newForward.Z))
      1)

/-- Go: Matrix4X4.Multiply; the two loops fill every entry mo[r][c]. -/
def Matrix4X4.Multiply (m m1 : Matrix4X4 F) : Matrix4X4 F :=
  fun r c => m r 0 * m1 0 c + m r 1 * m1 1 c + m r 2 * m1 2 c + m r 3 * m1 3 c

/-! ## sdl.Color (go-sdl2) -/

/-- Go: sdl.Color, four uint8 channels. -/
structure Color where
  R : Nat
  G : Nat
  B : Nat
  A : Nat
deriving DecidableEq

/-- Go: sdl.Color.Uint32, which packs R into the high byte and A into the low byte. -/
def Color.Uint32 (c : Color) : Nat :=
  (c.R <<< 24) ||| (c.G <<< 16) ||| (c.B <<< 8) ||| c.A

/-- Go: the conversion uint8(x) of a uint32. -/
def uint8 (x : Nat) : Nat := x % 256

/-- Go: the conversion uint8(f) of a float64, which discards the fraction; the low eight
bits are kept when the integer part does not fit. -/
def floatToUint8 [FloorRing F] (f : F) : Nat := ⌊f⌋₊ % 256

/-! ## Triangle.go -/

/-- A Go array literal with three entries, as a function of the index. -/
def arr3 {α : Type} (a b c : α) : Fin 3 → α
  | 0 => a
  | 1 => b
  | 2 => c

/-- Go: type Triangle struct; the three corners are held by value. -/
structure Triangle (F : Type) where
  vectors : Fin 3 → Vector F
  normal : Vector F
  visible : Bool
  color : Nat

/-- Go: the struct literal of NewTriangle; visible is not set and so is false. -/
def NewTriangle (v1 v2 v3 : Vector F) (color : Nat) : Triangle F :=
  { vectors := arr3 v1 v2 v3, color := color, normal := NewVector 0 0 0, visible := false }

/-- Go: Triangle.FaceColor. -/
def Triangle.FaceColor (t : Triangle F) : Color :=
  { R := uint8 (t.color >>> 24), G := uint8 (t.color >>> 16), B := uint8 (t.color >>> 8),
    A := uint8 t.color }

/-- Go: Triangle.Depth. -/
def Triangle.Depth (t : Triangle F) : F :=
  ((t.vectors 0).Z + (t.vectors 1).Z + (t.vectors 2).Z) / 3

/-- The Triangle cells that pointers of type *Triangle refer to: the cell at address a is
mem a, and the addresses below next are the ones allocated so far. -/
structure Heap (F : Type) where
  mem : Nat → Triangle F
  next : Nat

/-- Go: &Triangle(...), a fresh cell. -/
def Heap.alloc (h : Heap F) (t : Triangle F) : Heap F × Nat :=
  (⟨Function.update h.mem h.next t, h.next + 1⟩, h.next)

/-- Go: an assignment through a pointer, *a = t. -/
def Heap.store (h : Heap F) (a : Nat) (t : Triangle F) : Heap F :=
  ⟨Function.update h.mem a t, h.next⟩

/-- Go: type Transformations func(*Triangle) *Triangle, with the heap passed explicitly. -/
abbrev Transformations (F : Type) := Heap F → Nat → Heap F × Nat

/-- Go: Triangle.process. -/
def Triangle.process (h : Heap F) (t : Nat) (f1 f2 f3 : Vector F) : Heap F × Nat :=
  if !(h.mem t).visible then (h, t)
  else h.alloc
    { normal := (h.mem t).normal, visible := (h.mem t).visible, color := (h.mem t).color,
      vectors := arr3 f1 f2 f3 }

/-- The matrix constructors that Triangle.go calls by names that matrices.go does not
declare (IdentityMatrix, MultiplyMatrix, RotateXMatrix, RotateYMatrix, RotateZMatrix,
TranslateMatrix, LookAtMatrix); the stages take them as a parameter. -/
structure MatrixOps (F : Type) where
  IdentityMatrix : Matrix4X4 F
  MultiplyMatrix : Matrix4X4 F → Matrix4X4 F → Matrix4X4 F
  RotateXMatrix : F → Matrix4X4 F
  RotateYMatrix : F → Matrix4X4 F
  RotateZMatrix : F → Matrix4X4 F
  TranslateMatrix : F → F → F → Matrix4X4 F
  LookAtMatrix : Vector F → Vector F → Vector F → Matrix4X4 F

/-- Modelled from the spec: the constructors missing from matrices.go are the ones it
declares under the names Identity, Multiply, RotationX, RotationY, RotationZ, Translation
and LookAt. -/
def shapesMatrixOps (math : MathLib F) : MatrixOps F :=
  { IdentityMatrix := Identity
    MultiplyMatrix := Matrix4X4.Multiply
    RotateXMatrix := RotationX math
    RotateYMatrix := RotationY math
    RotateZMatrix := RotationZ math
    TranslateMatrix := Translation
    LookAtMatrix := LookAt math }

/-- Go: WorldMatrices. -/
def WorldMatrices (ops : MatrixOps F) (matrices : List (Matrix4X4 F)) : Transformations F :=
  let m1 := matrices.foldl ops.MultiplyMatrix ops.IdentityMatrix
  fun h t =>
    Triangle.process h t
      (((h.mem t).vectors 0).MatrixMultiply m1)
      (((h.mem t).vectors 1).MatrixMultiply m1)
      (((h.mem t).vectors 2).MatrixMultiply m1)

/-- Go: RotateX. -/
def RotateX (ops : MatrixOps F) (a : F) : Transformations F := fun h t =>
  let rotation := ops.RotateXMatrix a
  Triangle.process h t
    (((h.mem t).vectors 0).MatrixMultiply rotation)
    (((h.mem t).vectors 1).MatrixMultiply rotation)
    (((h.mem t).vectors 2).MatrixMultiply rotation)

/-- Go: RotateY. -/
def RotateY (ops : MatrixOps F) (a : F) : Transformations F := fun h t =>
  let rotation := ops.RotateYMatrix a
  Triangle.process h t
    (((h.mem t).vectors 0).MatrixMultiply rotation)
    (((h.mem t).vectors 1).MatrixMultiply rotation)
    (((h.mem t).vectors 2).MatrixMultiply rotation)

/-- Go: RotateZ. -/
def RotateZ (ops : MatrixOps F) (a : F) : Transformations F := fun h t =>
  let rotation := ops.RotateZMatrix a
  Triangle.process h t
    (((h.mem t).vectors 0).MatrixMultiply rotation)
    (((h.mem t).vectors 1).MatrixMultiply rotation)
    (((h.mem t).vectors 2).MatrixMultiply rotation)

/-- Go: Translate. -/
def Translate (ops : MatrixOps F) (x y z : F) : Transformations F := fun h t =>
  let rotation := ops.TranslateMatrix x y z
  Triangle.process h t
    (((h.mem t).vectors 0).MatrixMultiply rotation)
    (((h.mem t).vectors 1).MatrixMultiply rotation)
    (((h.mem t).vectors 2).MatrixMultiply rotation)

/-- Go: Camera. -/
def Camera (ops : MatrixOps F) (up camera lookDir : Vector F) (yaw : F) :
    Transformations F := fun h t =>
  let viewMatrix :=
    ops.LookAtMatrix camera (camera.Add (lookDir.MatrixMultiply (ops.RotateYMatrix yaw))) up
  Triangle.process h t
    (((h.mem t).vectors 0).MatrixMultiply viewMatrix)
    (((h.mem t).vectors 1).MatrixMultiply viewMatrix)
    (((h.mem t).vectors 2).MatrixMultiply viewMatrix)

/-- Go: Normal; both assignments go through the pointer t, which is also returned. -/
def Normal (math : MathLib F) (camera : Vector F) : Transformations F := fun h t =>
  if !(h.mem t).visible then (h, t)
  else
    let h1 := h.store t
      { h.mem t with
        normal :=
          ((((h.mem t).vectors 1).Subtract ((h.mem t).vectors 0)).CrossProduct
            (((h.mem t).vectors 2).Subtract ((h.mem t).vectors 0))).Normalize math }
    let h2 := h1.store t
      { h1.mem t with
        visible :=
          decide ((h1.mem t).normal.DotProduct1 (((h1.mem t).vectors 0).Subtract camera) > 0) }
    (h2, t)

/-- Go: Project. -/
def Project (projectionMatrix : Option (Matrix4X4 F)) : Transformations F := fun h t =>
  Triangle.process h t
    (project projectionMatrix ((h.mem t).vectors 0))
    (project projectionMatrix ((h.mem t).vectors 1))
    (project projectionMatrix ((h.mem t).vectors 2))

/-- Go: Center. -/
def Center (x y : F) : Transformations F := fun h t =>
  Triangle.process h t
    (center x y ((h.mem t).vectors 0))
    (center x y ((h.mem t).vectors 1))
    (center x y ((h.mem t).vectors 2))

/-- Go: Shade; the successive values of t.color are the locals c0 to c3, and the last
assignment goes through the pointer t, which is also returned. -/
def Shade [FloorRing F] (math : MathLib F) (light : Vector F) : Transformations F :=
  fun h t =>
    let dp := max (1 / 10) ((h.mem t).normal.DotProduct1 (light.Normalize math))
    let c0 := (h.mem t).color
    let a := uint8 c0
    let c1 := c0 >>> 8
    let b := floatToUint8 ((uint8 c1 : F) * dp)
    let c2 := c1 >>> 8
    let g := floatToUint8 ((uint8 c2 : F) * dp)
    let c3 := c2 >>> 8
    let r := floatToUint8 ((uint8 c3 : F) * dp)
    (h.store t { h.mem t with color := Color.Uint32 { R := r, G := g, B := b, A := a } }, t)

/-! ## shape.go -/

/-- Go: type Shape struct; ts holds the addresses of the triangle cells. -/
structure Shape (F : Type) where
  ts : List Nat
  location : Vector F
  rotation : Vector F
  scale : Vector F
  color : Color

/-- Go: Shape.Locate. -/
def Shape.Locate (s : Shape F) (x y z : F) : Shape F := { s with location := NewVector x y z }

/-- Go: Shape.Rotate. -/
def Shape.Rotate (s : Shape F) (x y z : F) : Shape F := { s with rotation := NewVector x y z }

/-- Go: Shape.Scale. -/
def Shape.Scale (s : Shape F) (x y z : F) : Shape F := { s with scale := NewVector x y z }

/-- Go: the inner loop of Shape.GetTriangles, t2 = transform(t2) for each transform. -/
def applyTransforms (transforms : List (Transformations F)) (h : Heap F) (t : Nat) :
    Heap F × Nat :=
  transforms.foldl (fun p transform => transform p.1 p.2) (h, t)

/-- Go: the outer loop of Shape.GetTriangles over the triangles still to visit, with the
slice ts built so far. -/
def getTrianglesLoop (transforms : List (Transformations F)) :
    List Nat → Heap F → List Nat → Heap F × List Nat
  | [], h, ts => (h, ts)
  | t :: rest, h, ts =>
    let h1 := h.store t { h.mem t with visible := true }
    let r := applyTransforms transforms h1 t
    if (r.1.mem r.2).visible then getTrianglesLoop transforms rest r.1 (ts ++ [r.2])
    else getTrianglesLoop transforms rest r.1 ts

/-- Go: Shape.GetTriangles. -/
def Shape.GetTriangles (s : Shape F) (transforms : List (Transformations F)) (h : Heap F) :
    Heap F × List Nat :=
  getTrianglesLoop transforms s.ts h []

/-! ## The stages of the package -/

/-- The stage constructors that Triangle.go exports, with their arguments. -/
inductive Stage (F : Type) where
  | worldMatrices (matrices : List (Matrix4X4 F))
  | rotateX (a : F)
  | rotateY (a : F)
  | rotateZ (a : F)
  | translate (x y z : F)
  | camera (up camera lookDir : Vector F) (yaw : F)
  | normal (camera : Vector F)
  | project
  | center (x y : F)
  | shade (light : Vector F)

/-- The Go closure that a stage constructor returns; ops, math and projectionMatrix are
the package-level values the closures read. -/
def Stage.run [FloorRing F] (ops : MatrixOps F) (math : MathLib F)
    (projectionMatrix : Option (Matrix4X4 F)) : Stage F → Transformations F
  | .worldMatrices matrices => WorldMatrices ops matrices
  | .rotateX a => RotateX ops a
  | .rotateY a => RotateY ops a
  | .rotateZ a => RotateZ ops a
  | .translate x y z => Translate ops x y z
  | .camera up pos lookDir yaw => Camera ops up pos lookDir yaw
  | .normal pos => Normal math pos
  | .project => Project projectionMatrix
  | .center x y => Center x y
  | .shade light => Shade math light

/-! ## Definitions that follow the spec's words -/

/-- The face normal normalize(cross(v1 - v0, v2 - v0)) of the spec's Normal and Cull
stage. -/
def faceNormal (math : MathLib F) (v0 v1 v2 : Vector F) : Vector F :=
  ((v1.Subtract v0).CrossProduct (v2.Subtract v0)).Normalize math

/-- A stage that passes a culled triangle through and otherwise replaces the three
corners by their images under f. -/
def mapVertices (f : Vector F → Vector F) (T : Triangle F) : Triangle F :=
  if !T.visible then T
  else { T with vectors := arr3 (f (T.vectors 0)) (f (T.vectors 1)) (f (T.vectors 2)) }

/-- The spec's Normal and Cull stage on a triangle value. -/
def normalAndCull (math : MathLib F) (c : Vector F) (T : Triangle F) : Triangle F :=
  if !T.visible then T
  else
    { T with
      normal := faceNormal math (T.vectors 0) (T.vectors 1) (T.vectors 2)
      visible :=
        decide ((faceNormal math (T.vectors 0) (T.vectors 1) (T.vectors 2)).DotProduct1
          ((T.vectors 0).Subtract c) > 0) }

/-- The spec's Shade stage on a packed colour: the channels of FaceColor, with R, G and B
multiplied by the intensity and alpha unchanged, repacked. -/
def shadedColor [FloorRing F] (math : MathLib F) (light : Vector F) (T : Triangle F) : Nat :=
  let intensity := max (1 / 10) (T.normal.DotProduct1 (light.Normalize math))
  Color.Uint32
    { R := floatToUint8 ((T.FaceColor.R : F) * intensity)
      G := floatToUint8 ((T.FaceColor.G : F) * intensity)
      B := floatToUint8 ((T.FaceColor.B : F) * intensity)
      A := T.FaceColor.A }

/-- What a stage does to the value of the triangle it is given, in the words of the spec's
stage contracts. -/
def Stage.onValue [FloorRing F] (ops : MatrixOps F) (math : MathLib F)
    (projectionMatrix : Option (Matrix4X4 F)) : Stage F → Triangle F → Triangle F
  | .worldMatrices matrices =>
    mapVertices fun v => v.MatrixMultiply (matrices.foldl ops.MultiplyMatrix ops.IdentityMatrix)
  | .rotateX a => mapVertices fun v => v.MatrixMultiply (ops.RotateXMatrix a)
  | .rotateY a => mapVertices fun v => v.MatrixMultiply (ops.RotateYMatrix a)
  | .rotateZ a => mapVertices fun v => v.MatrixMultiply (ops.RotateZMatrix a)
  | .translate x y z => mapVertices fun v => v.MatrixMultiply (ops.TranslateMatrix x y z)
  | .camera up pos lookDir yaw =>
    mapVertices fun v => v.MatrixMultiply
      (ops.LookAtMatrix pos (pos.Add (lookDir.MatrixMultiply (ops.RotateYMatrix yaw))) up)
  | .normal pos => normalAndCull math pos
  | .project => mapVertices (G3.project projectionMatrix)
  | .center x y => mapVertices (G3.center x y)
  | .shade light => fun T => { T with color := shadedColor math light T }

/-- The per-frame working triangle of the spec: Visible reset to true, then every stage
applied in the given order. -/
def frameTriangle [FloorRing F] (ops : MatrixOps F) (math : MathLib F)
    (projectionMatrix : Option (Matrix4X4 F)) (stages : List (Stage F)) (T : Triangle F) :
    Triangle F :=
  stages.foldl (fun T' stage => stage.onValue ops math projectionMatrix T')
    { T with visible := true }

/-- The loop of Shape.GetTriangles written without the slice built so far. -/
def getTrianglesRec (transforms : List (Transformations F)) :
    List Nat → Heap F → Heap F × List Nat
  | [], h => (h, [])
  | t :: rest, h =>
    let r := applyTransforms transforms (h.store t { h.mem t with visible := true }) t
    let rs := getTrianglesRec transforms rest r.1
    (rs.1, if (r.1.mem r.2).visible then r.2 :: rs.2 else rs.2)

/-- The stages built on Triangle.process, which hand a visible triangle on as a new cell;
Normal and Shade are the two that write the cell they are given. -/
def Stage.copies : Stage F → Bool
  | .normal _ => false
  | .shade _ => false
  | _ => true

/-- A heap transformation f acts on the cell it is given as g acts on its value: it returns
that cell or a fresh one, holding g of the old value, and writes no other allocated cell. -/
structure ActsAs (f : Transformations F) (g : Triangle F → Triangle F) : Prop where
  next_le : ∀ h t, h.next ≤ (f h t).1.next
  ptr_lt : ∀ h t, t < h.next → (f h t).2 < (f h t).1.next
  ptr : ∀ h t, (f h t).2 = t ∨ h.next ≤ (f h t).2
  frame : ∀ h t b, b < h.next → b ≠ t → (f h t).1.mem b = h.mem b
  value : ∀ h t, (f h t).1.mem (f h t).2 = g (h.mem t)

/-! ## Division with the zero divisor made explicit -/

/-- Go: Vector.Divide, with the error condition of the spec, a zero divisor, made explicit
as none. -/
def Vector.DivideChecked (v : Vector F) (l : F) : Option (Vector F) :=
  if l = 0 then none else some (v.Divide l)

/-- Go: project, with its call of Divide checked. -/
def projectChecked (projectionMatrix : Option (Matrix4X4 F)) (v : Vector F) :
    Option (Vector F) :=
  match projectionMatrix with
  | none => some ⟨v.X, v.Y, v.Z, 0⟩
  | some pm =>
    let projected := v.MatrixMultiply pm
    if projected.W = 0 then some projected else projected.DivideChecked projected.W

/-! ## controller.go -/

namespace controller

/-- Go: type Camera struct of the controller package. -/
structure Camera (F : Type) where
  up : Vector F
  camera : Vector F
  lookDir : Vector F
  yaw : F
  light : Vector F

/-- Go: type Fov struct. -/
structure Fov (F : Type) where
  width : F
  height : F
  cw : F
  ch : F
  ndov : F
  fdov : F

/-- Go: type Controller struct, the fields that draw3D reads. -/
structure Controller (F : Type) where
  camera : Camera F
  fov : Fov F
  shapes : List (Shape F)

/-- Go: the first argument of shape.GetTriangles in Controller.draw3D; xa is the package
variable of that name. -/
def draw3DWorld (ops : MatrixOps F) (xa : F) : Transformations F :=
  WorldMatrices ops
    [ops.RotateXMatrix (xa * 1 / 2), ops.RotateYMatrix (xa * 2 / 3), ops.RotateZMatrix xa,
      ops.TranslateMatrix 0 0 9]

/-- Go: the arguments of shape.GetTriangles in Controller.draw3D. -/
def draw3DTransforms [FloorRing F] (ops : MatrixOps F) (math : MathLib F)
    (projectionMatrix : Option (Matrix4X4 F)) (c : Controller F) (xa : F) :
    List (Transformations F) :=
  [draw3DWorld ops xa,
    Normal math c.camera.camera,
    G3.Camera ops c.camera.up c.camera.camera c.camera.lookDir c.camera.yaw,
    Project projectionMatrix,
    Center c.fov.cw c.fov.ch,
    Shade math c.camera.light]

/-- Go: the body of the loop of Controller.draw3D up to the triangles ts of one shape. -/
def draw3DShape [FloorRing F] (ops : MatrixOps F) (math : MathLib F)
    (projectionMatrix : Option (Matrix4X4 F)) (c : Controller F) (xa : F) (shape : Shape F)
    (h : Heap F) : Heap F × List Nat :=
  shape.GetTriangles (draw3DTransforms ops math projectionMatrix c xa) h

/-- Go: the loop of Controller.draw3D over the shapes still to draw, with the triangle
lists handed to the renderer so far. -/
def draw3DLoop [FloorRing F] (ops : MatrixOps F) (math : MathLib F)
    (projectionMatrix : Option (Matrix4X4 F)) (c : Controller F) (xa : F) :
    List (Shape F) → Heap F → List (List Nat) → Heap F × List (List Nat)
  | [], h, drawn => (h, drawn)
  | shape :: rest, h, drawn =>
    let r := draw3DShape ops math projectionMatrix c xa shape h
    draw3DLoop ops math projectionMatrix c xa rest r.1 (drawn ++ [r.2])

/-- Go: Controller.draw3D. -/
def draw3D [FloorRing F] (ops : MatrixOps F) (math : MathLib F)
    (projectionMatrix : Option (Matrix4X4 F)) (c : Controller F) (xa : F) (h : Heap F) :
    Heap F × List (List Nat) :=
  draw3DLoop ops math projectionMatrix c xa c.shapes h []

end controller

/-- The world-space image of a vertex that the spec's World stage describes for a shape:
the vertex times RotationX(r.X), RotationY(r.Y), RotationZ(r.Z) and Translation(l), in
that order, for the shape's rotation r and location l. -/
def placementWorldVertex (math : MathLib F) (s : Shape F) (v : Vector F) : Vector F :=
  (((v.MatrixMultiply (RotationX math s.rotation.X)).MatrixMultiply
    (RotationY math s.rotation.Y)).MatrixMultiply
    (RotationZ math s.rotation.Z)).MatrixMultiply
    (Translation s.location.X s.location.Y s.location.Z)

/-! ## shape.go and Vector.go with the pointers of the structs

Shape.duplicate and Vector.Map are about which cells are shared, so here the fields of
type `*Vector` and `*Triangle` are addresses into a `Store` of Vector and Triangle cells. -/

namespace Ptr

/-- Go: type Triangle struct; vectors and normal hold the addresses of Vector cells. -/
structure Triangle where
  vectors : Fin 3 → Nat
  normal : Nat
  visible : Bool
  color : Nat

/-- Go: type Shape struct; ts holds the addresses of Triangle cells, and location, rotation
and scale the addresses of Vector cells. -/
structure Shape where
  ts : List Nat
  location : Nat
  rotation : Nat
  scale : Nat
  color : Color

/-- The Vector cells and Triangle cells that pointers refer to; the addresses below vnext
and tnext are the ones allocated so far. -/
structure Store (F : Type) where
  vec : Nat → Vector F
  vnext : Nat
  tri : Nat → Triangle
  tnext : Nat

/-- Go: &Vector(...), a fresh Vector cell. -/
def Store.allocVector (st : Store F) (v : Vector F) : Store F × Nat :=
  ({ st with vec := Function.update st.vec st.vnext v, vnext := st.vnext + 1 }, st.vnext)

/-- Go: &Triangle(...), a fresh Triangle cell. -/
def Store.allocTriangle (st : Store F) (t : Triangle) : Store F × Nat :=
  ({ st with tri := Function.update st.tri st.tnext t, tnext := st.tnext + 1 }, st.tnext)

/-- Go: NewVector, which returns a pointer to a new Vector. -/
def NewVector (st : Store F) (x y z : F) : Store F × Nat :=
  st.allocVector (G3.NewVector x y z)

/-- Go: NewTriangle, which keeps the three pointers it is given and allocates the normal. -/
def NewTriangle (st : Store F) (v1 v2 v3 : Nat) (color : Nat) : Store F × Nat :=
  let n := NewVector st 0 0 0
  n.1.allocTriangle { vectors := arr3 v1 v2 v3, color := color, normal := n.2, visible := false }

/-- Go: Vector.Map, four assignments through the pointer v of the fields read through v1. -/
def Map (st : Store F) (v v1 : Nat) : Store F :=
  let st1 := { st with vec := Function.update st.vec v { st.vec v with X := (st.vec v1).X } }
  let st2 := { st1 with vec := Function.update st1.vec v { st1.vec v with Y := (st1.vec v1).Y } }
  let st3 := { st2 with vec := Function.update st2.vec v { st2.vec v with Z := (st2.vec v1).Z } }
  { st3 with vec := Function.update st3.vec v { st3.vec v with W := (st3.vec v1).W } }

/-- Go: the loop of Shape.duplicate over the triangles still to copy, with the entries of
s2.ts filled so far. -/
def duplicateLoop : List Nat → Store F → List Nat → Store F × List Nat
  | [], st, ts => (st, ts)
  | t :: rest, st, ts =>
    let r := NewTriangle st ((st.tri t).vectors 0) ((st.tri t).vectors 1)
      ((st.tri t).vectors 2) (st.tri t).color
    duplicateLoop rest r.1 (ts ++ [r.2])

/-- Go: Shape.duplicate; the color field of the new Shape is not set. -/
def Shape.duplicate (s : Shape) (st : Store F) : Store F × Shape :=
  let l := NewVector st (st.vec s.location).X (st.vec s.location).Y (st.vec s.location).Z
  let r := NewVector l.1 (l.1.vec s.rotation).X (l.1.vec s.rotation).Y (l.1.vec s.rotation).Z
  let c := NewVector r.1 (r.1.vec s.scale).X (r.1.vec s.scale).Y (r.1.vec s.scale).Z
  let ts := duplicateLoop s.ts c.1 []
  (ts.1, { ts := ts.2, location := l.2, rotation := r.2, scale := c.2, color := ⟨0, 0, 0, 0⟩ })

/-- The value of corner i of the triangle at address t, as read through its pointer. -/
def Store.corner (st : Store F) (t : Nat) (i : Fin 3) : Vector F :=
  st.vec ((st.tri t).vectors i)

end Ptr

/-! ## shapes.go: the model loader -/

/-- A Go string as its sequence of bytes, each byte written as the character of the same
code; len(s) is the length of the list. -/
abbrev GoString := List Char

/-- Go: strings.Split(s, " "). -/
def splitSpace (s : GoString) : List GoString := s.splitOn ' '

/-- Go: the value of a decimal digit in strconv.ParseUint, none for any other byte. -/
def digitValue (c : Char) : Option Nat :=
  if '0' ≤ c ∧ c ≤ '9' then some (c.toNat - '0'.toNat) else none

/-- Go: the digit loop of strconv.ParseUint in base 10, without the range check. -/
def parseDigitsFrom : GoString → Nat → Option Nat
  | [], n => some n
  | c :: rest, n =>
    match digitValue c with
    | none => none
    | some d => parseDigitsFrom rest (n * 10 + d)

/-- Go: strconv.ParseUint(s, 10, _) without the range check; the empty string is a syntax
error. -/
def parseDigits (s : GoString) : Option Nat :=
  if s = [] then none else parseDigitsFrom s 0

/-- Go: strconv.ParseInt(s, 10, 32); none stands for a non-nil error, of syntax or of
range. -/
def ParseInt (s : GoString) : Option Int :=
  match s with
  | [] => none
  | c :: rest =>
    match parseDigits (if c = '+' ∨ c = '-' then rest else s) with
    | none => none
    | some un =>
      if c = '-' then (if un > 2 ^ 31 then none else some (-(un : Int)))
      else (if un ≥ 2 ^ 31 then none else some (un : Int))

/-- Go: the index expression pts[i] for an int64 index, none for the run-time panic of an
index out of range. -/
def indexVector (pts : List (Vector F)) (i : Int) : Option (Vector F) :=
  if 0 ≤ i then pts[i.toNat]? else none

/-- Go: parseVector; ParseFloat stands for strconv.ParseFloat(_, 32), none for a non-nil
error, and the result none for log.Panicf. -/
def parseVector (ParseFloat : GoString → Option F) (line : GoString) : Option (Vector F) :=
  let xyz := splitSpace line
  if xyz.length ≠ 3 ∧ xyz.length ≠ 4 then none
  else
    match ParseFloat (xyz.getD 0 []) with
    | none => none
    | some x =>
      match ParseFloat (xyz.getD 1 []) with
      | none => none
      | some y =>
        match ParseFloat (xyz.getD 2 []) with
        | none => none
        | some z => some (NewVector x y z)

/-- Go: parseFace; none stands for log.Panicf and for the run-time panic of an index out
of range. -/
def parseFace (pts : List (Vector F)) (line : GoString) : Option (Triangle F) :=
  let xyz := splitSpace line
  if xyz.length ≠ 3 then none
  else
    match ParseInt (xyz.getD 0 []) with
    | none => none
    | some x =>
      match ParseInt (xyz.getD 1 []) with
      | none => none
      | some y =>
        match ParseInt (xyz.getD 2 []) with
        | none => none
        | some z =>
          match indexVector pts (x - 1), indexVector pts (y - 1), indexVector pts (z - 1) with
          | some p, some q, some r =>
            some { vectors := arr3 p q r, normal := NewVector 0 0 0, visible := true,
                   color := 0xFFFFFFFF }
          | _, _, _ => none

/-- Go: the scanner loop of loadObject over the lines still to read, with the slices pts
and ts built so far; none stands for a panic, among them the one of line[:2] on a line of
one byte. -/
def loadLoop (ParseFloat : GoString → Option F) :
    List GoString → List (Vector F) → List (Triangle F) →
      Option (List (Vector F) × List (Triangle F))
  | [], pts, ts => some (pts, ts)
  | line :: rest, pts, ts =>
    if line.length = 0 then loadLoop ParseFloat rest pts ts
    else if line.length < 2 then none
    else if line.take 2 = ['v', ' '] then
      match parseVector ParseFloat (line.drop 2) with
      | none => none
      | some v => loadLoop ParseFloat rest (pts ++ [v]) ts
    else if line.take 2 = ['f', ' '] then
      match parseFace pts (line.drop 2) with
      | none => none
      | some t => loadLoop ParseFloat rest pts (ts ++ [t])
    else loadLoop ParseFloat rest pts ts

/-- Go: loadObject from the lines that the scanner yields to the triangles of the Shape it
returns. -/
def loadObject (ParseFloat : GoString → Option F) (lines : List GoString) :
    Option (List (Triangle F)) :=
  (loadLoop ParseFloat lines [] []).map Prod.snd

/-! ## The model file format in the spec's words -/

/-- The three indices of the body `i j k` of a face record: exactly three space-separated
fields, each a base-10 32-bit integer. -/
def faceFields (body : GoString) : Option (Int × Int × Int) :=
  match splitSpace body with
  | [a, b, c] =>
    match ParseInt a, ParseInt b, ParseInt c with
    | some i, some j, some k => some (i, j, k)
    | _, _, _ => none
  | _ => none

/-- The i-th of the vertices declared so far, counted from 1. -/
def vertexAt (declared : List (Vector F)) (i : Int) : Option (Vector F) :=
  if 1 ≤ i ∧ i ≤ declared.length then declared[(i - 1).toNat]? else none

/-- A well-formed line of a model file, given the number n of vertices declared before it:
a blank line, a vertex record that parses, a face record whose three indices lie in 1..n,
or a line of at least two bytes with another prefix. -/
def WellFormedLine (ParseFloat : GoString → Option F) (n : Nat) (line : GoString) : Prop :=
  line = [] ∨
  (line.take 2 = ['v', ' '] ∧ (parseVector ParseFloat (line.drop 2)).isSome = true) ∨
  (line.take 2 = ['f', ' '] ∧ ∃ i j k, faceFields (line.drop 2) = some (i, j, k) ∧
    (1 ≤ i ∧ i ≤ n) ∧ (1 ≤ j ∧ j ≤ n) ∧ (1 ≤ k ∧ k ≤ n)) ∨
  (2 ≤ line.length ∧ line.take 2 ≠ ['v', ' '] ∧ line.take 2 ≠ ['f', ' '])

/-- A sequence of well-formed lines, after n declared vertices. -/
def WellFormed (ParseFloat : GoString → Option F) : Nat → List GoString → Prop
  | _, [] => True
  | n, line :: rest =>
    WellFormedLine ParseFloat n line ∧
      WellFormed ParseFloat (if line.take 2 = ['v', ' '] then n + 1 else n) rest

/-- The vertices that the `v` lines among the given lines declare, in file order. -/
def declaredVertices (ParseFloat : GoString → Option F) (lines : List GoString) :
    List (Vector F) :=
  lines.filterMap fun line =>
    if line.take 2 = ['v', ' '] then parseVector ParseFloat (line.drop 2) else none

/-- The number of `f` lines among the given lines. -/
def faceCount (lines : List GoString) : Nat :=
  (lines.filter fun line => decide (line.take 2 = ['f', ' '])).length

/-- The triangle that the loader makes of three corners. -/
def loadedTriangle (a b c : Vector F) : Triangle F :=
  { vectors := arr3 a b c, normal := NewVector 0 0 0, visible := true, color := 0xFFFFFFFF }

/-! ## float64 with the special values of IEEE 754

The stages above divide in an ordered field, where a quotient by zero is a number. For the
one place where the pipeline can divide by zero, Normalize in the Normal stage, the
quotient is also given as float64 has it: 0 / 0 is NaN, a NaN operand makes the result
NaN, and a comparison with NaN is false. -/

/-- A float64 value: a finite number, the arithmetic of finite numbers being idealised as
exact, or one of the special values of IEEE 754. -/
inductive Float64 (F : Type) where
  | finite (x : F)
  | posInf
  | negInf
  | nan

namespace Float64

/-- Go: the quotient x / l of two finite float64 values, for a divisor l that is not the
negative zero. -/
def divide (x l : F) : Float64 F :=
  if l = 0 then (if x = 0 then nan else if 0 < x then posInf else negInf)
  else finite (x / l)

/-- Go: the product a * b of a float64 value and a finite one. -/
def mulFinite (a : Float64 F) (b : F) : Float64 F :=
  match a with
  | finite x => finite (x * b)
  | posInf => if b = 0 then nan else if 0 < b then posInf else negInf
  | negInf => if b = 0 then nan else if 0 < b then negInf else posInf
  | nan => nan

/-- Go: the sum a + b of two float64 values. -/
def add (a b : Float64 F) : Float64 F :=
  match a, b with
  | finite x, finite y => finite (x + y)
  | finite _, posInf => posInf
  | finite _, negInf => negInf
  | posInf, finite _ => posInf
  | posInf, posInf => posInf
  | negInf, finite _ => negInf
  | negInf, negInf => negInf
  | posInf, negInf => nan
  | negInf, posInf => nan
  | nan, _ => nan
  | _, nan => nan

/-- Go: the comparison a > 0 of a float64 value. -/
def gtZero (a : Float64 F) : Bool :=
  match a with
  | finite x => decide (x > 0)
  | posInf => true
  | negInf => false
  | nan => false

end Float64

/-- Go: Vector.Normalize of a vector of finite components, with the float64 quotients; the
length, a square root, is not the negative zero. -/
def Vector.NormalizeIEEE (math : MathLib F) (v : Vector F) :
    Float64 F × Float64 F × Float64 F :=
  let l := v.Length math
  (Float64.divide v.X l, Float64.divide v.Y l, Float64.divide v.Z l)

/-- Go: Vector.DotProduct, case 1 of the switch, of a vector of float64 components with a
vector of finite ones. -/
def DotProductIEEE (v : Float64 F × Float64 F × Float64 F) (v1 : Vector F) : Float64 F :=
  Float64.add (Float64.add (v.1.mulFinite v1.X) (v.2.1.mulFinite v1.Y)) (v.2.2.mulFinite v1.Z)

/-- Go: the Visible flag that Normal assigns to a triangle that is not culled, with the
float64 quotients of Normalize. -/
def normalVisibleIEEE (math : MathLib F) (camera : Vector F) (T : Triangle F) : Bool :=
  Float64.gtZero
    (DotProductIEEE
      (Vector.NormalizeIEEE math
        (((T.vectors 1).Subtract (T.vectors 0)).CrossProduct
          ((T.vectors 2).Subtract (T.vectors 0))))
      ((T.vectors 0).Subtract camera))

/-- A zero-area triangle: cross(v1 - v0, v2 - v0) = (0, 0, 0). -/
def Triangle.zeroArea (T : Triangle F) : Prop :=
  (((T.vectors 1).Subtract (T.vectors 0)).CrossProduct
      ((T.vectors 2).Subtract (T.vectors 0))).X = 0 ∧
  (((T.vectors 1).Subtract (T.vectors 0)).CrossProduct
      ((T.vectors 2).Subtract (T.vectors 0))).Y = 0 ∧
  (((T.vectors 1).Subtract (T.vectors 0)).CrossProduct
      ((T.vectors 2).Subtract (T.vectors 0))).Z = 0

/-! ## float64 with its rounding

In the sections above the arithmetic of finite float64 values is exact. In namespace
Binary64 every operation returns what IEEE 754 binary64 returns: the exact result over the
rationals, rounded to the nearest number with a significand of 53 bits and a unit in the
last place between 2 ^ -1074 and 2 ^ 971, a tie going to the even significand, and an
infinity on overflow. Each operation of the source is rounded on its own. The finite
values are rationals, so a zero has no sign; where the sign of a zero divisor decides a
result, the zero is the positive one. -/

namespace Binary64

/-- The natural number nearest to a non-negative rational, a tie going to the even one. -/
def roundHalfEven (x : ℚ) : ℕ :=
  if x - ⌊x⌋₊ < 1 / 2 then ⌊x⌋₊
  else if 1 / 2 < x - ⌊x⌋₊ then ⌊x⌋₊ + 1
  else if ⌊x⌋₊ % 2 = 0 then ⌊x⌋₊ else ⌊x⌋₊ + 1

/-- The exponent of the unit in the last place of binary64 at a positive rational a: 52
below the exponent of a, and -1074 in the subnormal range. -/
def quantum (a : ℚ) : ℤ := max (Int.log 2 a - 52) (-1074)

/-- The binary64 value that an exact result q is rounded to. -/
def round (q : ℚ) : Float64 ℚ :=
  if q = 0 then Float64.finite 0
  else if (2 : ℚ) ^ (1024 : ℤ) ≤ roundHalfEven (|q| / 2 ^ quantum |q|) * 2 ^ quantum |q| then
    (if 0 < q then Float64.posInf else Float64.negInf)
  else if 0 < q then Float64.finite (roundHalfEven (|q| / 2 ^ quantum |q|) * 2 ^ quantum |q|)
  else Float64.finite (-(roundHalfEven (|q| / 2 ^ quantum |q|) * 2 ^ quantum |q|))

/-- Go: the negation -a. -/
def neg : Float64 ℚ → Float64 ℚ
  | Float64.finite x => Float64.finite (-x)
  | Float64.posInf => Float64.negInf
  | Float64.negInf => Float64.posInf
  | Float64.nan => Float64.nan

/-- Go: the sum a + b. -/
def add : Float64 ℚ → Float64 ℚ → Float64 ℚ
  | Float64.finite x, Float64.finite y => round (x + y)
  | Float64.finite _, Float64.posInf => Float64.posInf
  | Float64.finite _, Float64.negInf => Float64.negInf
  | Float64.posInf, Float64.finite _ => Float64.posInf
  | Float64.posInf, Float64.posInf => Float64.posInf
  | Float64.negInf, Float64.finite _ => Float64.negInf
  | Float64.negInf, Float64.negInf => Float64.negInf
  | Float64.posInf, Float64.negInf => Float64.nan
  | Float64.negInf, Float64.posInf => Float64.nan
  | Float64.nan, _ => Float64.nan
  | _, Float64.nan => Float64.nan

/-- Go: the difference a - b. -/
def sub (a b : Float64 ℚ) : Float64 ℚ := add a (neg b)

/-- Go: the product a * b. -/
def mul : Float64 ℚ → Float64 ℚ → Float64 ℚ
  | Float64.finite x, Float64.finite y => round (x * y)
  | Float64.finite x, Float64.posInf =>
    if x = 0 then Float64.nan else if 0 < x then Float64.posInf else Float64.negInf
  | Float64.finite x, Float64.negInf =>
    if x = 0 then Float64.nan else if 0 < x then Float64.negInf else Float64.posInf
  | Float64.posInf, Float64.finite y =>
    if y = 0 then Float64.nan else if 0 < y then Float64.posInf else Float64.negInf
  | Float64.negInf, Float64.finite y =>
    if y = 0 then Float64.nan else if 0 < y then Float64.negInf else Float64.posInf
  | Float64.posInf, Float64.posInf => Float64.posInf
  | Float64.posInf, Float64.negInf => Float64.negInf
  | Float64.negInf, Float64.posInf => Float64.negInf
  | Float64.negInf, Float64.negInf => Float64.posInf
  | Float64.nan, _ => Float64.nan
  | _, Float64.nan => Float64.nan

/-- Go: the quotient a / b, which does not fault on a zero divisor. -/
def div : Float64 ℚ → Float64 ℚ → Float64 ℚ
  | Float64.finite x, Float64.finite y =>
    if y = 0 then
      (if x = 0 then Float64.nan else if 0 < x then Float64.posInf else Float64.negInf)
    else round (x / y)
  | Float64.finite _, Float64.posInf => Float64.finite 0
  | Float64.finite _, Float64.negInf => Float64.finite 0
  | Float64.posInf, Float64.finite y => if 0 ≤ y then Float64.posInf else Float64.negInf
  | Float64.negInf, Float64.finite y => if 0 ≤ y then Float64.negInf else Float64.posInf
  | Float64.posInf, Float64.posInf => Float64.nan
  | Float64.posInf, Float64.negInf => Float64.nan
  | Float64.negInf, Float64.posInf => Float64.nan
  | Float64.negInf, Float64.negInf => Float64.nan
  | Float64.nan, _ => Float64.nan
  | _, Float64.nan => Float64.nan

/-- Go: math.Sqrt of a binary64 value, the square root rounded to the nearest binary64
number. With p chosen so that s = x / 4 ^ p lies between 2 ^ 104 and 2 ^ 106, the root of
s lies between 2 ^ 52 and 2 ^ 53, m is its integer part, and the significand is m or
m + 1, whichever is nearer. -/
def sqrt : Float64 ℚ → Float64 ℚ
  | Float64.finite x =>
    if x < 0 then Float64.nan
    else if x = 0 then Float64.finite 0
    else if x / 2 ^ (2 * ((Int.log 2 x - 104) / 2)) <
        ((Nat.sqrt ⌊x / 2 ^ (2 * ((Int.log 2 x - 104) / 2))⌋₊ : ℚ) + 1 / 2) ^ 2 then
      Float64.finite
        (Nat.sqrt ⌊x / 2 ^ (2 * ((Int.log 2 x - 104) / 2))⌋₊ * 2 ^ ((Int.log 2 x - 104) / 2))
    else
      Float64.finite
        ((Nat.sqrt ⌊x / 2 ^ (2 * ((Int.log 2 x - 104) / 2))⌋₊ + 1) *
          2 ^ ((Int.log 2 x - 104) / 2))
  | Float64.posInf => Float64.posInf
  | Float64.negInf => Float64.nan
  | Float64.nan => Float64.nan

/-- Go: the built-in max of two float64 values, which is NaN when an argument is. -/
def max : Float64 ℚ → Float64 ℚ → Float64 ℚ
  | Float64.nan, _ => Float64.nan
  | _, Float64.nan => Float64.nan
  | Float64.posInf, _ => Float64.posInf
  | _, Float64.posInf => Float64.posInf
  | Float64.negInf, b => b
  | a, Float64.negInf => a
  | Float64.finite x, Float64.finite y => Float64.finite (if x < y then y else x)

/-- Go: the conversion float64(n) of a uint8, which is exact. -/
def ofUint8 (n : Nat) : Float64 ℚ := Float64.finite n

/-- Go: the conversion uint8(f) of a float64, which discards the fraction; Go leaves the
result open when the value does not fit, and an infinity or a NaN is given 0 here. -/
def toUint8 : Float64 ℚ → Nat
  | Float64.finite x => floatToUint8 x
  | _ => 0

/-- Go: NewVector. -/
def NewVector (x y z : Float64 ℚ) : Vector (Float64 ℚ) := ⟨x, y, z, Float64.finite 1⟩

/-- Go: Vector.DotProduct, case 0 of the switch (no argument). -/
def DotProduct0 (v : Vector (Float64 ℚ)) : Float64 ℚ :=
  add (add (mul v.X v.X) (mul v.Y v.Y)) (mul v.Z v.Z)

/-- Go: Vector.DotProduct, case 1 of the switch (one argument). -/
def DotProduct1 (v v1 : Vector (Float64 ℚ)) : Float64 ℚ :=
  add (add (mul v.X v1.X) (mul v.Y v1.Y)) (mul v.Z v1.Z)

/-- Go: Vector.Length. -/
def Length (v : Vector (Float64 ℚ)) : Float64 ℚ := sqrt (DotProduct0 v)

/-- Go: Vector.Normalize; the struct literal leaves W zero. -/
def Normalize (v : Vector (Float64 ℚ)) : Vector (Float64 ℚ) :=
  ⟨div v.X (Length v), div v.Y (Length v), div v.Z (Length v), Float64.finite 0⟩

/-- Go: Vector.CrossProduct. -/
def CrossProduct (v v1 : Vector (Float64 ℚ)) : Vector (Float64 ℚ) :=
  ⟨sub (mul v.Y v1.Z) (mul v.Z v1.Y), sub (mul v.Z v1.X) (mul v.X v1.Z),
    sub (mul v.X v1.Y) (mul v.Y v1.X), Float64.finite 0⟩

/-- Go: Vector.Subtract. -/
def Subtract (v v1 : Vector (Float64 ℚ)) : Vector (Float64 ℚ) :=
  ⟨sub v.X v1.X, sub v.Y v1.Y, sub v.Z v1.Z, Float64.finite 0⟩

/-- Go: Normal, which assigns t.normal and t.visible through the pointer. -/
def Normal (camera : Vector (Float64 ℚ)) : Transformations (Float64 ℚ) := fun h t =>
  if !(h.mem t).visible then (h, t)
  else
    let h1 := h.store t
      { h.mem t with
        normal := Normalize (CrossProduct
          (Subtract ((h.mem t).vectors 1) ((h.mem t).vectors 0))
          (Subtract ((h.mem t).vectors 2) ((h.mem t).vectors 0))) }
    let h2 := h1.store t
      { h1.mem t with
        visible := Float64.gtZero
          (DotProduct1 (h1.mem t).normal (Subtract ((h1.mem t).vectors 0) camera)) }
    (h2, t)

/-- Go: Shade, which assigns t.color through the pointer; the constant 0.1 is the binary64
number nearest to one tenth. -/
def Shade (light : Vector (Float64 ℚ)) : Transformations (Float64 ℚ) := fun h t =>
  let dp := max (round (1 / 10)) (DotProduct1 (h.mem t).normal (Normalize light))
  let c0 := (h.mem t).color
  let a := uint8 c0
  let c1 := c0 >>> 8
  let b := toUint8 (mul (ofUint8 (uint8 c1)) dp)
  let c2 := c1 >>> 8
  let g := toUint8 (mul (ofUint8 (uint8 c2)) dp)
  let c3 := c2 >>> 8
  let r := toUint8 (mul (ofUint8 (uint8 c3)) dp)
  (h.store t { h.mem t with color := Color.Uint32 { R := r, G := g, B := b, A := a } }, t)

end Binary64

/-! ## Theorems: matrices -/

@[simp] theorem arr4_zero {α : Type} (a b c d : α) : arr4 a b c d 0 = a := rfl

@[simp] theorem arr4_one {α : Type} (a b c d : α) : arr4 a b c d 1 = b := rfl

@[simp] theorem arr4_two {α : Type} (a b c d : α) : arr4 a b c d 2 = c := rfl

@[simp] theorem arr4_three {α : Type} (a b c d : α) : arr4 a b c d 3 = d := rfl

/-- C1: transforming a vector by the product A.Multiply(B) is transforming it by A and
then by B, in all four components. -/
theorem MatrixMultiply_Multiply (v : Vector F) (A B : Matrix4X4 F) :
    v.MatrixMultiply (A.Multiply B) = (v.MatrixMultiply A).MatrixMultiply B := by
  simp only [Vector.MatrixMultiply, Matrix4X4.Multiply, Vector.mk.injEq]
  refine ⟨?_, ?_, ?_, ?_⟩ <;> ring

/-- C2: the identity matrix is a left and a right unit of Multiply, entry by entry. -/
theorem Identity_Multiply (M : Matrix4X4 F) :
    (∀ r c, (Identity : Matrix4X4 F).Multiply M r c = M r c) ∧
    (∀ r c, M.Multiply (Identity : Matrix4X4 F) r c = M r c) := by
  constructor
  · intro r c
    fin_cases r <;> simp [Matrix4X4.Multiply, Identity]
  · intro r c
    fin_cases c <;> simp [Matrix4X4.Multiply, Identity]

/-! ## Theorems: the view matrix -/

/-- For every input the rotation block of LookAt holds right, up' and forward as its
columns, and the fourth column is (0, 0, 0, 1). -/
theorem LookAt_rotation_block (math : MathLib F) (pos target up : Vector F) :
    (∀ r : Fin 4, LookAt math pos target up r 0 =
      arr4 (((target.Subtract pos).Normalize math).CrossProduct
          ((up.Subtract (((target.Subtract pos).Normalize math).Multiply
            (up.DotProduct1 ((target.Subtract pos).Normalize math)))).Normalize math)).X
        (((target.Subtract pos).Normalize math).CrossProduct
          ((up.Subtract (((target.Subtract pos).Normalize math).Multiply
            (up.DotProduct1 ((target.Subtract pos).Normalize math)))).Normalize math)).Y
        (((target.Subtract pos).Normalize math).CrossProduct
          ((up.Subtract (((target.Subtract pos).Normalize math).Multiply
            (up.DotProduct1 ((target.Subtract pos).Normalize math)))).Normalize math)).Z
        (LookAt math pos target up 3 0) r) ∧
    (∀ r : Fin 4, LookAt math pos target up r 1 =
      arr4 ((up.Subtract (((target.Subtract pos).Normalize math).Multiply
            (up.DotProduct1 ((target.Subtract pos).Normalize math)))).Normalize math).X
        ((up.Subtract (((target.Subtract pos).Normalize math).Multiply
            (up.DotProduct1 ((target.Subtract pos).Normalize math)))).Normalize math).Y
        ((up.Subtract (((target.Subtract pos).Normalize math).Multiply
            (up.DotProduct1 ((target.Subtract pos).Normalize math)))).Normalize math).Z
        (LookAt math pos target up 3 1) r) ∧
    (∀ r : Fin 4, LookAt math pos target up r 2 =
      arr4 ((target.Subtract pos).Normalize math).X ((target.Subtract pos).Normalize math).Y
        ((target.Subtract pos).Normalize math).Z (LookAt math pos target up 3 2) r) ∧
    (∀ r : Fin 4, LookAt math pos target up r 3 = arr4 0 0 0 1 r) := by
  refine ⟨?_, ?_, ?_, ?_⟩ <;> intro r <;> fin_cases r <;> simp [LookAt]

/-- C3: at pos = (1,2,3), target = (2,2,3), up = (0,0,1) the basis is forward = (1,0,0),
up' = (0,0,1), right = (0,-1,0); the rotation block of LookAt holds right, up', forward as
its columns, but its fourth row is (-3, 1, -3, 1), not the negated dot products
(2, -3, -1, 1) of pos with right, up' and forward. -/
theorem LookAt_fourth_row_at_failing_input :
    let math : MathLib ℝ := ⟨Real.sqrt, Real.cos, Real.sin⟩
    let pos : Vector ℝ := NewVector 1 2 3
    let target : Vector ℝ := NewVector 2 2 3
    let up : Vector ℝ := NewVector 0 0 1
    let forward := (target.Subtract pos).Normalize math
    let up' := (up.Subtract (forward.Multiply (up.DotProduct1 forward))).Normalize math
    let right := forward.CrossProduct up'
    let V := LookAt math pos target up
    (forward = ⟨1, 0, 0, 0⟩ ∧ up' = ⟨0, 0, 1, 0⟩ ∧ right = ⟨0, -1, 0, 0⟩) ∧
    (V 0 0 = right.X ∧ V 1 0 = right.Y ∧ V 2 0 = right.Z ∧
     V 0 1 = up'.X ∧ V 1 1 = up'.Y ∧ V 2 1 = up'.Z ∧
     V 0 2 = forward.X ∧ V 1 2 = forward.Y ∧ V 2 2 = forward.Z) ∧
    (V 3 0 = -3 ∧ V 3 1 = 1 ∧ V 3 2 = -3 ∧ V 3 3 = 1) ∧
    (-(pos.DotProduct1 right) = 2 ∧ -(pos.DotProduct1 up') = -3 ∧
     -(pos.DotProduct1 forward) = -1) := by
  simp [LookAt, NewVector, Vector.Normalize, Vector.Length, Vector.Subtract, Vector.Multiply,
    Vector.DotProduct0, Vector.DotProduct1, Vector.CrossProduct]
  norm_num

/-- C4: at pos = (1,2,3), target = (2,2,3), up = (0,0,1) the view matrix sends the camera
position to (-5, 4, -2, 1), not to the origin, and the point one unit ahead of the camera
to (-5, 4, -1, 1), not to (0, 0, 1, 1). -/
theorem LookAt_camera_image_at_failing_input :
    let math : MathLib ℝ := ⟨Real.sqrt, Real.cos, Real.sin⟩
    let pos : Vector ℝ := NewVector 1 2 3
    let target : Vector ℝ := NewVector 2 2 3
    let up : Vector ℝ := NewVector 0 0 1
    let forward := (target.Subtract pos).Normalize math
    let ahead : Vector ℝ := NewVector (pos.X + forward.X) (pos.Y + forward.Y) (pos.Z + forward.Z)
    let V := LookAt math pos target up
    pos.MatrixMultiply V = ⟨-5, 4, -2, 1⟩ ∧ pos.MatrixMultiply V ≠ ⟨0, 0, 0, 1⟩ ∧
    ahead.MatrixMultiply V = ⟨-5, 4, -1, 1⟩ ∧ ahead.MatrixMultiply V ≠ ⟨0, 0, 1, 1⟩ := by
  simp [LookAt, NewVector, Vector.Normalize, Vector.Length, Vector.Subtract, Vector.Multiply,
    Vector.DotProduct0, Vector.DotProduct1, Vector.CrossProduct, Vector.MatrixMultiply]
  norm_num

/-- C5: at pos = (1,2,3), target = (2,2,3), up = (0,0,1) neither product of PointAt and
LookAt is the identity: the entry in row 3, column 0 is -5 for PointAt.Multiply(LookAt)
and -2 for LookAt.Multiply(PointAt), where the identity has 0. -/
theorem PointAt_LookAt_products_at_failing_input :
    let math : MathLib ℝ := ⟨Real.sqrt, Real.cos, Real.sin⟩
    let pos : Vector ℝ := NewVector 1 2 3
    let target : Vector ℝ := NewVector 2 2 3
    let up : Vector ℝ := NewVector 0 0 1
    let P := PointAt math pos target up
    let V := LookAt math pos target up
    (P.Multiply V) 3 0 = -5 ∧ (V.Multiply P) 3 0 = -2 ∧ (Identity : Matrix4X4 ℝ) 3 0 = 0 ∧
    P.Multiply V ≠ Identity ∧ V.Multiply P ≠ Identity := by
  have h1 : (Matrix4X4.Multiply (PointAt (⟨Real.sqrt, Real.cos, Real.sin⟩ : MathLib ℝ)
      (NewVector 1 2 3) (NewVector 2 2 3) (NewVector 0 0 1))
      (LookAt ⟨Real.sqrt, Real.cos, Real.sin⟩ (NewVector 1 2 3) (NewVector 2 2 3)
        (NewVector 0 0 1))) 3 0 = -5 := by
    simp [LookAt, PointAt, Matrix4X4.Multiply, NewVector, Vector.Normalize, Vector.Length,
      Vector.Subtract, Vector.Multiply, Vector.DotProduct0, Vector.DotProduct1,
      Vector.CrossProduct]
    norm_num
  have h2 : (Matrix4X4.Multiply (LookAt (⟨Real.sqrt, Real.cos, Real.sin⟩ : MathLib ℝ)
      (NewVector 1 2 3) (NewVector 2 2 3) (NewVector 0 0 1))
      (PointAt ⟨Real.sqrt, Real.cos, Real.sin⟩ (NewVector 1 2 3) (NewVector 2 2 3)
        (NewVector 0 0 1))) 3 0 = -2 := by
    simp [LookAt, PointAt, Matrix4X4.Multiply, NewVector, Vector.Normalize, Vector.Length,
      Vector.Subtract, Vector.Multiply, Vector.DotProduct0, Vector.DotProduct1,
      Vector.CrossProduct]
    norm_num
  have h3 : (Identity : Matrix4X4 ℝ) 3 0 = 0 := by simp [Identity]
  refine ⟨h1, h2, h3, ?_, ?_⟩
  · intro h
    rw [h, h3] at h1
    norm_num at h1
  · intro h
    rw [h, h3] at h2
    norm_num at h2

/-! ## Theorems: the Normal stage -/

theorem Vector.DotProduct1_Normalize (math : MathLib F) (v d : Vector F) :
    (v.Normalize math).DotProduct1 d = v.DotProduct1 d / v.Length math := by
  simp only [Vector.Normalize, Vector.DotProduct1]
  ring

theorem Vector.DotProduct0_nonneg (v : Vector F) : 0 ≤ v.DotProduct0 := by
  unfold Vector.DotProduct0
  exact add_nonneg (add_nonneg (mul_self_nonneg _) (mul_self_nonneg _)) (mul_self_nonneg _)

theorem Vector.Length_pos (math : MathLib F) (hm : math.Exact) (v : Vector F)
    (hv : v.DotProduct0 ≠ 0) : 0 < v.Length math := by
  have h0 : 0 ≤ v.Length math := hm.sqrt_nonneg _
  have h1 : v.Length math * v.Length math = v.DotProduct0 :=
    hm.sqrt_mul_self _ v.DotProduct0_nonneg
  rcases h0.lt_or_eq with h | h
  · exact h
  · rw [← h] at h1
    simp at h1
    exact absurd h1.symm hv

theorem Vector.DotProduct0_CrossProduct_swap (a b : Vector F) :
    (b.CrossProduct a).DotProduct0 = (a.CrossProduct b).DotProduct0 := by
  simp only [Vector.CrossProduct, Vector.DotProduct0]
  ring

theorem Vector.DotProduct1_CrossProduct_swap (a b d : Vector F) :
    (b.CrossProduct a).DotProduct1 d = -((a.CrossProduct b).DotProduct1 d) := by
  simp only [Vector.CrossProduct, Vector.DotProduct1]
  ring

theorem Vector.DotProduct0_ne_zero_of_DotProduct1 (n d : Vector F)
    (h : n.DotProduct1 d ≠ 0) : n.DotProduct0 ≠ 0 := by
  intro h0
  apply h
  have hx : n.X = 0 ∧ n.Y = 0 ∧ n.Z = 0 := by
    unfold Vector.DotProduct0 at h0
    have hX := mul_self_nonneg n.X
    have hY := mul_self_nonneg n.Y
    have hZ := mul_self_nonneg n.Z
    refine ⟨?_, ?_, ?_⟩ <;> apply mul_self_eq_zero.mp <;> linarith
  simp [Vector.DotProduct1, hx.1, hx.2.1, hx.2.2]

/-- C6: on a visible triangle the Normal(c) stage returns the same pointer, sets the normal
to normalize(cross(v1 - v0, v2 - v0)), sets Visible to true exactly when
dot(normal, v0 - c) > 0 (so an edge-on triangle, dot = 0, is culled) and leaves the
vertices and the colour unchanged. -/
theorem Normal_on_visible (math : MathLib F) (c : Vector F) (h : Heap F) (t : Nat)
    (hv : (h.mem t).visible = true) :
    (Normal math c h t).2 = t ∧
    ((Normal math c h t).1.mem t).normal =
      faceNormal math ((h.mem t).vectors 0) ((h.mem t).vectors 1) ((h.mem t).vectors 2) ∧
    (((Normal math c h t).1.mem t).visible = true ↔
      (faceNormal math ((h.mem t).vectors 0) ((h.mem t).vectors 1)
        ((h.mem t).vectors 2)).DotProduct1 (((h.mem t).vectors 0).Subtract c) > 0) ∧
    ((faceNormal math ((h.mem t).vectors 0) ((h.mem t).vectors 1)
        ((h.mem t).vectors 2)).DotProduct1 (((h.mem t).vectors 0).Subtract c) = 0 →
      ((Normal math c h t).1.mem t).visible = false) ∧
    ((Normal math c h t).1.mem t).vectors = (h.mem t).vectors ∧
    ((Normal math c h t).1.mem t).color = (h.mem t).color := by
  simp [Normal, hv, Heap.store, faceNormal]
  intro h0
  rw [h0]

/-- The instance of C6 at the triangle (0,0,1), (1,0,1), (0,1,1) seen from the origin: the
triangle is visible before the stage and, its normal (0,0,1) having dot product 1 with
v0 - c, visible after it. -/
theorem Normal_on_visible_witness :
    ((⟨fun _ => ⟨arr3 (NewVector 0 0 1) (NewVector 1 0 1) (NewVector 0 1 1), NewVector 0 0 0,
        true, 0xFF0000FF⟩, 1⟩ : Heap ℝ).mem 0).visible = true ∧
    ((Normal ⟨Real.sqrt, Real.cos, Real.sin⟩ (NewVector 0 0 0)
        (⟨fun _ => ⟨arr3 (NewVector 0 0 1) (NewVector 1 0 1) (NewVector 0 1 1),
          NewVector 0 0 0, true, 0xFF0000FF⟩, 1⟩ : Heap ℝ) 0).1.mem 0).visible = true :=
  ⟨rfl, (Normal_on_visible ⟨Real.sqrt, Real.cos, Real.sin⟩ (NewVector 0 0 0)
    (⟨fun _ => ⟨arr3 (NewVector 0 0 1) (NewVector 1 0 1) (NewVector 0 1 1), NewVector 0 0 0,
      true, 0xFF0000FF⟩, 1⟩ : Heap ℝ) 0 rfl).2.2.1.mpr (by
        simp [faceNormal, arr3, NewVector, Vector.Normalize, Vector.Length, Vector.Subtract,
          Vector.DotProduct0, Vector.DotProduct1, Vector.CrossProduct])⟩

theorem Normal_visible_eq (math : MathLib F) (c : Vector F) (h : Heap F) (t : Nat)
    (hv : (h.mem t).visible = true) :
    ((Normal math c h t).1.mem t).visible =
      decide ((faceNormal math ((h.mem t).vectors 0) ((h.mem t).vectors 1)
        ((h.mem t).vectors 2)).DotProduct1 (((h.mem t).vectors 0).Subtract c) > 0) := by
  simp [Normal, hv, Heap.store, faceNormal]

theorem faceNormal_dot (math : MathLib F) (v0 v1 v2 d : Vector F) :
    (faceNormal math v0 v1 v2).DotProduct1 d =
      ((v1.Subtract v0).CrossProduct (v2.Subtract v0)).DotProduct1 d /
        ((v1.Subtract v0).CrossProduct (v2.Subtract v0)).Length math := by
  unfold faceNormal
  exact Vector.DotProduct1_Normalize math _ d

theorem faceNormal_dot_swap (math : MathLib F) (v0 v1 v2 d : Vector F) :
    (faceNormal math v0 v2 v1).DotProduct1 d =
      -(((v1.Subtract v0).CrossProduct (v2.Subtract v0)).DotProduct1 d) /
        ((v1.Subtract v0).CrossProduct (v2.Subtract v0)).Length math := by
  rw [faceNormal_dot, Vector.DotProduct1_CrossProduct_swap]
  unfold Vector.Length
  rw [Vector.DotProduct0_CrossProduct_swap]

/-- C7, under exact arithmetic: back-face culling is winding-sensitive. With exact products
and an exact square root, when dot(cross(v1 - v0, v2 - v0), v0 - c) is not zero (so the
triangle is not degenerate), exactly one of the triangle (v0, v1, v2) and its
reversed-winding triangle (v0, v2, v1) is left visible by Normal(c). -/
theorem Normal_winding_sensitive (math : MathLib F) (hm : math.Exact) (c v0 v1 v2 : Vector F)
    (h h' : Heap F) (t t' : Nat)
    (hv : (h.mem t).visible = true) (ht : (h.mem t).vectors = arr3 v0 v1 v2)
    (hv' : (h'.mem t').visible = true) (ht' : (h'.mem t').vectors = arr3 v0 v2 v1)
    (hd : ((v1.Subtract v0).CrossProduct (v2.Subtract v0)).DotProduct1 (v0.Subtract c) ≠ 0) :
    (((Normal math c h t).1.mem t).visible = true ∧
      ((Normal math c h' t').1.mem t').visible = false) ∨
    (((Normal math c h t).1.mem t).visible = false ∧
      ((Normal math c h' t').1.mem t').visible = true) := by
  have hL : 0 < ((v1.Subtract v0).CrossProduct (v2.Subtract v0)).Length math :=
    Vector.Length_pos math hm _ (Vector.DotProduct0_ne_zero_of_DotProduct1 _ _ hd)
  have e0 : arr3 v0 v1 v2 0 = v0 := rfl
  have e1 : arr3 v0 v1 v2 1 = v1 := rfl
  have e2 : arr3 v0 v1 v2 2 = v2 := rfl
  have f0 : arr3 v0 v2 v1 0 = v0 := rfl
  have f1 : arr3 v0 v2 v1 1 = v2 := rfl
  have f2 : arr3 v0 v2 v1 2 = v1 := rfl
  rw [Normal_visible_eq math c h t hv, Normal_visible_eq math c h' t' hv', ht, ht', e0, e1, e2,
    f0, f1, f2, faceNormal_dot, faceNormal_dot_swap]
  rcases lt_or_gt_of_ne hd with hneg | hpos
  · right
    constructor
    · rw [decide_eq_false_iff_not, not_lt]
      exact (div_neg_of_neg_of_pos hneg hL).le
    · rw [decide_eq_true_iff]
      exact div_pos (neg_pos.mpr hneg) hL
  · left
    constructor
    · rw [decide_eq_true_iff]
      exact div_pos hpos hL
    · rw [decide_eq_false_iff_not, not_lt]
      exact (div_neg_of_neg_of_pos (neg_neg_of_pos hpos) hL).le

/-- The instance of C7 with the camera at the origin: the triangle (0,0,1), (1,0,1), (0,1,1)
is left visible and the reversed winding (0,0,1), (0,1,1), (1,0,1) is culled. -/
theorem Normal_winding_sensitive_witness :
    (((NewVector 1 0 1 : Vector ℝ).Subtract (NewVector 0 0 1)).CrossProduct
      ((NewVector 0 1 1 : Vector ℝ).Subtract (NewVector 0 0 1))).DotProduct1
        ((NewVector 0 0 1 : Vector ℝ).Subtract (NewVector 0 0 0)) ≠ 0 ∧
    ((((Normal ⟨Real.sqrt, Real.cos, Real.sin⟩ (NewVector 0 0 0)
        (⟨fun _ => ⟨arr3 (NewVector 0 0 1) (NewVector 1 0 1) (NewVector 0 1 1),
          NewVector 0 0 0, true, 0xFF0000FF⟩, 1⟩ : Heap ℝ) 0).1.mem 0).visible = true ∧
      ((Normal ⟨Real.sqrt, Real.cos, Real.sin⟩ (NewVector 0 0 0)
        (⟨fun _ => ⟨arr3 (NewVector 0 0 1) (NewVector 0 1 1) (NewVector 1 0 1),
          NewVector 0 0 0, true, 0xFF0000FF⟩, 1⟩ : Heap ℝ) 0).1.mem 0).visible = false) ∨
     (((Normal ⟨Real.sqrt, Real.cos, Real.sin⟩ (NewVector 0 0 0)
        (⟨fun _ => ⟨arr3 (NewVector 0 0 1) (NewVector 1 0 1) (NewVector 0 1 1),
          NewVector 0 0 0, true, 0xFF0000FF⟩, 1⟩ : Heap ℝ) 0).1.mem 0).visible = false ∧
      ((Normal ⟨Real.sqrt, Real.cos, Real.sin⟩ (NewVector 0 0 0)
        (⟨fun _ => ⟨arr3 (NewVector 0 0 1) (NewVector 0 1 1) (NewVector 1 0 1),
          NewVector 0 0 0, true, 0xFF0000FF⟩, 1⟩ : Heap ℝ) 0).1.mem 0).visible = true)) ∧
    ((Normal ⟨Real.sqrt, Real.cos, Real.sin⟩ (NewVector 0 0 0)
        (⟨fun _ => ⟨arr3 (NewVector 0 0 1) (NewVector 1 0 1) (NewVector 0 1 1),
          NewVector 0 0 0, true, 0xFF0000FF⟩, 1⟩ : Heap ℝ) 0).1.mem 0).visible = true ∧
    ((Normal ⟨Real.sqrt, Real.cos, Real.sin⟩ (NewVector 0 0 0)
        (⟨fun _ => ⟨arr3 (NewVector 0 0 1) (NewVector 0 1 1) (NewVector 1 0 1),
          NewVector 0 0 0, true, 0xFF0000FF⟩, 1⟩ : Heap ℝ) 0).1.mem 0).visible = false := by
  have hd : (((NewVector 1 0 1 : Vector ℝ).Subtract (NewVector 0 0 1)).CrossProduct
      ((NewVector 0 1 1 : Vector ℝ).Subtract (NewVector 0 0 1))).DotProduct1
        ((NewVector 0 0 1 : Vector ℝ).Subtract (NewVector 0 0 0)) ≠ 0 := by
    simp [NewVector, Vector.Subtract, Vector.CrossProduct, Vector.DotProduct1]
  refine ⟨hd, Normal_winding_sensitive ⟨Real.sqrt, Real.cos, Real.sin⟩
    ⟨Real.sqrt_nonneg, fun x hx => Real.mul_self_sqrt hx⟩ (NewVector 0 0 0) (NewVector 0 0 1)
    (NewVector 1 0 1) (NewVector 0 1 1) _ _ 0 0 rfl rfl rfl rfl hd, ?_, ?_⟩
  · simp [Normal, Heap.store, arr3, NewVector, Vector.Normalize, Vector.Length,
      Vector.Subtract, Vector.DotProduct0, Vector.DotProduct1, Vector.CrossProduct]
  · simp [Normal, Heap.store, arr3, NewVector, Vector.Normalize, Vector.Length,
      Vector.Subtract, Vector.DotProduct0, Vector.DotProduct1, Vector.CrossProduct]

/-! ## Theorems: stages act on the cell they are given -/

theorem process_actsAs (a : Vector F → Vector F) :
    ActsAs (fun h t => Triangle.process h t (a ((h.mem t).vectors 0))
      (a ((h.mem t).vectors 1)) (a ((h.mem t).vectors 2))) (mapVertices a) where
  next_le h t := by
    by_cases hv : (h.mem t).visible <;> simp [Triangle.process, Heap.alloc, hv]
  ptr_lt h t ht := by
    by_cases hv : (h.mem t).visible <;> simp [Triangle.process, Heap.alloc, hv, ht]
  ptr h t := by
    by_cases hv : (h.mem t).visible <;> simp [Triangle.process, Heap.alloc, hv]
  frame h t b hb hbt := by
    by_cases hv : (h.mem t).visible
    · simp [Triangle.process, Heap.alloc, hv, Function.update_noteq (Nat.ne_of_lt hb)]
    · simp [Triangle.process, hv]
  value h t := by
    by_cases hv : (h.mem t).visible <;> simp [Triangle.process, Heap.alloc, hv, mapVertices]

theorem Normal_actsAs (math : MathLib F) (c : Vector F) :
    ActsAs (Normal math c) (normalAndCull math c) where
  next_le h t := by
    by_cases hv : (h.mem t).visible <;> simp [Normal, Heap.store, hv]
  ptr_lt h t ht := by
    by_cases hv : (h.mem t).visible <;> simp [Normal, Heap.store, hv, ht]
  ptr h t := by
    by_cases hv : (h.mem t).visible <;> simp [Normal, Heap.store, hv]
  frame h t b _ hbt := by
    by_cases hv : (h.mem t).visible <;>
      simp [Normal, Heap.store, hv, Function.update_noteq hbt]
  value h t := by
    by_cases hv : (h.mem t).visible <;>
      simp [Normal, Heap.store, hv, normalAndCull, faceNormal]

theorem Shade_color [FloorRing F] (math : MathLib F) (light : Vector F) (h : Heap F) (t : Nat) :
    ((Shade math light h t).1.mem t).color = shadedColor math light (h.mem t) := by
  have e2 : (h.mem t).color >>> 8 >>> 8 = (h.mem t).color >>> 16 := by
    rw [← Nat.shiftRight_add]
  have e3 : (h.mem t).color >>> 16 >>> 8 = (h.mem t).color >>> 24 := by
    rw [← Nat.shiftRight_add]
  simp [Shade, Heap.store, shadedColor, Triangle.FaceColor, e2, e3]

theorem Shade_actsAs [FloorRing F] (math : MathLib F) (light : Vector F) :
    ActsAs (Shade math light) (fun T => { T with color := shadedColor math light T }) where
  next_le h t := by simp [Shade, Heap.store]
  ptr_lt h t ht := by simp [Shade, Heap.store, ht]
  ptr h t := by simp [Shade, Heap.store]
  frame h t b _ hbt := by simp [Shade, Heap.store, Function.update_noteq hbt]
  value h t := by
    have hc := Shade_color math light h t
    simp [Shade, Heap.store] at hc ⊢
    exact hc

theorem Stage.run_actsAs [FloorRing F] (ops : MatrixOps F) (math : MathLib F)
    (projectionMatrix : Option (Matrix4X4 F)) (stage : Stage F) :
    ActsAs (stage.run ops math projectionMatrix) (stage.onValue ops math projectionMatrix) := by
  cases stage with
  | worldMatrices matrices =>
    exact process_actsAs fun v =>
      v.MatrixMultiply (matrices.foldl ops.MultiplyMatrix ops.IdentityMatrix)
  | rotateX a => exact process_actsAs fun v => v.MatrixMultiply (ops.RotateXMatrix a)
  | rotateY a => exact process_actsAs fun v => v.MatrixMultiply (ops.RotateYMatrix a)
  | rotateZ a => exact process_actsAs fun v => v.MatrixMultiply (ops.RotateZMatrix a)
  | translate x y z => exact process_actsAs fun v => v.MatrixMultiply (ops.TranslateMatrix x y z)
  | camera up pos lookDir yaw =>
    exact process_actsAs fun v => v.MatrixMultiply
      (ops.LookAtMatrix pos (pos.Add (lookDir.MatrixMultiply (ops.RotateYMatrix yaw))) up)
  | normal pos => exact Normal_actsAs math pos
  | project => exact process_actsAs (G3.project projectionMatrix)
  | center x y => exact process_actsAs (G3.center x y)
  | shade light => exact Shade_actsAs math light

/-! ## Theorems: Shape.GetTriangles -/

theorem getTrianglesLoop_eq_rec (transforms : List (Transformations F)) (ts : List Nat) :
    ∀ (h : Heap F) (acc : List Nat),
      getTrianglesLoop transforms ts h acc =
        ((getTrianglesRec transforms ts h).1, acc ++ (getTrianglesRec transforms ts h).2) := by
  induction ts with
  | nil => intro h acc; simp [getTrianglesLoop, getTrianglesRec]
  | cons t rest ih =>
    intro h acc
    simp only [getTrianglesLoop, getTrianglesRec]
    split <;> simp [ih]

theorem applyTransforms_stages [FloorRing F] (ops : MatrixOps F) (math : MathLib F)
    (projectionMatrix : Option (Matrix4X4 F)) (stages : List (Stage F)) :
    ∀ (h : Heap F) (t : Nat), t < h.next →
      h.next ≤ (applyTransforms (stages.map (Stage.run ops math projectionMatrix)) h t).1.next ∧
      (applyTransforms (stages.map (Stage.run ops math projectionMatrix)) h t).2 <
        (applyTransforms (stages.map (Stage.run ops math projectionMatrix)) h t).1.next ∧
      ((applyTransforms (stages.map (Stage.run ops math projectionMatrix)) h t).2 = t ∨
        h.next ≤ (applyTransforms (stages.map (Stage.run ops math projectionMatrix)) h t).2) ∧
      (∀ b, b < h.next → b ≠ t →
        (applyTransforms (stages.map (Stage.run ops math projectionMatrix)) h t).1.mem b =
          h.mem b) ∧
      (applyTransforms (stages.map (Stage.run ops math projectionMatrix)) h t).1.mem
          (applyTransforms (stages.map (Stage.run ops math projectionMatrix)) h t).2 =
        stages.foldl (fun T stage => stage.onValue ops math projectionMatrix T) (h.mem t) := by
  induction stages with
  | nil =>
    intro h t ht
    simp [applyTransforms, ht]
  | cons stage rest ih =>
    intro h t ht
    have A := Stage.run_actsAs ops math projectionMatrix stage
    have hstep : applyTransforms ((stage :: rest).map (Stage.run ops math projectionMatrix)) h t =
        applyTransforms (rest.map (Stage.run ops math projectionMatrix))
          (stage.run ops math projectionMatrix h t).1
          (stage.run ops math projectionMatrix h t).2 := rfl
    rw [hstep]
    obtain ⟨i1, i2, i3, i4, i5⟩ := ih _ _ (A.ptr_lt h t ht)
    have hn := A.next_le h t
    refine ⟨le_trans hn i1, i2, ?_, ?_, ?_⟩
    · rcases i3 with e | e
      · rw [e]
        exact A.ptr h t
      · exact Or.inr (le_trans hn e)
    · intro b hb hbt
      have hne : b ≠ (stage.run ops math projectionMatrix h t).2 := by
        rcases A.ptr h t with e | e
        · rw [e]
          exact hbt
        · exact Nat.ne_of_lt (lt_of_lt_of_le hb e)
      rw [i4 b (lt_of_lt_of_le hb hn) hne]
      exact A.frame h t b hb hbt
    · rw [i5, A.value h t]
      rfl

theorem getTrianglesRec_stages [FloorRing F] (ops : MatrixOps F) (math : MathLib F)
    (projectionMatrix : Option (Matrix4X4 F)) (stages : List (Stage F)) (ts : List Nat) :
    ∀ (h : Heap F), (∀ t ∈ ts, t < h.next) → ts.Nodup →
      h.next ≤
        (getTrianglesRec (stages.map (Stage.run ops math projectionMatrix)) ts h).1.next ∧
      (∀ b, b < h.next → b ∉ ts →
        (getTrianglesRec (stages.map (Stage.run ops math projectionMatrix)) ts h).1.mem b =
          h.mem b) ∧
      (getTrianglesRec (stages.map (Stage.run ops math projectionMatrix)) ts h).2.map
          (getTrianglesRec (stages.map (Stage.run ops math projectionMatrix)) ts h).1.mem =
        (ts.map fun t => frameTriangle ops math projectionMatrix stages (h.mem t)).filter
          fun T => T.visible := by
  induction ts with
  | nil =>
    intro h _ _
    simp [getTrianglesRec]
  | cons t rest ih =>
    intro h hwf hnd
    have ht : t < h.next := hwf t (List.mem_cons_self _ _)
    obtain ⟨hnotin, hnd'⟩ := List.nodup_cons.mp hnd
    obtain ⟨a1, a2, a3, a4, a5⟩ := applyTransforms_stages ops math projectionMatrix stages
      (h.store t { h.mem t with visible := true }) t ht
    have hwf' : ∀ t' ∈ rest, t' < (applyTransforms
        (stages.map (Stage.run ops math projectionMatrix))
        (h.store t { h.mem t with visible := true }) t).1.next :=
      fun t' ht' => lt_of_lt_of_le (hwf t' (List.mem_cons_of_mem _ ht')) a1
    obtain ⟨b1, b2, b3⟩ := ih _ hwf' hnd'
    have hsrc : ∀ b, b < h.next → b ≠ t →
        (applyTransforms (stages.map (Stage.run ops math projectionMatrix))
          (h.store t { h.mem t with visible := true }) t).1.mem b = h.mem b := by
      intro b hb hbt
      rw [a4 b hb hbt]
      simp [Heap.store, Function.update_noteq hbt]
    have hval : (applyTransforms (stages.map (Stage.run ops math projectionMatrix))
          (h.store t { h.mem t with visible := true }) t).1.mem
        (applyTransforms (stages.map (Stage.run ops math projectionMatrix))
          (h.store t { h.mem t with visible := true }) t).2 =
        frameTriangle ops math projectionMatrix stages (h.mem t) := by
      rw [a5]
      simp [Heap.store, frameTriangle]
    have hnotin2 : (applyTransforms (stages.map (Stage.run ops math projectionMatrix))
          (h.store t { h.mem t with visible := true }) t).2 ∉ rest := by
      rcases a3 with e | e
      · rw [e]
        exact hnotin
      · intro hmem
        exact absurd (hwf _ (List.mem_cons_of_mem _ hmem)) (not_lt.mpr e)
    have hrest : (rest.map fun t' => frameTriangle ops math projectionMatrix stages
          ((applyTransforms (stages.map (Stage.run ops math projectionMatrix))
            (h.store t { h.mem t with visible := true }) t).1.mem t')) =
        rest.map fun t' => frameTriangle ops math projectionMatrix stages (h.mem t') := by
      apply List.map_congr_left
      intro t' ht'
      rw [hsrc t' (hwf t' (List.mem_cons_of_mem _ ht'))]
      rintro rfl
      exact hnotin ht'
    rw [hrest] at b3
    refine ⟨le_trans a1 b1, ?_, ?_⟩
    · intro b hb hbn
      have hbt : b ≠ t := fun e => hbn (e ▸ List.mem_cons_self _ _)
      have hbr : b ∉ rest := fun e => hbn (List.mem_cons_of_mem _ e)
      simp only [getTrianglesRec]
      rw [b2 b (lt_of_lt_of_le hb a1) hbr]
      exact hsrc b hb hbt
    · simp only [getTrianglesRec, List.map_cons, List.filter_cons]
      rw [← hval]
      split
      · rw [List.map_cons, b3, b2 _ a2 hnotin2]
      · exact b3

/-- C8: for a shape whose triangle pointers are allocated and pairwise distinct and any
list of stages, the triangles that Shape.GetTriangles returns are, as values and in mesh
order, exactly the visible ones among the per-frame triangles (Visible reset to true, then
every stage applied left to right) of the shape's triangle list; every returned triangle is
visible, and the result is no longer than the mesh. -/
theorem GetTriangles_visible_in_mesh_order [FloorRing F] (ops : MatrixOps F)
    (math : MathLib F) (projectionMatrix : Option (Matrix4X4 F)) (s : Shape F)
    (stages : List (Stage F)) (h : Heap F)
    (hwf : ∀ t ∈ s.ts, t < h.next) (hnd : s.ts.Nodup) :
    (s.GetTriangles (stages.map (Stage.run ops math projectionMatrix)) h).2.map
        (s.GetTriangles (stages.map (Stage.run ops math projectionMatrix)) h).1.mem =
      (s.ts.map fun t => frameTriangle ops math projectionMatrix stages (h.mem t)).filter
        (fun T => T.visible) ∧
    (∀ a ∈ (s.GetTriangles (stages.map (Stage.run ops math projectionMatrix)) h).2,
      ((s.GetTriangles (stages.map (Stage.run ops math projectionMatrix)) h).1.mem a).visible =
        true) ∧
    (s.GetTriangles (stages.map (Stage.run ops math projectionMatrix)) h).2.length ≤
      s.ts.length := by
  have hrec := (getTrianglesRec_stages ops math projectionMatrix stages s.ts h hwf hnd).2.2
  have hloop : s.GetTriangles (stages.map (Stage.run ops math projectionMatrix)) h =
      getTrianglesRec (stages.map (Stage.run ops math projectionMatrix)) s.ts h := by
    unfold Shape.GetTriangles
    rw [getTrianglesLoop_eq_rec]
    simp
  rw [hloop]
  refine ⟨hrec, ?_, ?_⟩
  · intro a ha
    have hm : (getTrianglesRec (stages.map (Stage.run ops math projectionMatrix)) s.ts h).1.mem a ∈
        (getTrianglesRec (stages.map (Stage.run ops math projectionMatrix)) s.ts h).2.map
          (getTrianglesRec (stages.map (Stage.run ops math projectionMatrix)) s.ts h).1.mem :=
      List.mem_map_of_mem _ ha
    rw [hrec] at hm
    exact (List.mem_filter.mp hm).2
  · have hl := congrArg List.length hrec
    rw [List.length_map] at hl
    rw [hl]
    exact le_trans (List.length_filter_le _ _) (by rw [List.length_map])

/-- The instance of C8 at a mesh of two triangles, the second with the winding of the first
reversed, and the stage list Normal(origin), Shade((0,0,-1)): the first triangle is returned
and the second is culled. -/
theorem GetTriangles_visible_in_mesh_order_witness :
    (∀ t ∈ (⟨[0, 1], NewVector 0 0 0, NewVector 0 0 0, NewVector 1 1 1, ⟨255, 255, 255, 255⟩⟩ :
        Shape ℝ).ts,
      t < (⟨fun a => if a = 0
          then NewTriangle (NewVector 0 0 1) (NewVector 1 0 1) (NewVector 0 1 1) 0xFF0000FF
          else NewTriangle (NewVector 0 0 1) (NewVector 0 1 1) (NewVector 1 0 1) 0xFF0000FF,
        2⟩ : Heap ℝ).next) ∧
    (⟨[0, 1], NewVector 0 0 0, NewVector 0 0 0, NewVector 1 1 1, ⟨255, 255, 255, 255⟩⟩ :
      Shape ℝ).ts.Nodup ∧
    ((⟨[0, 1], NewVector 0 0 0, NewVector 0 0 0, NewVector 1 1 1, ⟨255, 255, 255, 255⟩⟩ :
      Shape ℝ).GetTriangles
        ([Stage.normal (NewVector 0 0 0), Stage.shade (NewVector 0 0 (-1))].map
          (Stage.run (shapesMatrixOps ⟨Real.sqrt, Real.cos, Real.sin⟩)
            ⟨Real.sqrt, Real.cos, Real.sin⟩ none))
        ⟨fun a => if a = 0
          then NewTriangle (NewVector 0 0 1) (NewVector 1 0 1) (NewVector 0 1 1) 0xFF0000FF
          else NewTriangle (NewVector 0 0 1) (NewVector 0 1 1) (NewVector 1 0 1) 0xFF0000FF,
        2⟩).2.length ≤ 2 ∧
    ((⟨[0, 1], NewVector 0 0 0, NewVector 0 0 0, NewVector 1 1 1, ⟨255, 255, 255, 255⟩⟩ :
      Shape ℝ).GetTriangles
        ([Stage.normal (NewVector 0 0 0), Stage.shade (NewVector 0 0 (-1))].map
          (Stage.run (shapesMatrixOps ⟨Real.sqrt, Real.cos, Real.sin⟩)
            ⟨Real.sqrt, Real.cos, Real.sin⟩ none))
        ⟨fun a => if a = 0
          then NewTriangle (NewVector 0 0 1) (NewVector 1 0 1) (NewVector 0 1 1) 0xFF0000FF
          else NewTriangle (NewVector 0 0 1) (NewVector 0 1 1) (NewVector 1 0 1) 0xFF0000FF,
        2⟩).2 = [0] :=
  ⟨by decide, by decide,
    (GetTriangles_visible_in_mesh_order (shapesMatrixOps ⟨Real.sqrt, Real.cos, Real.sin⟩)
      ⟨Real.sqrt, Real.cos, Real.sin⟩ none
      (⟨[0, 1], NewVector 0 0 0, NewVector 0 0 0, NewVector 1 1 1, ⟨255, 255, 255, 255⟩⟩ :
        Shape ℝ)
      [Stage.normal (NewVector 0 0 0), Stage.shade (NewVector 0 0 (-1))]
      ⟨fun a => if a = 0
          then NewTriangle (NewVector 0 0 1) (NewVector 1 0 1) (NewVector 0 1 1) 0xFF0000FF
          else NewTriangle (NewVector 0 0 1) (NewVector 0 1 1) (NewVector 1 0 1) 0xFF0000FF,
        2⟩ (by decide) (by decide)).2.2,
    by
      simp [Shape.GetTriangles, getTrianglesLoop, applyTransforms, Stage.run, Normal, Shade,
        Heap.store, NewTriangle, arr3, NewVector, Vector.Normalize, Vector.Length,
        Vector.Subtract, Vector.CrossProduct, Vector.DotProduct0, Vector.DotProduct1,
        Function.update]
      norm_num⟩

/-! ## Theorems: culled triangles and the source mesh -/

theorem floor_255_tenth : ⌊(255 : ℝ) * (10⁻¹ ⊔ -1)⌋₊ = 25 := by
  rw [max_eq_left (by norm_num : (-1 : ℝ) ≤ 10⁻¹), Nat.floor_eq_iff (by norm_num)]
  norm_num

theorem floor_25_tenth : ⌊(25 : ℝ) * (10⁻¹ ⊔ -1)⌋₊ = 2 := by
  rw [max_eq_left (by norm_num : (-1 : ℝ) ≤ 10⁻¹), Nat.floor_eq_iff (by norm_num)]
  norm_num

/-- C9: Shade is not a no-op on a culled triangle. The triangle (0,0,1), (0,1,1), (1,0,1)
with normal (0,0,-1), Visible = false and colour 0xFF0000FF comes out of Shade((0,0,1)) with
the same pointer, vertices, normal and Visible flag, but with colour 0x190000FF. -/
theorem Shade_on_culled_at_failing_input :
    let math : MathLib ℝ := ⟨Real.sqrt, Real.cos, Real.sin⟩
    let T : Triangle ℝ :=
      ⟨arr3 (NewVector 0 0 1) (NewVector 0 1 1) (NewVector 1 0 1), ⟨0, 0, -1, 0⟩, false,
        0xFF0000FF⟩
    let h : Heap ℝ := ⟨fun _ => T, 1⟩
    let r := Shade math (NewVector 0 0 1) h 0
    (h.mem 0).visible = false ∧ r.2 = 0 ∧ (r.1.mem 0).vectors = T.vectors ∧
    (r.1.mem 0).normal = T.normal ∧ (r.1.mem 0).visible = false ∧
    (r.1.mem 0).color = 0x190000FF ∧ (r.1.mem 0).color ≠ (h.mem 0).color := by
  simp [Shade, Heap.store, NewVector, Vector.Normalize, Vector.Length, Vector.DotProduct0,
    Vector.DotProduct1, uint8, floatToUint8, Color.Uint32]
  rw [floor_255_tenth]
  decide

theorem Stage.run_on_culled [FloorRing F] (ops : MatrixOps F) (math : MathLib F)
    (projectionMatrix : Option (Matrix4X4 F)) (stage : Stage F) (h : Heap F) (t : Nat)
    (hv : (h.mem t).visible = false) (hs : ∀ light, stage ≠ Stage.shade light) :
    stage.run ops math projectionMatrix h t = (h, t) := by
  cases stage with
  | shade light => exact absurd rfl (hs light)
  | _ =>
    simp [Stage.run, WorldMatrices, RotateX, RotateY, RotateZ, Translate, Camera, Normal,
      Project, Center, Triangle.process, hv]

/-- C10: Shape.GetTriangles with the stage list Normal(origin), Shade((0,0,-1)) writes the
source mesh. For the one-triangle mesh (0,0,1), (1,0,1), (0,1,1) of colour 0xFF0000FF the
first call returns the source pointer and leaves the source with normal (0,0,1) instead of
(0,0,0) and colour 0x190000FF instead of 0xFF0000FF; a second call with the same stages
returns the triangle with colour 0x020000FF. -/
theorem GetTriangles_source_at_failing_input :
    let math : MathLib ℝ := ⟨Real.sqrt, Real.cos, Real.sin⟩
    let h : Heap ℝ :=
      ⟨fun _ => NewTriangle (NewVector 0 0 1) (NewVector 1 0 1) (NewVector 0 1 1) 0xFF0000FF, 1⟩
    let s : Shape ℝ :=
      ⟨[0], NewVector 0 0 0, NewVector 0 0 0, NewVector 1 1 1, ⟨255, 255, 255, 255⟩⟩
    let transforms := [Normal math (NewVector 0 0 0), Shade math (NewVector 0 0 (-1))]
    let r1 := s.GetTriangles transforms h
    let r2 := s.GetTriangles transforms r1.1
    ((h.mem 0).normal = ⟨0, 0, 0, 1⟩ ∧ (h.mem 0).color = 0xFF0000FF) ∧
    (r1.2 = [0] ∧ (r1.1.mem 0).normal = ⟨0, 0, 1, 0⟩ ∧ (r1.1.mem 0).color = 0x190000FF) ∧
    (r2.2 = [0] ∧ (r2.1.mem 0).normal = ⟨0, 0, 1, 0⟩ ∧ (r2.1.mem 0).color = 0x020000FF) := by
  simp [Shape.GetTriangles, getTrianglesLoop, applyTransforms, Normal, Shade, Heap.store,
    NewTriangle, arr3, NewVector, Vector.Normalize, Vector.Length, Vector.Subtract,
    Vector.CrossProduct, Vector.DotProduct0, Vector.DotProduct1, uint8, floatToUint8,
    Color.Uint32]
  simp [floor_255_tenth, floor_25_tenth]

theorem Stage.run_source_vectors [FloorRing F] (ops : MatrixOps F) (math : MathLib F)
    (projectionMatrix : Option (Matrix4X4 F)) (stage : Stage F) (h : Heap F) (t : Nat)
    (ht : t < h.next) :
    ((stage.run ops math projectionMatrix h t).1.mem t).vectors = (h.mem t).vectors := by
  have hne : t ≠ h.next := Nat.ne_of_lt ht
  cases stage with
  | normal pos =>
    by_cases hv : (h.mem t).visible <;> simp [Stage.run, Normal, Heap.store, hv]
  | shade light => simp [Stage.run, Shade, Heap.store]
  | _ =>
    by_cases hv : (h.mem t).visible <;>
      simp [Stage.run, WorldMatrices, RotateX, RotateY, RotateZ, Translate, Camera, Project,
        Center, Triangle.process, Heap.alloc, hv, Function.update_noteq hne]

theorem Stage.run_copies [FloorRing F] (ops : MatrixOps F) (math : MathLib F)
    (projectionMatrix : Option (Matrix4X4 F)) (stage : Stage F) (h : Heap F) (t : Nat)
    (ht : t < h.next) (hc : stage.copies = true) (hv : (h.mem t).visible = true) :
    (stage.run ops math projectionMatrix h t).2 = h.next ∧
      (stage.run ops math projectionMatrix h t).1.mem t = h.mem t := by
  have hne : t ≠ h.next := Nat.ne_of_lt ht
  cases stage with
  | normal pos => simp [Stage.copies] at hc
  | shade light => simp [Stage.copies] at hc
  | _ =>
    simp [Stage.run, WorldMatrices, RotateX, RotateY, RotateZ, Translate, Camera, Project,
      Center, Triangle.process, Heap.alloc, hv, Function.update_noteq hne]

theorem applyTransforms_source_vectors [FloorRing F] (ops : MatrixOps F) (math : MathLib F)
    (projectionMatrix : Option (Matrix4X4 F)) (stages : List (Stage F)) :
    ∀ (h : Heap F) (t s : Nat), t < h.next → s < h.next →
      ((applyTransforms (stages.map (Stage.run ops math projectionMatrix)) h t).1.mem s).vectors =
        (h.mem s).vectors := by
  induction stages with
  | nil =>
    intro h t s _ _
    simp [applyTransforms]
  | cons stage rest ih =>
    intro h t s ht hs
    have A := Stage.run_actsAs ops math projectionMatrix stage
    have hstep : applyTransforms ((stage :: rest).map (Stage.run ops math projectionMatrix)) h t =
        applyTransforms (rest.map (Stage.run ops math projectionMatrix))
          (stage.run ops math projectionMatrix h t).1
          (stage.run ops math projectionMatrix h t).2 := rfl
    rw [hstep, ih _ _ s (A.ptr_lt h t ht) (lt_of_lt_of_le hs (A.next_le h t))]
    by_cases hst : s = t
    · rw [hst]
      exact Stage.run_source_vectors ops math projectionMatrix stage h t ht
    · rw [A.frame h t s hs hst]

theorem applyTransforms_copies_first [FloorRing F] (ops : MatrixOps F) (math : MathLib F)
    (projectionMatrix : Option (Matrix4X4 F)) (stage : Stage F) (rest : List (Stage F))
    (h : Heap F) (t : Nat) (ht : t < h.next) (hc : stage.copies = true)
    (hv : (h.mem t).visible = true) :
    (applyTransforms ((stage :: rest).map (Stage.run ops math projectionMatrix)) h t).1.mem t =
      h.mem t := by
  have A := Stage.run_actsAs ops math projectionMatrix stage
  obtain ⟨c1, c2⟩ := Stage.run_copies ops math projectionMatrix stage h t ht hc hv
  have hstep : applyTransforms ((stage :: rest).map (Stage.run ops math projectionMatrix)) h t =
      applyTransforms (rest.map (Stage.run ops math projectionMatrix))
        (stage.run ops math projectionMatrix h t).1
        (stage.run ops math projectionMatrix h t).2 := rfl
  rw [hstep]
  have hframe := (applyTransforms_stages ops math projectionMatrix rest _ _
    (A.ptr_lt h t ht)).2.2.2.1 t (lt_of_lt_of_le ht (A.next_le h t))
    (by rw [c1]; exact Nat.ne_of_lt ht)
  rw [hframe, c2]

theorem GetTriangles_eq_rec (s : Shape F) (transforms : List (Transformations F))
    (h : Heap F) : s.GetTriangles transforms h = getTrianglesRec transforms s.ts h := by
  unfold Shape.GetTriangles
  rw [getTrianglesLoop_eq_rec]
  simp

/-- Whatever the stages, Shape.GetTriangles writes no vertex of an allocated triangle. -/
theorem getTrianglesRec_source_vectors [FloorRing F] (ops : MatrixOps F) (math : MathLib F)
    (projectionMatrix : Option (Matrix4X4 F)) (stages : List (Stage F)) (ts : List Nat) :
    ∀ (h : Heap F), (∀ t ∈ ts, t < h.next) →
      h.next ≤
        (getTrianglesRec (stages.map (Stage.run ops math projectionMatrix)) ts h).1.next ∧
      ∀ b, b < h.next →
        ((getTrianglesRec (stages.map (Stage.run ops math projectionMatrix)) ts h).1.mem
          b).vectors = (h.mem b).vectors := by
  induction ts with
  | nil =>
    intro h _
    simp [getTrianglesRec]
  | cons t rest ih =>
    intro h hwf
    have ht : t < h.next := hwf t (List.mem_cons_self _ _)
    have a1 := (applyTransforms_stages ops math projectionMatrix stages
      (h.store t { h.mem t with visible := true }) t ht).1
    have hwf' : ∀ t' ∈ rest, t' < (applyTransforms
        (stages.map (Stage.run ops math projectionMatrix))
        (h.store t { h.mem t with visible := true }) t).1.next :=
      fun t' ht' => lt_of_lt_of_le (hwf t' (List.mem_cons_of_mem _ ht')) a1
    obtain ⟨b1, b2⟩ := ih _ hwf'
    refine ⟨le_trans a1 b1, ?_⟩
    intro b hb
    simp only [getTrianglesRec]
    rw [b2 b (lt_of_lt_of_le hb a1),
      applyTransforms_source_vectors ops math projectionMatrix stages
        (h.store t { h.mem t with visible := true }) t b ht hb]
    by_cases hbt : b = t
    · simp [Heap.store, hbt]
    · simp [Heap.store, Function.update_noteq hbt]

/-- When the first stage is built on Triangle.process, Shape.GetTriangles leaves every
source triangle as it was, up to the Visible flag that it resets. -/
theorem getTrianglesRec_source_unchanged [FloorRing F] (ops : MatrixOps F) (math : MathLib F)
    (projectionMatrix : Option (Matrix4X4 F)) (stage : Stage F) (stages : List (Stage F))
    (hc : stage.copies = true) (ts : List Nat) :
    ∀ (h : Heap F), (∀ t ∈ ts, t < h.next) → ts.Nodup →
      ∀ t ∈ ts,
        (getTrianglesRec ((stage :: stages).map (Stage.run ops math projectionMatrix)) ts
          h).1.mem t = { h.mem t with visible := true } := by
  induction ts with
  | nil =>
    intro h _ _ t ht
    simp at ht
  | cons t0 rest ih =>
    intro h hwf hnd t ht
    have ht0 : t0 < h.next := hwf t0 (List.mem_cons_self _ _)
    obtain ⟨hnotin, hnd'⟩ := List.nodup_cons.mp hnd
    obtain ⟨a1, a2, a3, a4, a5⟩ := applyTransforms_stages ops math projectionMatrix
      (stage :: stages) (h.store t0 { h.mem t0 with visible := true }) t0 ht0
    have hwf' : ∀ t' ∈ rest, t' < (applyTransforms
        ((stage :: stages).map (Stage.run ops math projectionMatrix))
        (h.store t0 { h.mem t0 with visible := true }) t0).1.next :=
      fun t' ht' => lt_of_lt_of_le (hwf t' (List.mem_cons_of_mem _ ht')) a1
    simp only [getTrianglesRec]
    rcases List.mem_cons.mp ht with e | e
    · subst e
      rw [(getTrianglesRec_stages ops math projectionMatrix (stage :: stages) rest _ hwf'
        hnd').2.1 t (lt_of_lt_of_le ht0 a1) hnotin,
        applyTransforms_copies_first ops math projectionMatrix stage stages
          (h.store t { h.mem t with visible := true }) t ht0 hc (by simp [Heap.store])]
      simp [Heap.store]
    · have hne : t ≠ t0 := fun e' => hnotin (e' ▸ e)
      rw [ih _ hwf' hnd' t e, a4 t (hwf t ht) hne]
      simp [Heap.store, Function.update_noteq hne]

theorem frameTriangle_reset [FloorRing F] (ops : MatrixOps F) (math : MathLib F)
    (projectionMatrix : Option (Matrix4X4 F)) (stages : List (Stage F)) (T : Triangle F) :
    frameTriangle ops math projectionMatrix stages { T with visible := true } =
      frameTriangle ops math projectionMatrix stages T := rfl

/-- When the first stage is built on Triangle.process, two calls of Shape.GetTriangles with
the same stages return triangles of equal values. -/
theorem GetTriangles_twice_of_copies_first [FloorRing F] (ops : MatrixOps F)
    (math : MathLib F) (projectionMatrix : Option (Matrix4X4 F)) (s : Shape F)
    (stage : Stage F) (stages : List (Stage F)) (h : Heap F) (hc : stage.copies = true)
    (hwf : ∀ t ∈ s.ts, t < h.next) (hnd : s.ts.Nodup) :
    (s.GetTriangles ((stage :: stages).map (Stage.run ops math projectionMatrix))
        (s.GetTriangles ((stage :: stages).map (Stage.run ops math projectionMatrix))
          h).1).2.map
      (s.GetTriangles ((stage :: stages).map (Stage.run ops math projectionMatrix))
        (s.GetTriangles ((stage :: stages).map (Stage.run ops math projectionMatrix))
          h).1).1.mem =
    (s.GetTriangles ((stage :: stages).map (Stage.run ops math projectionMatrix)) h).2.map
      (s.GetTriangles ((stage :: stages).map (Stage.run ops math projectionMatrix)) h).1.mem := by
  simp only [GetTriangles_eq_rec]
  obtain ⟨n1, _, v1⟩ :=
    getTrianglesRec_stages ops math projectionMatrix (stage :: stages) s.ts h hwf hnd
  have hwf2 : ∀ t ∈ s.ts,
      t < (getTrianglesRec ((stage :: stages).map (Stage.run ops math projectionMatrix)) s.ts
        h).1.next := fun t ht => lt_of_lt_of_le (hwf t ht) n1
  have v2 := (getTrianglesRec_stages ops math projectionMatrix (stage :: stages) s.ts _ hwf2
    hnd).2.2
  rw [v1, v2]
  congr 1
  apply List.map_congr_left
  intro t ht
  rw [getTrianglesRec_source_unchanged ops math projectionMatrix stage stages hc s.ts h hwf hnd
    t ht, frameTriangle_reset]

/-! ## Theorems: vectors -/

theorem MathLib.Exact.sqrt_one (math : MathLib F) (hm : math.Exact) : math.Sqrt 1 = 1 := by
  have h0 : 0 ≤ math.Sqrt 1 := hm.sqrt_nonneg 1
  have h1 : math.Sqrt 1 * math.Sqrt 1 = 1 := hm.sqrt_mul_self 1 zero_le_one
  rcases mul_self_eq_one_iff.mp h1 with h | h
  · exact h
  · rw [h] at h0
    exact absurd h0 (by norm_num)

theorem Vector.DotProduct0_ne_zero (v : Vector F) (hv : ¬(v.X = 0 ∧ v.Y = 0 ∧ v.Z = 0)) :
    v.DotProduct0 ≠ 0 := by
  intro h0
  apply hv
  unfold Vector.DotProduct0 at h0
  have hX := mul_self_nonneg v.X
  have hY := mul_self_nonneg v.Y
  have hZ := mul_self_nonneg v.Z
  refine ⟨?_, ?_, ?_⟩ <;> apply mul_self_eq_zero.mp <;> linarith

/-- C18: for a vector whose X, Y, Z are not all zero, Normalize returns X, Y, Z each
divided by the length, and the length of the result is 1, under an exact square root. -/
theorem Normalize_Length_eq_one (math : MathLib F) (hm : math.Exact) (v : Vector F)
    (hv : ¬(v.X = 0 ∧ v.Y = 0 ∧ v.Z = 0)) :
    (v.Normalize math).Length math = 1 ∧
    (v.Normalize math).X = v.X / v.Length math ∧
    (v.Normalize math).Y = v.Y / v.Length math ∧
    (v.Normalize math).Z = v.Z / v.Length math := by
  refine ⟨?_, rfl, rfl, rfl⟩
  have hL : 0 < v.Length math := Vector.Length_pos math hm v (Vector.DotProduct0_ne_zero v hv)
  have hLL : v.Length math * v.Length math = v.DotProduct0 :=
    hm.sqrt_mul_self _ v.DotProduct0_nonneg
  have hD : (v.Normalize math).DotProduct0 = 1 := by
    have e : (v.Normalize math).DotProduct0 =
        v.DotProduct0 / (v.Length math * v.Length math) := by
      simp only [Vector.Normalize, Vector.DotProduct0]
      field_simp
    rw [e, hLL]
    exact div_self (Vector.DotProduct0_ne_zero v hv)
  unfold Vector.Length at hL hLL ⊢
  rw [hD]
  exact MathLib.Exact.sqrt_one math hm

/-- The instance of C18 at the vector (3, 4, 0) over the reals. -/
theorem Normalize_Length_eq_one_witness :
    ¬((NewVector 3 4 0 : Vector ℝ).X = 0 ∧ (NewVector 3 4 0 : Vector ℝ).Y = 0 ∧
      (NewVector 3 4 0 : Vector ℝ).Z = 0) ∧
    ((NewVector 3 4 0 : Vector ℝ).Normalize ⟨Real.sqrt, Real.cos, Real.sin⟩).Length
      ⟨Real.sqrt, Real.cos, Real.sin⟩ = 1 :=
  ⟨by simp [NewVector],
    (Normalize_Length_eq_one ⟨Real.sqrt, Real.cos, Real.sin⟩
      ⟨Real.sqrt_nonneg, fun x hx => Real.mul_self_sqrt hx⟩ (NewVector 3 4 0)
      (by simp [NewVector])).1⟩

/-- C19: the dot product is commutative, and the cross product is anti-commutative in X, Y
and Z, with the same W in both results. -/
theorem DotProduct_comm_CrossProduct_anticomm (a b : Vector F) :
    a.DotProduct [b] = b.DotProduct [a] ∧
    a.DotProduct1 b = b.DotProduct1 a ∧
    (a.CrossProduct b).X = -(b.CrossProduct a).X ∧
    (a.CrossProduct b).Y = -(b.CrossProduct a).Y ∧
    (a.CrossProduct b).Z = -(b.CrossProduct a).Z ∧
    (a.CrossProduct b).W = (b.CrossProduct a).W := by
  refine ⟨?_, ?_, ?_, ?_, ?_, rfl⟩
  · simp only [Vector.DotProduct, Vector.DotProduct1, Option.some.injEq]
    ring
  · simp only [Vector.DotProduct1]
    ring
  · simp only [Vector.CrossProduct]
    ring
  · simp only [Vector.CrossProduct]
    ring
  · simp only [Vector.CrossProduct]
    ring

/-- C20: translating a point with W = 1 adds (x, y, z) to its position and keeps W = 1. -/
theorem MatrixMultiply_Translation (v : Vector F) (x y z : F) (hw : v.W = 1) :
    v.MatrixMultiply (Translation x y z) = ⟨v.X + x, v.Y + y, v.Z + z, 1⟩ := by
  simp [Vector.MatrixMultiply, Translation, hw]

/-- The instance of C20 at the point (1, 2, 3) and the translation by (10, 20, 30). -/
theorem MatrixMultiply_Translation_witness :
    (NewVector 1 2 3 : Vector ℚ).W = 1 ∧
    (NewVector 1 2 3 : Vector ℚ).MatrixMultiply (Translation 10 20 30) =
      ⟨(NewVector 1 2 3 : Vector ℚ).X + 10, (NewVector 1 2 3 : Vector ℚ).Y + 20,
        (NewVector 1 2 3 : Vector ℚ).Z + 30, 1⟩ :=
  ⟨rfl, MatrixMultiply_Translation (NewVector 1 2 3) 10 20 30 rfl⟩

/-! ## Theorems: the perspective divide -/

/-- C13: with p = v.MatrixMultiply(P), the projection step returns p itself when p.W = 0
and otherwise X, Y, Z equal to p.X / p.W, p.Y / p.W, p.Z / p.W; it never calls Divide with
a zero divisor. -/
theorem project_divides_by_nonzero (v : Vector F) (P : Matrix4X4 F) :
    ((v.MatrixMultiply P).W = 0 → project (some P) v = v.MatrixMultiply P) ∧
    ((v.MatrixMultiply P).W ≠ 0 →
      (project (some P) v).X = (v.MatrixMultiply P).X / (v.MatrixMultiply P).W ∧
      (project (some P) v).Y = (v.MatrixMultiply P).Y / (v.MatrixMultiply P).W ∧
      (project (some P) v).Z = (v.MatrixMultiply P).Z / (v.MatrixMultiply P).W) ∧
    projectChecked (some P) v = some (project (some P) v) := by
  by_cases hW : (v.MatrixMultiply P).W = 0
  · simp [project, projectChecked, hW]
  · simp [project, projectChecked, Vector.DivideChecked, Vector.Divide, hW]

/-! ## Theorems: the Shade stage -/

theorem Vector.DotProduct1_mul_self_le (a b : Vector F) :
    a.DotProduct1 b * a.DotProduct1 b ≤ a.DotProduct0 * b.DotProduct0 := by
  unfold Vector.DotProduct1 Vector.DotProduct0
  nlinarith [sq_nonneg (a.X * b.Y - a.Y * b.X), sq_nonneg (a.Y * b.Z - a.Z * b.Y),
    sq_nonneg (a.Z * b.X - a.X * b.Z)]

theorem Vector.DotProduct1_Normalize_right (math : MathLib F) (n v : Vector F) :
    n.DotProduct1 (v.Normalize math) = n.DotProduct1 v / v.Length math := by
  simp only [Vector.Normalize, Vector.DotProduct1]
  ring

theorem Vector.DotProduct1_Normalize_le_one (math : MathLib F) (hm : math.Exact)
    (n light : Vector F) (hn : n.Length math ≤ 1)
    (hl : ¬(light.X = 0 ∧ light.Y = 0 ∧ light.Z = 0)) :
    n.DotProduct1 (light.Normalize math) ≤ 1 := by
  have hL : 0 < light.Length math :=
    Vector.Length_pos math hm light (Vector.DotProduct0_ne_zero light hl)
  have hLL : light.Length math * light.Length math = light.DotProduct0 :=
    hm.sqrt_mul_self _ light.DotProduct0_nonneg
  have hN0 : 0 ≤ n.Length math := hm.sqrt_nonneg _
  have hNN : n.Length math * n.Length math = n.DotProduct0 :=
    hm.sqrt_mul_self _ n.DotProduct0_nonneg
  have hn1 : n.DotProduct0 ≤ 1 := by
    rw [← hNN]
    nlinarith
  have hcs := Vector.DotProduct1_mul_self_le n light
  rw [Vector.DotProduct1_Normalize_right, div_le_one hL]
  by_contra hlt
  rw [not_le] at hlt
  have h1 : light.Length math * light.Length math <
      n.DotProduct1 light * n.DotProduct1 light := by nlinarith
  have h2 : n.DotProduct0 * light.DotProduct0 ≤ light.DotProduct0 := by
    have := light.DotProduct0_nonneg
    nlinarith
  rw [hLL] at h1
  linarith

theorem floatToUint8_channel [FloorRing F] (c : Nat) (hc : c < 256) (i : F)
    (h1 : i ≤ 1) : floatToUint8 ((c : F) * i) = ⌊(c : F) * i⌋₊ ∧ ⌊(c : F) * i⌋₊ < 256 := by
  have hle : ⌊(c : F) * i⌋₊ ≤ c := by
    have h : (c : F) * i ≤ (c : F) := by
      have hc0 : (0 : F) ≤ (c : F) := Nat.cast_nonneg c
      nlinarith
    have := Nat.floor_mono h
    rwa [Nat.floor_natCast] at this
  have hlt : ⌊(c : F) * i⌋₊ < 256 := lt_of_le_of_lt hle hc
  exact ⟨Nat.mod_eq_of_lt hlt, hlt⟩

theorem Color.Uint32_eq (c : Color) (hG : c.G < 256) (hB : c.B < 256) (hA : c.A < 256) :
    c.Uint32 = ((c.R * 256 + c.G) * 256 + c.B) * 256 + c.A := by
  unfold Color.Uint32
  have h1 : c.R <<< 24 ||| c.G <<< 16 = 2 ^ 16 * (c.R * 256 + c.G) := by
    rw [Nat.shiftLeft_eq, Nat.shiftLeft_eq, Nat.mul_comm c.R,
      ← Nat.mul_add_lt_is_or (by omega)]
    omega
  have h2 : 2 ^ 16 * (c.R * 256 + c.G) ||| c.B <<< 8 =
      2 ^ 8 * ((c.R * 256 + c.G) * 256 + c.B) := by
    rw [Nat.shiftLeft_eq, ← Nat.mul_add_lt_is_or (by omega)]
    omega
  rw [h1, h2, ← Nat.mul_add_lt_is_or (by omega)]
  omega

theorem Color.Uint32_channels (c : Color) (hR : c.R < 256) (hG : c.G < 256) (hB : c.B < 256)
    (hA : c.A < 256) :
    uint8 (c.Uint32 >>> 24) = c.R ∧ uint8 (c.Uint32 >>> 16) = c.G ∧
      uint8 (c.Uint32 >>> 8) = c.B ∧ uint8 c.Uint32 = c.A ∧ c.Uint32 < 2 ^ 32 := by
  rw [Color.Uint32_eq c hG hB hA]
  simp only [uint8, Nat.shiftRight_eq_div_pow]
  refine ⟨?_, ?_, ?_, ?_, ?_⟩ <;> omega

theorem uint8_lt (x : Nat) : uint8 x < 256 := Nat.mod_lt x (by norm_num)

/-- C12, under exact arithmetic: with exact products, quotients and an exact square root,
for a triangle whose normal has length at most 1 and a light direction that is not zero,
Shade(L) returns the triangle it was given with the colour whose alpha is the input alpha
and whose R, G and B are the floor of the input channel times
intensity = max(0.1, dot(n, normalize(L))); the new colour fits 32 bits. -/
theorem Shade_channels [FloorRing F] (math : MathLib F) (hm : math.Exact) (light : Vector F)
    (h : Heap F) (t : Nat) (hn : (h.mem t).normal.Length math ≤ 1)
    (hl : ¬(light.X = 0 ∧ light.Y = 0 ∧ light.Z = 0)) :
    (Shade math light h t).2 = t ∧
    ((Shade math light h t).1.mem t).FaceColor.A = (h.mem t).FaceColor.A ∧
    ((Shade math light h t).1.mem t).FaceColor.R =
      ⌊((h.mem t).FaceColor.R : F) *
        max (1 / 10) ((h.mem t).normal.DotProduct1 (light.Normalize math))⌋₊ ∧
    ((Shade math light h t).1.mem t).FaceColor.G =
      ⌊((h.mem t).FaceColor.G : F) *
        max (1 / 10) ((h.mem t).normal.DotProduct1 (light.Normalize math))⌋₊ ∧
    ((Shade math light h t).1.mem t).FaceColor.B =
      ⌊((h.mem t).FaceColor.B : F) *
        max (1 / 10) ((h.mem t).normal.DotProduct1 (light.Normalize math))⌋₊ ∧
    ((Shade math light h t).1.mem t).color < 2 ^ 32 := by
  have hi : max (1 / 10 : F) ((h.mem t).normal.DotProduct1 (light.Normalize math)) ≤ 1 :=
    max_le (by norm_num) (Vector.DotProduct1_Normalize_le_one math hm _ light hn hl)
  obtain ⟨r1, r2⟩ := floatToUint8_channel (uint8 ((h.mem t).color >>> 24))
    (uint8_lt _) _ hi
  obtain ⟨g1, g2⟩ := floatToUint8_channel (uint8 ((h.mem t).color >>> 16))
    (uint8_lt _) _ hi
  obtain ⟨b1, b2⟩ := floatToUint8_channel (uint8 ((h.mem t).color >>> 8))
    (uint8_lt _) _ hi
  have hc := Shade_color math light h t
  obtain ⟨c1, c2, c3, c4, c5⟩ := Color.Uint32_channels
    { R := floatToUint8 (((h.mem t).FaceColor.R : F) *
        max (1 / 10) ((h.mem t).normal.DotProduct1 (light.Normalize math)))
      G := floatToUint8 (((h.mem t).FaceColor.G : F) *
        max (1 / 10) ((h.mem t).normal.DotProduct1 (light.Normalize math)))
      B := floatToUint8 (((h.mem t).FaceColor.B : F) *
        max (1 / 10) ((h.mem t).normal.DotProduct1 (light.Normalize math)))
      A := (h.mem t).FaceColor.A }
    (by simp only [Triangle.FaceColor]; rw [r1]; exact r2)
    (by simp only [Triangle.FaceColor]; rw [g1]; exact g2)
    (by simp only [Triangle.FaceColor]; rw [b1]; exact b2)
    (by simp only [Triangle.FaceColor]; exact uint8_lt _)
  refine ⟨rfl, ?_, ?_, ?_, ?_, ?_⟩
  · simp only [Triangle.FaceColor] at c4 ⊢
    rw [hc]
    exact c4
  · simp only [Triangle.FaceColor] at c1 ⊢
    rw [hc, ← r1]
    exact c1
  · simp only [Triangle.FaceColor] at c2 ⊢
    rw [hc, ← g1]
    exact c2
  · simp only [Triangle.FaceColor] at c3 ⊢
    rw [hc, ← b1]
    exact c3
  · rw [hc]
    exact c5

theorem floor_255_tenth_exact : ⌊(255 : ℝ) * 10⁻¹⌋₊ = 25 := by
  rw [Nat.floor_eq_iff (by norm_num)]
  norm_num

theorem floor_255_one : ⌊(255 : ℝ) * (10⁻¹ ⊔ 1)⌋₊ = 255 := by
  rw [max_eq_right (by norm_num : (10⁻¹ : ℝ) ≤ 1), Nat.floor_eq_iff (by norm_num)]
  norm_num

/-- The instance of C12 at the colour 0xFF0000FF and the light direction (0,0,-1): with the
normal (0,0,-1), aligned with the light, the colour stays 0xFF0000FF; with the normal
(1,0,0), perpendicular to the light, it becomes 0x190000FF, red 25 and alpha 0xFF. -/
theorem Shade_channels_witness :
    (((⟨fun _ => ⟨arr3 (NewVector 0 0 1) (NewVector 1 0 1) (NewVector 0 1 1), ⟨0, 0, -1, 0⟩,
        true, 0xFF0000FF⟩, 1⟩ : Heap ℝ).mem 0).normal.Length ⟨Real.sqrt, Real.cos, Real.sin⟩ ≤ 1 ∧
      ¬((NewVector 0 0 (-1) : Vector ℝ).X = 0 ∧ (NewVector 0 0 (-1) : Vector ℝ).Y = 0 ∧
        (NewVector 0 0 (-1) : Vector ℝ).Z = 0)) ∧
    ((Shade ⟨Real.sqrt, Real.cos, Real.sin⟩ (NewVector 0 0 (-1))
      (⟨fun _ => ⟨arr3 (NewVector 0 0 1) (NewVector 1 0 1) (NewVector 0 1 1), ⟨0, 0, -1, 0⟩,
        true, 0xFF0000FF⟩, 1⟩ : Heap ℝ) 0).1.mem 0).FaceColor.A = 0xFF ∧
    ((Shade ⟨Real.sqrt, Real.cos, Real.sin⟩ (NewVector 0 0 (-1))
      (⟨fun _ => ⟨arr3 (NewVector 0 0 1) (NewVector 1 0 1) (NewVector 0 1 1), ⟨0, 0, -1, 0⟩,
        true, 0xFF0000FF⟩, 1⟩ : Heap ℝ) 0).1.mem 0).color = 0xFF0000FF ∧
    ((Shade ⟨Real.sqrt, Real.cos, Real.sin⟩ (NewVector 0 0 (-1))
      (⟨fun _ => ⟨arr3 (NewVector 0 0 1) (NewVector 1 0 1) (NewVector 0 1 1), ⟨1, 0, 0, 0⟩,
        true, 0xFF0000FF⟩, 1⟩ : Heap ℝ) 0).1.mem 0).color = 0x190000FF := by
  have hn : ((⟨fun _ => ⟨arr3 (NewVector 0 0 1) (NewVector 1 0 1) (NewVector 0 1 1),
      ⟨0, 0, -1, 0⟩, true, 0xFF0000FF⟩, 1⟩ : Heap ℝ).mem 0).normal.Length
      ⟨Real.sqrt, Real.cos, Real.sin⟩ ≤ 1 := by
    simp [Vector.Length, Vector.DotProduct0]
  have hl : ¬((NewVector 0 0 (-1) : Vector ℝ).X = 0 ∧ (NewVector 0 0 (-1) : Vector ℝ).Y = 0 ∧
      (NewVector 0 0 (-1) : Vector ℝ).Z = 0) := by
    simp [NewVector]
  have hA := (Shade_channels ⟨Real.sqrt, Real.cos, Real.sin⟩
    ⟨Real.sqrt_nonneg, fun x hx => Real.mul_self_sqrt hx⟩ (NewVector 0 0 (-1))
    (⟨fun _ => ⟨arr3 (NewVector 0 0 1) (NewVector 1 0 1) (NewVector 0 1 1), ⟨0, 0, -1, 0⟩,
      true, 0xFF0000FF⟩, 1⟩ : Heap ℝ) 0 hn hl).2.1
  refine ⟨⟨hn, hl⟩, ?_, ?_, ?_⟩
  · rw [hA]
    decide
  · simp [Shade, Heap.store, NewVector, Vector.Normalize, Vector.Length, Vector.DotProduct0,
      Vector.DotProduct1, uint8, floatToUint8, Color.Uint32]
    rw [floor_255_one]
    decide
  · simp [Shade, Heap.store, NewVector, Vector.Normalize, Vector.Length, Vector.DotProduct0,
      Vector.DotProduct1, uint8, floatToUint8, Color.Uint32]
    rw [floor_255_tenth_exact]
    decide

/-! ## Theorems: the world stage of draw3D -/

theorem Vector.MatrixMultiply_assoc (v : Vector F) (A B : Matrix4X4 F) :
    v.MatrixMultiply (A.Multiply B) = (v.MatrixMultiply A).MatrixMultiply B := by
  simp only [Vector.MatrixMultiply, Matrix4X4.Multiply, Vector.mk.injEq]
  refine ⟨?_, ?_, ?_, ?_⟩ <;> ring

theorem Vector.MatrixMultiply_Identity (v : Vector F) :
    v.MatrixMultiply (Identity : Matrix4X4 F) = v := by
  simp [Vector.MatrixMultiply, Identity]

theorem controller.draw3DWorld_value (math : MathLib F) (xa : F) (h : Heap F) (t : Nat) :
    (controller.draw3DWorld (shapesMatrixOps math) xa h t).1.mem
        (controller.draw3DWorld (shapesMatrixOps math) xa h t).2 =
      mapVertices (fun v =>
        (((v.MatrixMultiply (RotationX math (xa * 1 / 2))).MatrixMultiply
          (RotationY math (xa * 2 / 3))).MatrixMultiply
          (RotationZ math xa)).MatrixMultiply (Translation 0 0 9)) (h.mem t) := by
  have hv := (process_actsAs fun v : Vector F => v.MatrixMultiply
    ([RotationX math (xa * 1 / 2), RotationY math (xa * 2 / 3), RotationZ math xa,
      Translation 0 0 9].foldl Matrix4X4.Multiply Identity)).value h t
  have hm : ∀ v : Vector F, v.MatrixMultiply
      ([RotationX math (xa * 1 / 2), RotationY math (xa * 2 / 3), RotationZ math xa,
        Translation 0 0 9].foldl Matrix4X4.Multiply Identity) =
      (((v.MatrixMultiply (RotationX math (xa * 1 / 2))).MatrixMultiply
        (RotationY math (xa * 2 / 3))).MatrixMultiply
        (RotationZ math xa)).MatrixMultiply (Translation 0 0 9) := by
    intro v
    simp only [List.foldl]
    rw [Vector.MatrixMultiply_assoc, Vector.MatrixMultiply_assoc, Vector.MatrixMultiply_assoc,
      Vector.MatrixMultiply_assoc, Vector.MatrixMultiply_Identity]
  simp only [hm] at hv
  simp only [controller.draw3DWorld, WorldMatrices, shapesMatrixOps, hm]
  exact hv

/-- C14, as the code has it: in Controller.draw3D the world stage is the first stage handed
to GetTriangles and is built from the package variable xa and a fixed translation, not
from the shape: it sends each vertex v of a triangle that is not culled to
v x RotationX(xa*1/2) x RotationY(xa*2/3) x RotationZ(xa) x Translation(0, 0, 9), in that
order, and the triangles drawn for a shape are the same after Locate or Rotate. -/
theorem draw3D_world_from_xa [FloorRing F] (math : MathLib F)
    (projectionMatrix : Option (Matrix4X4 F)) (c : controller.Controller F) (xa : F)
    (s : Shape F) (h : Heap F) (t : Nat) (x y z : F) :
    (controller.draw3DTransforms (shapesMatrixOps math) math projectionMatrix c xa).head? =
      some (controller.draw3DWorld (shapesMatrixOps math) xa) ∧
    (controller.draw3DWorld (shapesMatrixOps math) xa h t).1.mem
        (controller.draw3DWorld (shapesMatrixOps math) xa h t).2 =
      mapVertices (fun v =>
        (((v.MatrixMultiply (RotationX math (xa * 1 / 2))).MatrixMultiply
          (RotationY math (xa * 2 / 3))).MatrixMultiply
          (RotationZ math xa)).MatrixMultiply (Translation 0 0 9)) (h.mem t) ∧
    ((h.mem t).visible = true → ∀ i : Fin 3,
      ((controller.draw3DWorld (shapesMatrixOps math) xa h t).1.mem
          (controller.draw3DWorld (shapesMatrixOps math) xa h t).2).vectors i =
        (((((h.mem t).vectors i).MatrixMultiply (RotationX math (xa * 1 / 2))).MatrixMultiply
          (RotationY math (xa * 2 / 3))).MatrixMultiply
          (RotationZ math xa)).MatrixMultiply (Translation 0 0 9)) ∧
    controller.draw3DShape (shapesMatrixOps math) math projectionMatrix c xa
        (s.Locate x y z) h =
      controller.draw3DShape (shapesMatrixOps math) math projectionMatrix c xa s h ∧
    controller.draw3DShape (shapesMatrixOps math) math projectionMatrix c xa
        (s.Rotate x y z) h =
      controller.draw3DShape (shapesMatrixOps math) math projectionMatrix c xa s h := by
  refine ⟨rfl, controller.draw3DWorld_value math xa h t, ?_, rfl, rfl⟩
  intro hv i
  rw [controller.draw3DWorld_value]
  fin_cases i <;> simp [mapVertices, hv, arr3]

/-- C14 fails as stated: for the shape located at (5, 0, 0) with rotation (0, 0, 0) and
xa = 0, the world stage of draw3D sends the vertex (0, 0, 0) to (0, 0, 9, 1), where the
shape's placement would send it to (5, 0, 0, 1); and the world stage gives the same
triangle whatever the placement. -/
theorem draw3D_world_not_from_placement :
    (((controller.draw3DWorld (shapesMatrixOps ⟨Real.sqrt, Real.cos, Real.sin⟩) 0
        (⟨fun _ => ⟨arr3 (NewVector 0 0 0) (NewVector 1 0 0) (NewVector 0 1 0),
          NewVector 0 0 0, true, 0xFF0000FF⟩, 1⟩ : Heap ℝ) 0).1.mem
      (controller.draw3DWorld (shapesMatrixOps ⟨Real.sqrt, Real.cos, Real.sin⟩) 0
        (⟨fun _ => ⟨arr3 (NewVector 0 0 0) (NewVector 1 0 0) (NewVector 0 1 0),
          NewVector 0 0 0, true, 0xFF0000FF⟩, 1⟩ : Heap ℝ) 0).2).vectors 0 =
      ⟨0, 0, 9, 1⟩) ∧
    placementWorldVertex ⟨Real.sqrt, Real.cos, Real.sin⟩
      (⟨[0], NewVector 5 0 0, NewVector 0 0 0, NewVector 1 1 1, ⟨255, 255, 255, 255⟩⟩ : Shape ℝ)
      (NewVector 0 0 0) = ⟨5, 0, 0, 1⟩ ∧
    (((controller.draw3DWorld (shapesMatrixOps ⟨Real.sqrt, Real.cos, Real.sin⟩) 0
        (⟨fun _ => ⟨arr3 (NewVector 0 0 0) (NewVector 1 0 0) (NewVector 0 1 0),
          NewVector 0 0 0, true, 0xFF0000FF⟩, 1⟩ : Heap ℝ) 0).1.mem
      (controller.draw3DWorld (shapesMatrixOps ⟨Real.sqrt, Real.cos, Real.sin⟩) 0
        (⟨fun _ => ⟨arr3 (NewVector 0 0 0) (NewVector 1 0 0) (NewVector 0 1 0),
          NewVector 0 0 0, true, 0xFF0000FF⟩, 1⟩ : Heap ℝ) 0).2).vectors 0 ≠
      placementWorldVertex ⟨Real.sqrt, Real.cos, Real.sin⟩
        (⟨[0], NewVector 5 0 0, NewVector 0 0 0, NewVector 1 1 1, ⟨255, 255, 255, 255⟩⟩ :
          Shape ℝ)
        (NewVector 0 0 0)) := by
  have h1 : ((controller.draw3DWorld (shapesMatrixOps ⟨Real.sqrt, Real.cos, Real.sin⟩) 0
        (⟨fun _ => ⟨arr3 (NewVector 0 0 0) (NewVector 1 0 0) (NewVector 0 1 0),
          NewVector 0 0 0, true, 0xFF0000FF⟩, 1⟩ : Heap ℝ) 0).1.mem
      (controller.draw3DWorld (shapesMatrixOps ⟨Real.sqrt, Real.cos, Real.sin⟩) 0
        (⟨fun _ => ⟨arr3 (NewVector 0 0 0) (NewVector 1 0 0) (NewVector 0 1 0),
          NewVector 0 0 0, true, 0xFF0000FF⟩, 1⟩ : Heap ℝ) 0).2).vectors 0 =
      ⟨0, 0, 9, 1⟩ := by
    rw [controller.draw3DWorld_value]
    simp [mapVertices, arr3, NewVector, Vector.MatrixMultiply, RotationX, RotationY, RotationZ,
      Translation]
  have h2 : placementWorldVertex ⟨Real.sqrt, Real.cos, Real.sin⟩
      (⟨[0], NewVector 5 0 0, NewVector 0 0 0, NewVector 1 1 1, ⟨255, 255, 255, 255⟩⟩ : Shape ℝ)
      (NewVector 0 0 0) = ⟨5, 0, 0, 1⟩ := by
    simp [placementWorldVertex, NewVector, Vector.MatrixMultiply, RotationX, RotationY,
      RotationZ, Translation]
  refine ⟨h1, h2, ?_⟩
  rw [h1, h2]
  intro h
  have := congrArg Vector.X h
  norm_num at this

/-! ## Theorems: Shape.duplicate -/

/-- C11: a duplicate shares its corner Vector cells with the template. For the template
with the one triangle (0,0,0), (1,0,0), (0,1,0) and two duplicates d1 and d2 of it, the
duplicates have one triangle each with the template's vertex values and colour, but
d1's first corner is the very cell of the template's first corner, so after
Map writes (9, 9, 9, 1) through it the template and d2 both read (9, 9, 9, 1) there. -/
theorem duplicate_shares_corners_at_failing_input :
    let st : Ptr.Store ℚ :=
      ⟨fun a =>
          if a = 1 then G3.NewVector 1 0 0 else if a = 2 then G3.NewVector 0 1 0
          else if a = 6 then G3.NewVector 1 1 1 else G3.NewVector 0 0 0,
        7, fun _ => ⟨arr3 0 1 2, 3, false, 0xFF0000FF⟩, 1⟩
    let s : Ptr.Shape := ⟨[0], 4, 5, 6, ⟨255, 255, 255, 255⟩⟩
    let d1 := s.duplicate st
    let d2 := s.duplicate d1.1
    let nine := Ptr.NewVector d2.1 9 9 9
    let after := Ptr.Map nine.1 ((nine.1.tri (d1.2.ts.headD 0)).vectors 0) nine.2
    (d1.2.ts = [1] ∧ d2.2.ts = [2]) ∧
    (d2.1.corner 1 0 = st.corner 0 0 ∧ d2.1.corner 1 1 = st.corner 0 1 ∧
      d2.1.corner 1 2 = st.corner 0 2 ∧ (d2.1.tri 1).color = (st.tri 0).color) ∧
    ((d2.1.tri 1).vectors 0 = (st.tri 0).vectors 0 ∧
      (d2.1.tri 2).vectors 0 = (st.tri 0).vectors 0) ∧
    (d2.1.corner 0 0 = ⟨0, 0, 0, 1⟩ ∧ d2.1.corner 2 0 = ⟨0, 0, 0, 1⟩) ∧
    (after.corner 1 0 = ⟨9, 9, 9, 1⟩ ∧ after.corner 0 0 = ⟨9, 9, 9, 1⟩ ∧
      after.corner 2 0 = ⟨9, 9, 9, 1⟩) := by
  simp [Ptr.Shape.duplicate, Ptr.duplicateLoop, Ptr.NewTriangle, Ptr.NewVector,
    Ptr.Store.allocVector, Ptr.Store.allocTriangle, Ptr.Map, Ptr.Store.corner, arr3,
    G3.NewVector, Function.update]

theorem arr3_eta {α : Type} (f : Fin 3 → α) : arr3 (f 0) (f 1) (f 2) = f := by
  funext i
  fin_cases i <;> rfl

theorem Ptr.NewTriangle_spec (st : Ptr.Store F) (v1 v2 v3 color : Nat) :
    (Ptr.NewTriangle st v1 v2 v3 color).2 = st.tnext ∧
    (Ptr.NewTriangle st v1 v2 v3 color).1.tnext = st.tnext + 1 ∧
    ((Ptr.NewTriangle st v1 v2 v3 color).1.tri st.tnext).vectors = arr3 v1 v2 v3 ∧
    ((Ptr.NewTriangle st v1 v2 v3 color).1.tri st.tnext).color = color ∧
    (∀ a, a < st.tnext → (Ptr.NewTriangle st v1 v2 v3 color).1.tri a = st.tri a) ∧
    (∀ a, a < st.vnext → (Ptr.NewTriangle st v1 v2 v3 color).1.vec a = st.vec a) ∧
    st.vnext ≤ (Ptr.NewTriangle st v1 v2 v3 color).1.vnext := by
  refine ⟨rfl, rfl, ?_, ?_, ?_, ?_, ?_⟩
  · simp [Ptr.NewTriangle, Ptr.NewVector, Ptr.Store.allocVector, Ptr.Store.allocTriangle]
  · simp [Ptr.NewTriangle, Ptr.NewVector, Ptr.Store.allocVector, Ptr.Store.allocTriangle]
  · intro a ha
    simp [Ptr.NewTriangle, Ptr.NewVector, Ptr.Store.allocVector, Ptr.Store.allocTriangle,
      Function.update_noteq (Nat.ne_of_lt ha)]
  · intro a ha
    simp [Ptr.NewTriangle, Ptr.NewVector, Ptr.Store.allocVector, Ptr.Store.allocTriangle,
      Function.update_noteq (Nat.ne_of_lt ha)]
  · simp [Ptr.NewTriangle, Ptr.NewVector, Ptr.Store.allocVector, Ptr.Store.allocTriangle]

theorem Ptr.duplicateLoop_frame (ts : List Nat) :
    ∀ (st : Ptr.Store F) (acc : List Nat),
      st.tnext ≤ (Ptr.duplicateLoop ts st acc).1.tnext ∧
      (∀ a, a < st.tnext → (Ptr.duplicateLoop ts st acc).1.tri a = st.tri a) ∧
      (∀ a, a < st.vnext → (Ptr.duplicateLoop ts st acc).1.vec a = st.vec a) ∧
      st.vnext ≤ (Ptr.duplicateLoop ts st acc).1.vnext := by
  induction ts with
  | nil =>
    intro st acc
    simp [Ptr.duplicateLoop]
  | cons t rest ih =>
    intro st acc
    obtain ⟨_, n2, _, _, n5, n6, n7⟩ := Ptr.NewTriangle_spec st ((st.tri t).vectors 0)
      ((st.tri t).vectors 1) ((st.tri t).vectors 2) (st.tri t).color
    obtain ⟨i1, i2, i3, i4⟩ := ih (Ptr.NewTriangle st ((st.tri t).vectors 0)
      ((st.tri t).vectors 1) ((st.tri t).vectors 2) (st.tri t).color).1
      (acc ++ [(Ptr.NewTriangle st ((st.tri t).vectors 0) ((st.tri t).vectors 1)
        ((st.tri t).vectors 2) (st.tri t).color).2])
    simp only [Ptr.duplicateLoop]
    refine ⟨by omega, ?_, ?_, le_trans n7 i4⟩
    · intro a ha
      rw [i2 a (by omega), n5 a ha]
    · intro a ha
      rw [i3 a (lt_of_lt_of_le ha n7), n6 a ha]

theorem Ptr.duplicateLoop_copies (ts : List Nat) :
    ∀ (st : Ptr.Store F) (acc : List Nat), (∀ t ∈ ts, t < st.tnext) →
      ∃ new, (Ptr.duplicateLoop ts st acc).2 = acc ++ new ∧
        List.Forall₂ (fun t a =>
          st.tnext ≤ a ∧
          ((Ptr.duplicateLoop ts st acc).1.tri a).vectors = (st.tri t).vectors ∧
          ((Ptr.duplicateLoop ts st acc).1.tri a).color = (st.tri t).color) ts new := by
  induction ts with
  | nil =>
    intro st acc _
    exact ⟨[], by simp [Ptr.duplicateLoop], List.Forall₂.nil⟩
  | cons t rest ih =>
    intro st acc hwf
    obtain ⟨n1, n2, n3, n4, n5, _, _⟩ := Ptr.NewTriangle_spec st ((st.tri t).vectors 0)
      ((st.tri t).vectors 1) ((st.tri t).vectors 2) (st.tri t).color
    have hwf' : ∀ t' ∈ rest, t' < (Ptr.NewTriangle st ((st.tri t).vectors 0)
        ((st.tri t).vectors 1) ((st.tri t).vectors 2) (st.tri t).color).1.tnext := by
      intro t' ht'
      rw [n2]
      exact Nat.lt_succ_of_lt (hwf t' (List.mem_cons_of_mem _ ht'))
    obtain ⟨new, e, hall⟩ := ih (Ptr.NewTriangle st ((st.tri t).vectors 0)
      ((st.tri t).vectors 1) ((st.tri t).vectors 2) (st.tri t).color).1
      (acc ++ [(Ptr.NewTriangle st ((st.tri t).vectors 0) ((st.tri t).vectors 1)
        ((st.tri t).vectors 2) (st.tri t).color).2]) hwf'
    have hfr := (Ptr.duplicateLoop_frame rest (Ptr.NewTriangle st ((st.tri t).vectors 0)
      ((st.tri t).vectors 1) ((st.tri t).vectors 2) (st.tri t).color).1
      (acc ++ [(Ptr.NewTriangle st ((st.tri t).vectors 0) ((st.tri t).vectors 1)
        ((st.tri t).vectors 2) (st.tri t).color).2])).2.1 st.tnext (by rw [n2]; omega)
    refine ⟨st.tnext :: new, ?_, List.Forall₂.cons ⟨le_refl _, ?_, ?_⟩ ?_⟩
    · simp only [Ptr.duplicateLoop]
      rw [e, n1]
      simp
    · simp only [Ptr.duplicateLoop]
      rw [hfr, n3, arr3_eta]
    · simp only [Ptr.duplicateLoop]
      rw [hfr, n4]
    · simp only [Ptr.duplicateLoop]
      have hq : ∀ t' ∈ rest, t' < st.tnext := fun t' ht' => hwf t' (List.mem_cons_of_mem _ ht')
      refine List.Forall₂.imp ?_ ((List.forall₂_and_left _ _).mpr ⟨hq, hall⟩)
      intro t' a ⟨ht', h1, h2, h3⟩
      rw [n2] at h1
      rw [n5 t' ht'] at h2 h3
      exact ⟨by omega, h2, h3⟩

/-- Shape.duplicate gives the duplicate one new Triangle cell per triangle of the template,
in the same order, each with the template triangle's colour and with the template
triangle's own three corner pointers. -/
theorem Ptr.Shape.duplicate_keeps_corner_pointers (s : Ptr.Shape) (st : Ptr.Store F)
    (hwf : ∀ t ∈ s.ts, t < st.tnext) :
    List.Forall₂ (fun t a =>
      st.tnext ≤ a ∧
      (((s.duplicate st).1.tri a).vectors = (st.tri t).vectors ∧
      ((s.duplicate st).1.tri a).color = (st.tri t).color)) s.ts (s.duplicate st).2.ts := by
  have key : ∀ st3 : Ptr.Store F, st3.tri = st.tri → st3.tnext = st.tnext →
      List.Forall₂ (fun t a =>
        st.tnext ≤ a ∧
        (((Ptr.duplicateLoop s.ts st3 []).1.tri a).vectors = (st.tri t).vectors ∧
        ((Ptr.duplicateLoop s.ts st3 []).1.tri a).color = (st.tri t).color)) s.ts
        (Ptr.duplicateLoop s.ts st3 []).2 := by
    intro st3 h1 h2
    obtain ⟨new, e, hall⟩ := Ptr.duplicateLoop_copies s.ts st3 [] (by rw [h2]; exact hwf)
    simp only [List.nil_append] at e
    rw [e, ← h1, ← h2]
    exact hall
  exact key _ rfl rfl

/-! ## Theorems: the model loader -/

theorem indexVector_pred (pts : List (Vector F)) (i : Int) :
    indexVector pts (i - 1) = vertexAt pts i := by
  unfold indexVector vertexAt
  by_cases h1 : 1 ≤ i
  · by_cases h2 : i ≤ (pts.length : Int)
    · rw [if_pos (by omega), if_pos ⟨h1, h2⟩]
    · rw [if_pos (by omega), if_neg (fun h => h2 h.2)]
      apply List.getElem?_eq_none
      omega
  · rw [if_neg (by omega), if_neg (fun h => h1 h.1)]

theorem vertexAt_isSome (pts : List (Vector F)) (i : Int) :
    (vertexAt pts i).isSome = true ↔ 1 ≤ i ∧ i ≤ (pts.length : Int) := by
  unfold vertexAt
  by_cases h : 1 ≤ i ∧ i ≤ (pts.length : Int)
  · rw [if_pos h]
    have hlt : (i - 1).toNat < pts.length := by omega
    rw [List.getElem?_eq_getElem hlt]
    simp [h]
  · rw [if_neg h]
    simp [h]

theorem parseFace_eq (pts : List (Vector F)) (body : GoString) :
    parseFace pts body =
      match faceFields body with
      | none => none
      | some (i, j, k) =>
        match vertexAt pts i, vertexAt pts j, vertexAt pts k with
        | some a, some b, some c => some (loadedTriangle a b c)
        | _, _, _ => none := by
  by_cases hlen : (splitSpace body).length = 3
  · unfold parseFace faceFields
    simp only [indexVector_pred]
    obtain ⟨a, b, c, habc⟩ := List.length_eq_three.mp hlen
    rw [habc]
    simp only [List.length_cons, List.length_nil, List.getD_cons_zero, List.getD_cons_succ]
    cases ParseInt a <;> cases ParseInt b <;> cases ParseInt c <;> simp [loadedTriangle]
  · have hff : faceFields body = none := by
      unfold faceFields
      split
      · rename_i a b c habc
        rw [habc] at hlen
        simp at hlen
      · rfl
    unfold parseFace
    simp only []
    rw [if_pos hlen, hff]

theorem length_of_take_two (line : GoString) (a b : Char) (h : line.take 2 = [a, b]) :
    2 ≤ line.length := by
  have := congrArg List.length h
  simp at this
  omega

theorem loadLoop_blank (ParseFloat : GoString → Option F) (rest : List GoString)
    (pts : List (Vector F)) (ts : List (Triangle F)) :
    loadLoop ParseFloat ([] :: rest) pts ts = loadLoop ParseFloat rest pts ts := by
  simp [loadLoop]

theorem loadLoop_short (ParseFloat : GoString → Option F) (line : GoString)
    (rest : List GoString) (pts : List (Vector F)) (ts : List (Triangle F))
    (h : line.length = 1) : loadLoop ParseFloat (line :: rest) pts ts = none := by
  simp [loadLoop, h]

theorem loadLoop_vertex (ParseFloat : GoString → Option F) (line : GoString)
    (rest : List GoString) (pts : List (Vector F)) (ts : List (Triangle F))
    (h : line.take 2 = ['v', ' ']) :
    loadLoop ParseFloat (line :: rest) pts ts =
      match parseVector ParseFloat (line.drop 2) with
      | none => none
      | some v => loadLoop ParseFloat rest (pts ++ [v]) ts := by
  have hl := length_of_take_two line _ _ h
  rw [loadLoop, if_neg (by omega), if_neg (by omega), if_pos h]

theorem loadLoop_face (ParseFloat : GoString → Option F) (line : GoString)
    (rest : List GoString) (pts : List (Vector F)) (ts : List (Triangle F))
    (h : line.take 2 = ['f', ' ']) :
    loadLoop ParseFloat (line :: rest) pts ts =
      match parseFace pts (line.drop 2) with
      | none => none
      | some t => loadLoop ParseFloat rest pts (ts ++ [t]) := by
  have hl := length_of_take_two line _ _ h
  have hv : line.take 2 ≠ ['v', ' '] := by
    rw [h]
    decide
  rw [loadLoop, if_neg (by omega), if_neg (by omega), if_neg hv, if_pos h]

theorem loadLoop_other (ParseFloat : GoString → Option F) (line : GoString)
    (rest : List GoString) (pts : List (Vector F)) (ts : List (Triangle F))
    (hl : line = [] ∨ 2 ≤ line.length) (hv : line.take 2 ≠ ['v', ' '])
    (hf : line.take 2 ≠ ['f', ' ']) :
    loadLoop ParseFloat (line :: rest) pts ts = loadLoop ParseFloat rest pts ts := by
  rcases hl with rfl | hl
  · exact loadLoop_blank ParseFloat rest pts ts
  · rw [loadLoop, if_neg (by omega), if_neg (by omega), if_neg hv, if_neg hf]

theorem declaredVertices_cons_vertex (ParseFloat : GoString → Option F) (line : GoString)
    (rest : List GoString) (v : Vector F) (h : line.take 2 = ['v', ' '])
    (hv : parseVector ParseFloat (line.drop 2) = some v) :
    declaredVertices ParseFloat (line :: rest) = v :: declaredVertices ParseFloat rest := by
  simp [declaredVertices, List.filterMap_cons, h, hv]

theorem declaredVertices_cons_other (ParseFloat : GoString → Option F) (line : GoString)
    (rest : List GoString) (h : line.take 2 ≠ ['v', ' ']) :
    declaredVertices ParseFloat (line :: rest) = declaredVertices ParseFloat rest := by
  simp [declaredVertices, List.filterMap_cons, h]

theorem faceCount_cons_face (line : GoString) (rest : List GoString)
    (h : line.take 2 = ['f', ' ']) : faceCount (line :: rest) = faceCount rest + 1 := by
  simp [faceCount, List.filter_cons, h]

theorem faceCount_cons_other (line : GoString) (rest : List GoString)
    (h : line.take 2 ≠ ['f', ' ']) : faceCount (line :: rest) = faceCount rest := by
  simp [faceCount, List.filter_cons, h]

theorem take_two_v_ne_f (line : GoString) (h : line.take 2 = ['v', ' ']) :
    line.take 2 ≠ ['f', ' '] := by
  rw [h]
  decide

theorem take_two_f_ne_v (line : GoString) (h : line.take 2 = ['f', ' ']) :
    line.take 2 ≠ ['v', ' '] := by
  rw [h]
  decide

theorem loadLoop_wellFormed (ParseFloat : GoString → Option F) (lines : List GoString) :
    ∀ (pts : List (Vector F)) (ts : List (Triangle F)),
      WellFormed ParseFloat pts.length lines →
      ∃ ts', loadLoop ParseFloat lines pts ts =
          some (pts ++ declaredVertices ParseFloat lines, ts ++ ts') ∧
        ts'.length = faceCount lines ∧
        ∀ pre line post, lines = pre ++ line :: post → line.take 2 = ['f', ' '] →
          ∃ i j k a b c, faceFields (line.drop 2) = some (i, j, k) ∧
            vertexAt (pts ++ declaredVertices ParseFloat pre) i = some a ∧
            vertexAt (pts ++ declaredVertices ParseFloat pre) j = some b ∧
            vertexAt (pts ++ declaredVertices ParseFloat pre) k = some c ∧
            ts'[faceCount pre]? = some (loadedTriangle a b c) := by
  induction lines with
  | nil =>
    intro pts ts _
    refine ⟨[], by simp [loadLoop, declaredVertices], by simp [faceCount], ?_⟩
    intro pre line post h
    simp at h
  | cons l0 rest ih =>
    intro pts ts hwf
    obtain ⟨hline, hrest⟩ := hwf
    by_cases hv : l0.take 2 = ['v', ' ']
    · -- a vertex record
      have hf := take_two_v_ne_f l0 hv
      rw [if_pos hv] at hrest
      have hsome : ∃ v, parseVector ParseFloat (l0.drop 2) = some v := by
        rcases hline with h | h | h | h
        · rw [h] at hv
          simp at hv
        · exact Option.isSome_iff_exists.mp h.2
        · exact absurd h.1 hf
        · exact absurd hv h.2.1
      obtain ⟨v, hpv⟩ := hsome
      have hlen : (pts ++ [v]).length = pts.length + 1 := by simp
      obtain ⟨ts', e, hl, hP⟩ := ih (pts ++ [v]) ts (by rw [hlen]; exact hrest)
      refine ⟨ts', ?_, ?_, ?_⟩
      · rw [loadLoop_vertex ParseFloat l0 rest pts ts hv, hpv]
        simp only []
        rw [e, declaredVertices_cons_vertex ParseFloat l0 rest v hv hpv]
        simp
      · rw [faceCount_cons_other l0 rest hf]
        exact hl
      · intro pre line post hsplit hface
        cases pre with
        | nil =>
          simp only [List.nil_append, List.cons.injEq] at hsplit
          rw [← hsplit.1] at hface
          exact absurd hface hf
        | cons p pre' =>
          simp only [List.cons_append, List.cons.injEq] at hsplit
          obtain ⟨hp, hr⟩ := hsplit
          subst hp
          obtain ⟨i, j, k, a, b, c, h1, h2, h3, h4, h5⟩ := hP pre' line post hr hface
          refine ⟨i, j, k, a, b, c, h1, ?_, ?_, ?_, ?_⟩
          · rw [declaredVertices_cons_vertex ParseFloat l0 pre' v hv hpv]
            simpa using h2
          · rw [declaredVertices_cons_vertex ParseFloat l0 pre' v hv hpv]
            simpa using h3
          · rw [declaredVertices_cons_vertex ParseFloat l0 pre' v hv hpv]
            simpa using h4
          · rw [faceCount_cons_other l0 pre' hf]
            exact h5
    · rw [if_neg hv] at hrest
      by_cases hf : l0.take 2 = ['f', ' ']
      · -- a face record
        have hidx : ∃ i j k, faceFields (l0.drop 2) = some (i, j, k) ∧
            (1 ≤ i ∧ i ≤ (pts.length : Int)) ∧ (1 ≤ j ∧ j ≤ (pts.length : Int)) ∧
            (1 ≤ k ∧ k ≤ (pts.length : Int)) := by
          rcases hline with h | h | h | h
          · rw [h] at hf
            simp at hf
          · exact absurd h.1 hv
          · exact h.2
          · exact absurd hf h.2.2
        obtain ⟨i, j, k, hff, hi, hj, hk⟩ := hidx
        obtain ⟨a, ha⟩ := Option.isSome_iff_exists.mp ((vertexAt_isSome pts i).mpr hi)
        obtain ⟨b, hb⟩ := Option.isSome_iff_exists.mp ((vertexAt_isSome pts j).mpr hj)
        obtain ⟨c, hc⟩ := Option.isSome_iff_exists.mp ((vertexAt_isSome pts k).mpr hk)
        have hpf : parseFace pts (l0.drop 2) = some (loadedTriangle a b c) := by
          rw [parseFace_eq, hff]
          simp only []
          rw [ha, hb, hc]
        obtain ⟨ts', e, hl, hP⟩ := ih pts (ts ++ [loadedTriangle a b c]) hrest
        refine ⟨loadedTriangle a b c :: ts', ?_, ?_, ?_⟩
        · rw [loadLoop_face ParseFloat l0 rest pts ts hf, hpf]
          simp only []
          rw [e, declaredVertices_cons_other ParseFloat l0 rest hv]
          simp
        · rw [faceCount_cons_face l0 rest hf, List.length_cons, hl]
        · intro pre line post hsplit hface
          cases pre with
          | nil =>
            simp only [List.nil_append, List.cons.injEq] at hsplit
            rw [← hsplit.1]
            refine ⟨i, j, k, a, b, c, hff, ?_, ?_, ?_, ?_⟩
            · simpa [declaredVertices] using ha
            · simpa [declaredVertices] using hb
            · simpa [declaredVertices] using hc
            · simp [faceCount]
          | cons p pre' =>
            simp only [List.cons_append, List.cons.injEq] at hsplit
            obtain ⟨hp, hr⟩ := hsplit
            subst hp
            obtain ⟨i', j', k', a', b', c', h1, h2, h3, h4, h5⟩ := hP pre' line post hr hface
            refine ⟨i', j', k', a', b', c', h1, ?_, ?_, ?_, ?_⟩
            · rw [declaredVertices_cons_other ParseFloat l0 pre' hv]
              exact h2
            · rw [declaredVertices_cons_other ParseFloat l0 pre' hv]
              exact h3
            · rw [declaredVertices_cons_other ParseFloat l0 pre' hv]
              exact h4
            · rw [faceCount_cons_face l0 pre' hf, List.getElem?_cons_succ]
              exact h5
      · -- a blank line or a line with another prefix
        have hl0 : l0 = [] ∨ 2 ≤ l0.length := by
          rcases hline with h | h | h | h
          · exact Or.inl h
          · exact absurd h.1 hv
          · exact absurd h.1 hf
          · exact Or.inr h.1
        obtain ⟨ts', e, hl, hP⟩ := ih pts ts hrest
        refine ⟨ts', ?_, ?_, ?_⟩
        · rw [loadLoop_other ParseFloat l0 rest pts ts hl0 hv hf, e,
            declaredVertices_cons_other ParseFloat l0 rest hv]
        · rw [faceCount_cons_other l0 rest hf]
          exact hl
        · intro pre line post hsplit hface
          cases pre with
          | nil =>
            simp only [List.nil_append, List.cons.injEq] at hsplit
            rw [← hsplit.1] at hface
            exact absurd hface hf
          | cons p pre' =>
            simp only [List.cons_append, List.cons.injEq] at hsplit
            obtain ⟨hp, hr⟩ := hsplit
            subst hp
            obtain ⟨i, j, k, a, b, c, h1, h2, h3, h4, h5⟩ := hP pre' line post hr hface
            refine ⟨i, j, k, a, b, c, h1, ?_, ?_, ?_, ?_⟩
            · rw [declaredVertices_cons_other ParseFloat l0 pre' hv]
              exact h2
            · rw [declaredVertices_cons_other ParseFloat l0 pre' hv]
              exact h3
            · rw [declaredVertices_cons_other ParseFloat l0 pre' hv]
              exact h4
            · rw [faceCount_cons_other l0 pre' hf]
              exact h5

/-- C15: for every sequence of well-formed model lines the loader returns one triangle per
`f` line, in file order, and the triangle of the line `f i j k` has as its corners, in this
order, the i-th, j-th and k-th (counted from 1) of the vertices declared by the `v` lines
before it. -/
theorem loadObject_one_triangle_per_face (ParseFloat : GoString → Option F)
    (lines : List GoString) (hwf : WellFormed ParseFloat 0 lines) :
    ∃ ts, loadObject ParseFloat lines = some ts ∧
      ts.length = faceCount lines ∧
      ∀ pre line post, lines = pre ++ line :: post → line.take 2 = ['f', ' '] →
        ∃ i j k a b c, faceFields (line.drop 2) = some (i, j, k) ∧
          vertexAt (declaredVertices ParseFloat pre) i = some a ∧
          vertexAt (declaredVertices ParseFloat pre) j = some b ∧
          vertexAt (declaredVertices ParseFloat pre) k = some c ∧
          ts[faceCount pre]? = some (loadedTriangle a b c) := by
  obtain ⟨ts', e, hl, hP⟩ := loadLoop_wellFormed ParseFloat lines [] [] hwf
  refine ⟨ts', ?_, hl, ?_⟩
  · unfold loadObject
    rw [e]
    simp
  · intro pre line post hsplit hface
    obtain ⟨i, j, k, a, b, c, h1, h2, h3, h4, h5⟩ := hP pre line post hsplit hface
    exact ⟨i, j, k, a, b, c, h1, by simpa using h2, by simpa using h3, by simpa using h4, h5⟩

/-- The instance of C15 at the lines `v 0 0 0`, `v 1 0 0`, `v 0 1 0`, `f 1 2 3`, with decimal
integers for the numbers that ParseFloat reads: the loader returns exactly one triangle, with
the corners (0,0,0), (1,0,0), (0,1,0). -/
theorem loadObject_one_triangle_per_face_witness :
    WellFormed (fun s => (ParseInt s).map fun i => ((i : Int) : ℚ)) 0
      ["v 0 0 0".toList, "v 1 0 0".toList, "v 0 1 0".toList, "f 1 2 3".toList] ∧
    (∃ ts, loadObject (fun s => (ParseInt s).map fun i => ((i : Int) : ℚ))
        ["v 0 0 0".toList, "v 1 0 0".toList, "v 0 1 0".toList, "f 1 2 3".toList] = some ts ∧
      ts.length =
        faceCount ["v 0 0 0".toList, "v 1 0 0".toList, "v 0 1 0".toList, "f 1 2 3".toList]) ∧
    loadObject (fun s => (ParseInt s).map fun i => ((i : Int) : ℚ))
        ["v 0 0 0".toList, "v 1 0 0".toList, "v 0 1 0".toList, "f 1 2 3".toList] =
      some [loadedTriangle (NewVector 0 0 0) (NewVector 1 0 0) (NewVector 0 1 0)] := by
  have hwf : WellFormed (fun s => (ParseInt s).map fun i => ((i : Int) : ℚ)) 0
      ["v 0 0 0".toList, "v 1 0 0".toList, "v 0 1 0".toList, "f 1 2 3".toList] := by
    simp [WellFormed, WellFormedLine, parseVector, faceFields, splitSpace, ParseInt,
      parseDigits, parseDigitsFrom, digitValue, List.splitOn, List.splitOnP,
      List.splitOnP.go]
    exact ⟨1, 2, 3, ⟨rfl, rfl, rfl⟩, by norm_num⟩
  obtain ⟨ts, e, hl, _⟩ := loadObject_one_triangle_per_face
    (fun s => (ParseInt s).map fun i => ((i : Int) : ℚ))
    ["v 0 0 0".toList, "v 1 0 0".toList, "v 0 1 0".toList, "f 1 2 3".toList] hwf
  refine ⟨hwf, ⟨ts, e, hl⟩, ?_⟩
  simp [loadObject, loadLoop, parseVector, parseFace, splitSpace, ParseInt, parseDigits,
    parseDigitsFrom, digitValue, indexVector, loadedTriangle, List.splitOn, List.splitOnP,
    List.splitOnP.go]

theorem vertexAt_eq_none (pts : List (Vector F)) (i : Int) :
    vertexAt pts i = none ↔ ¬(1 ≤ i ∧ i ≤ (pts.length : Int)) := by
  rw [← vertexAt_isSome, Option.not_isSome_iff_eq_none]

theorem loadLoop_append (ParseFloat : GoString → Option F) (pre rest : List GoString) :
    ∀ (pts : List (Vector F)) (ts : List (Triangle F)),
      loadLoop ParseFloat (pre ++ rest) pts ts =
        (loadLoop ParseFloat pre pts ts).bind fun r => loadLoop ParseFloat rest r.1 r.2 := by
  induction pre with
  | nil =>
    intro pts ts
    simp [loadLoop]
  | cons l0 pre' ih =>
    intro pts ts
    simp only [List.cons_append, loadLoop]
    split
    · exact ih pts ts
    · split
      · rfl
      · split
        · cases parseVector ParseFloat (l0.drop 2) with
          | none => rfl
          | some v => exact ih _ _
        · split
          · cases parseFace pts (l0.drop 2) with
            | none => rfl
            | some t => exact ih _ _
          · exact ih pts ts

theorem parseFace_none_iff (pts : List (Vector F)) (body : GoString) :
    parseFace pts body = none ↔
      (splitSpace body).length ≠ 3 ∨
      (∃ f ∈ splitSpace body, ParseInt f = none) ∨
      (∃ f ∈ splitSpace body, ∃ i, ParseInt f = some i ∧
        ¬(1 ≤ i ∧ i ≤ (pts.length : Int))) := by
  by_cases hlen : (splitSpace body).length = 3
  · obtain ⟨a, b, c, habc⟩ := List.length_eq_three.mp hlen
    unfold parseFace
    simp only [indexVector_pred]
    rw [habc]
    simp only [List.length_cons, List.length_nil, List.getD_cons_zero, List.getD_cons_succ]
    cases ha : ParseInt a <;> cases hb : ParseInt b <;> cases hc : ParseInt c <;>
      simp [ha, hb, hc]
    rename_i x y z
    have rx := vertexAt_eq_none pts x
    have ry := vertexAt_eq_none pts y
    have rz := vertexAt_eq_none pts z
    cases hx : vertexAt pts x <;> cases hy : vertexAt pts y <;> cases hz : vertexAt pts z <;>
      rw [hx] at rx <;> rw [hy] at ry <;> rw [hz] at rz <;> simp at rx ry rz ⊢ <;> omega
  · unfold parseFace
    simp only []
    rw [if_pos hlen]
    simp [hlen]

/-- C16: parseFace fails exactly when the face line does not consist of three
space-separated fields, or a field is not a base-10 32-bit integer, or an index lies
outside 1..n for the n vertices declared so far; and the first face line on which it fails
aborts the whole load. -/
theorem parseFace_fails_iff (ParseFloat : GoString → Option F) (pts : List (Vector F))
    (body : GoString) (pre post : List GoString) :
    (parseFace pts body = none ↔
      (splitSpace body).length ≠ 3 ∨
      (∃ f ∈ splitSpace body, ParseInt f = none) ∨
      (∃ f ∈ splitSpace body, ∃ i, ParseInt f = some i ∧
        ¬(1 ≤ i ∧ i ≤ (pts.length : Int)))) ∧
    (∀ ts, loadLoop ParseFloat pre [] [] = some (pts, ts) → parseFace pts body = none →
      loadObject ParseFloat (pre ++ ('f' :: ' ' :: body) :: post) = none) := by
  refine ⟨parseFace_none_iff pts body, ?_⟩
  intro ts hpre hnone
  unfold loadObject
  rw [loadLoop_append, hpre]
  show (loadLoop ParseFloat (('f' :: ' ' :: body) :: post) pts ts).map Prod.snd = none
  rw [loadLoop_face ParseFloat ('f' :: ' ' :: body) post pts ts rfl]
  have hd : ('f' :: ' ' :: body).drop 2 = body := rfl
  rw [hd, hnone]
  rfl

/-- The instances of C16 with three vertices declared: the face bodies `0 2 3`, `-1 2 3` and
`1 2 4` all fail, and the file `v 0 0 0`, `v 1 0 0`, `v 0 1 0`, `f 1 2 4` loads nothing. -/
theorem parseFace_fails_iff_witness :
    parseFace [(NewVector 0 0 0 : Vector ℚ), NewVector 1 0 0, NewVector 0 1 0]
      "0 2 3".toList = none ∧
    parseFace [(NewVector 0 0 0 : Vector ℚ), NewVector 1 0 0, NewVector 0 1 0]
      "-1 2 3".toList = none ∧
    parseFace [(NewVector 0 0 0 : Vector ℚ), NewVector 1 0 0, NewVector 0 1 0]
      "1 2 4".toList = none ∧
    loadObject (fun s => (ParseInt s).map fun i => ((i : Int) : ℚ))
      (["v 0 0 0".toList, "v 1 0 0".toList, "v 0 1 0".toList] ++
        ('f' :: ' ' :: "1 2 4".toList) :: []) = none := by
  have h4 := parseFace_fails_iff (fun s => (ParseInt s).map fun i => ((i : Int) : ℚ))
    [(NewVector 0 0 0 : Vector ℚ), NewVector 1 0 0, NewVector 0 1 0] "1 2 4".toList
    ["v 0 0 0".toList, "v 1 0 0".toList, "v 0 1 0".toList] []
  have e4 : parseFace [(NewVector 0 0 0 : Vector ℚ), NewVector 1 0 0, NewVector 0 1 0]
      "1 2 4".toList = none :=
    h4.1.mpr (by
      simp [splitSpace, ParseInt, parseDigits, parseDigitsFrom, digitValue, List.splitOn,
        List.splitOnP, List.splitOnP.go])
  refine ⟨?_, ?_, e4, h4.2 [] ?_ e4⟩
  · exact (parseFace_fails_iff (fun s => (ParseInt s).map fun i => ((i : Int) : ℚ))
      [(NewVector 0 0 0 : Vector ℚ), NewVector 1 0 0, NewVector 0 1 0] "0 2 3".toList
      [] []).1.mpr (by
        simp [splitSpace, ParseInt, parseDigits, parseDigitsFrom, digitValue, List.splitOn,
          List.splitOnP, List.splitOnP.go])
  · exact (parseFace_fails_iff (fun s => (ParseInt s).map fun i => ((i : Int) : ℚ))
      [(NewVector 0 0 0 : Vector ℚ), NewVector 1 0 0, NewVector 0 1 0] "-1 2 3".toList
      [] []).1.mpr (by
        simp [splitSpace, ParseInt, parseDigits, parseDigitsFrom, digitValue, List.splitOn,
          List.splitOnP, List.splitOnP.go])
  · simp [loadLoop, parseVector, splitSpace, ParseInt, parseDigits, parseDigitsFrom,
      digitValue, List.splitOn, List.splitOnP, List.splitOnP.go, NewVector]

/-- C17: a line of a single byte is not ignored. On the line `#` the slice expression
line[:2] of the loop panics, so the load of the one-line file fails, and with it the load
of any file that has this line, whatever was accumulated before it; had the line been
ignored the load of the one-line file would have returned the empty lists. -/
theorem loadObject_one_byte_line_at_failing_input (ParseFloat : GoString → Option F)
    (rest : List GoString) (pts : List (Vector F)) (ts : List (Triangle F)) :
    loadObject ParseFloat ["#".toList] = none ∧
    loadLoop ParseFloat ("#".toList :: rest) pts ts = none ∧
    loadLoop ParseFloat [] pts ts = some (pts, ts) := by
  refine ⟨?_, ?_, rfl⟩
  · unfold loadObject
    rw [loadLoop_short ParseFloat "#".toList [] [] [] rfl]
    rfl
  · exact loadLoop_short ParseFloat "#".toList rest pts ts rfl

/-! ## Theorems: the axis rotations -/

/-- C21, as the code has it: under the row-vector convention v' = v.MatrixMultiply(M) the
matrices RotationX, RotationY and RotationZ send (x, y, z, w) to
(x, y cos t + z sin t, -y sin t + z cos t, w), to (x cos t - z sin t, y, x sin t + z cos t, w)
and to (x cos t + y sin t, -x sin t + y cos t, z, w); for an even cosine and an odd sine
these are the images under the rotations by the opposite angle -t that leave
(x, y cos t - z sin t, y sin t + z cos t, w) and so on at the angle t. RotationZ(t) takes
(1, 0, 0) to (cos t, -sin t, 0). -/
theorem Rotation_row_vector_images (math : MathLib F) (t x y z w : F) :
    (⟨x, y, z, w⟩ : Vector F).MatrixMultiply (RotationX math t) =
      ⟨x, y * math.Cos t + z * math.Sin t, -(y * math.Sin t) + z * math.Cos t, w⟩ ∧
    (⟨x, y, z, w⟩ : Vector F).MatrixMultiply (RotationY math t) =
      ⟨x * math.Cos t - z * math.Sin t, y, x * math.Sin t + z * math.Cos t, w⟩ ∧
    (⟨x, y, z, w⟩ : Vector F).MatrixMultiply (RotationZ math t) =
      ⟨x * math.Cos t + y * math.Sin t, -(x * math.Sin t) + y * math.Cos t, z, w⟩ ∧
    (⟨1, 0, 0, w⟩ : Vector F).MatrixMultiply (RotationZ math t) =
      ⟨math.Cos t, -math.Sin t, 0, w⟩ ∧
    (math.Cos (-t) = math.Cos t → math.Sin (-t) = -math.Sin t →
      (⟨x, y, z, w⟩ : Vector F).MatrixMultiply (RotationX math t) =
        ⟨x, y * math.Cos (-t) - z * math.Sin (-t), y * math.Sin (-t) + z * math.Cos (-t), w⟩ ∧
      (⟨x, y, z, w⟩ : Vector F).MatrixMultiply (RotationY math t) =
        ⟨x * math.Cos (-t) + z * math.Sin (-t), y,
          -(x * math.Sin (-t)) + z * math.Cos (-t), w⟩ ∧
      (⟨x, y, z, w⟩ : Vector F).MatrixMultiply (RotationZ math t) =
        ⟨x * math.Cos (-t) - y * math.Sin (-t), x * math.Sin (-t) + y * math.Cos (-t), z,
          w⟩) := by
  have hX : (⟨x, y, z, w⟩ : Vector F).MatrixMultiply (RotationX math t) =
      ⟨x, y * math.Cos t + z * math.Sin t, -(y * math.Sin t) + z * math.Cos t, w⟩ := by
    simp [Vector.MatrixMultiply, RotationX]
  have hY : (⟨x, y, z, w⟩ : Vector F).MatrixMultiply (RotationY math t) =
      ⟨x * math.Cos t - z * math.Sin t, y, x * math.Sin t + z * math.Cos t, w⟩ := by
    simp [Vector.MatrixMultiply, RotationY]
    ring
  have hZ : (⟨x, y, z, w⟩ : Vector F).MatrixMultiply (RotationZ math t) =
      ⟨x * math.Cos t + y * math.Sin t, -(x * math.Sin t) + y * math.Cos t, z, w⟩ := by
    simp [Vector.MatrixMultiply, RotationZ]
  refine ⟨hX, hY, hZ, ?_, ?_⟩
  · simp [Vector.MatrixMultiply, RotationZ]
  · intro hc hs
    rw [hX, hY, hZ, hc, hs]
    simp only [Vector.mk.injEq, true_and, and_true]
    refine ⟨⟨?_, ?_⟩, ⟨?_, ?_⟩, ⟨?_, ?_⟩⟩ <;> ring

/-- C21 fails as stated: at the quarter turn t = pi / 2 over the reals, RotationX takes
(1, 1, 1) to (1, 1, -1) where the claim has (1, -1, 1), RotationY takes it to (-1, 1, 1)
where the claim has (1, 1, -1), and RotationZ takes (1, 0, 0) to (0, -1, 0) where the claim
has (cos t, sin t, 0) = (0, 1, 0). -/
theorem Rotation_quarter_turn_not_as_claimed :
    ((NewVector 1 1 1 : Vector ℝ).MatrixMultiply
        (RotationX ⟨Real.sqrt, Real.cos, Real.sin⟩ (Real.pi / 2)) = ⟨1, 1, -1, 1⟩ ∧
      (⟨1, 1 * Real.cos (Real.pi / 2) - 1 * Real.sin (Real.pi / 2),
        1 * Real.sin (Real.pi / 2) + 1 * Real.cos (Real.pi / 2), 1⟩ : Vector ℝ) =
        ⟨1, -1, 1, 1⟩ ∧
      (NewVector 1 1 1 : Vector ℝ).MatrixMultiply
        (RotationX ⟨Real.sqrt, Real.cos, Real.sin⟩ (Real.pi / 2)) ≠
        ⟨1, 1 * Real.cos (Real.pi / 2) - 1 * Real.sin (Real.pi / 2),
          1 * Real.sin (Real.pi / 2) + 1 * Real.cos (Real.pi / 2), 1⟩) ∧
    ((NewVector 1 1 1 : Vector ℝ).MatrixMultiply
        (RotationY ⟨Real.sqrt, Real.cos, Real.sin⟩ (Real.pi / 2)) = ⟨-1, 1, 1, 1⟩ ∧
      (NewVector 1 1 1 : Vector ℝ).MatrixMultiply
        (RotationY ⟨Real.sqrt, Real.cos, Real.sin⟩ (Real.pi / 2)) ≠
        ⟨1 * Real.cos (Real.pi / 2) + 1 * Real.sin (Real.pi / 2), 1,
          -(1 * Real.sin (Real.pi / 2)) + 1 * Real.cos (Real.pi / 2), 1⟩) ∧
    ((NewVector 1 0 0 : Vector ℝ).MatrixMultiply
        (RotationZ ⟨Real.sqrt, Real.cos, Real.sin⟩ (Real.pi / 2)) = ⟨0, -1, 0, 1⟩ ∧
      (NewVector 1 0 0 : Vector ℝ).MatrixMultiply
        (RotationZ ⟨Real.sqrt, Real.cos, Real.sin⟩ (Real.pi / 2)) ≠
        ⟨Real.cos (Real.pi / 2), Real.sin (Real.pi / 2), 0, 1⟩) := by
  refine ⟨⟨?_, ?_, ?_⟩, ⟨?_, ?_⟩, ⟨?_, ?_⟩⟩
  · simp [Vector.MatrixMultiply, RotationX, NewVector]
  · simp
  · simp [Vector.MatrixMultiply, RotationX, NewVector]
    norm_num
  · simp [Vector.MatrixMultiply, RotationY, NewVector]
  · simp [Vector.MatrixMultiply, RotationY, NewVector]
    norm_num
  · simp [Vector.MatrixMultiply, RotationZ, NewVector]
  · simp [Vector.MatrixMultiply, RotationZ, NewVector]
    norm_num

/-! ## Theorems: zero-area triangles in the Normal stage -/

theorem Vector.components_zero_of_DotProduct0 (v : Vector F) (h : v.DotProduct0 = 0) :
    v.X = 0 ∧ v.Y = 0 ∧ v.Z = 0 := by
  by_contra hne
  exact Vector.DotProduct0_ne_zero v hne h

theorem MathLib.Exact.sqrt_zero (math : MathLib F) (hm : math.Exact) : math.Sqrt 0 = 0 := by
  have h := hm.sqrt_mul_self 0 (le_refl 0)
  exact mul_self_eq_zero.mp h

theorem Vector.Length_eq_zero_iff (math : MathLib F) (hm : math.Exact) (v : Vector F) :
    v.Length math = 0 ↔ v.X = 0 ∧ v.Y = 0 ∧ v.Z = 0 := by
  constructor
  · intro hl
    apply Vector.components_zero_of_DotProduct0
    have h := hm.sqrt_mul_self _ v.DotProduct0_nonneg
    unfold Vector.Length at hl
    rw [hl] at h
    simpa using h.symm
  · rintro ⟨hx, hy, hz⟩
    unfold Vector.Length Vector.DotProduct0
    rw [hx, hy, hz]
    simpa using MathLib.Exact.sqrt_zero math hm

/-- A NaN operand: with the zero vector, Normalize yields NaN in X, Y and Z. -/
theorem Vector.NormalizeIEEE_zero (math : MathLib F) (hm : math.Exact) (v : Vector F)
    (hv : v.X = 0 ∧ v.Y = 0 ∧ v.Z = 0) :
    v.NormalizeIEEE math = (Float64.nan, Float64.nan, Float64.nan) := by
  have hl := (Vector.Length_eq_zero_iff math hm v).mpr hv
  simp [Vector.NormalizeIEEE, Float64.divide, hl, hv.1, hv.2.1, hv.2.2]

/-- A NaN operand makes the dot product NaN, and NaN is not greater than zero. -/
theorem DotProductIEEE_nan (v1 : Vector F) :
    DotProductIEEE (Float64.nan, Float64.nan, Float64.nan) v1 = Float64.nan ∧
      Float64.gtZero (Float64.nan : Float64 F) = false := by
  simp [DotProductIEEE, Float64.mulFinite, Float64.add, Float64.gtZero]

/-- With a length that is not zero every quotient of Normalize is finite, the one of the
field. -/
theorem normalVisibleIEEE_of_length_ne_zero (math : MathLib F) (c : Vector F) (T : Triangle F)
    (hl : (((T.vectors 1).Subtract (T.vectors 0)).CrossProduct
      ((T.vectors 2).Subtract (T.vectors 0))).Length math ≠ 0) :
    normalVisibleIEEE math c T =
      decide ((faceNormal math (T.vectors 0) (T.vectors 1) (T.vectors 2)).DotProduct1
        ((T.vectors 0).Subtract c) > 0) := by
  simp [normalVisibleIEEE, Vector.NormalizeIEEE, Float64.divide, hl, DotProductIEEE,
    Float64.mulFinite, Float64.add, Float64.gtZero, faceNormal, Vector.Normalize,
    Vector.DotProduct1]

theorem faceNormal_dot_zeroArea (math : MathLib F) (c : Vector F) (T : Triangle F)
    (hz : T.zeroArea) :
    (faceNormal math (T.vectors 0) (T.vectors 1) (T.vectors 2)).DotProduct1
      ((T.vectors 0).Subtract c) = 0 := by
  rw [faceNormal_dot]
  obtain ⟨hx, hy, hz⟩ := hz
  have h0 : (((T.vectors 1).Subtract (T.vectors 0)).CrossProduct
      ((T.vectors 2).Subtract (T.vectors 0))).DotProduct1 ((T.vectors 0).Subtract c) = 0 := by
    unfold Vector.DotProduct1
    rw [hx, hy, hz]
    ring
  rw [h0, zero_div]

/-- The Visible flag of the field model is the flag of float64 for every triangle, whether
its area is zero or not. -/
theorem normalVisibleIEEE_eq (math : MathLib F) (hm : math.Exact) (c : Vector F)
    (T : Triangle F) :
    normalVisibleIEEE math c T =
      decide ((faceNormal math (T.vectors 0) (T.vectors 1) (T.vectors 2)).DotProduct1
        ((T.vectors 0).Subtract c) > 0) := by
  by_cases hl : (((T.vectors 1).Subtract (T.vectors 0)).CrossProduct
      ((T.vectors 2).Subtract (T.vectors 0))).Length math = 0
  · have hz : T.zeroArea := (Vector.Length_eq_zero_iff math hm _).mp hl
    rw [faceNormal_dot_zeroArea math c T hz]
    unfold normalVisibleIEEE
    rw [Vector.NormalizeIEEE_zero math hm _ hz, (DotProductIEEE_nan _).1,
      (DotProductIEEE_nan ((T.vectors 0).Subtract c)).2]
    simp
  · exact normalVisibleIEEE_of_length_ne_zero math c T hl

theorem normalAndCull_zeroArea (math : MathLib F) (c : Vector F) (T : Triangle F)
    (hz : T.zeroArea) : (normalAndCull math c T).visible = false := by
  by_cases hv : T.visible
  · simp [normalAndCull, hv, faceNormal_dot_zeroArea math c T hz]
  · simp [normalAndCull, hv]

theorem Stage.onValue_culled [FloorRing F] (ops : MatrixOps F) (math : MathLib F)
    (projectionMatrix : Option (Matrix4X4 F)) (stage : Stage F) (T : Triangle F)
    (hv : T.visible = false) :
    (stage.onValue ops math projectionMatrix T).visible = false := by
  cases stage <;> simp [Stage.onValue, mapVertices, normalAndCull, hv]

theorem foldl_onValue_culled [FloorRing F] (ops : MatrixOps F) (math : MathLib F)
    (projectionMatrix : Option (Matrix4X4 F)) (stages : List (Stage F)) :
    ∀ T : Triangle F, T.visible = false →
      (stages.foldl (fun T' stage => stage.onValue ops math projectionMatrix T') T).visible =
        false := by
  induction stages with
  | nil =>
    intro T hv
    exact hv
  | cons stage rest ih =>
    intro T hv
    exact ih _ (Stage.onValue_culled ops math projectionMatrix stage T hv)

theorem frameTriangle_normal_zeroArea [FloorRing F] (ops : MatrixOps F) (math : MathLib F)
    (projectionMatrix : Option (Matrix4X4 F)) (pre post : List (Stage F)) (c : Vector F)
    (T : Triangle F) (hz : (frameTriangle ops math projectionMatrix pre T).zeroArea) :
    (frameTriangle ops math projectionMatrix (pre ++ Stage.normal c :: post) T).visible =
      false := by
  unfold frameTriangle at hz ⊢
  rw [List.foldl_append, List.foldl_cons]
  apply foldl_onValue_culled
  exact normalAndCull_zeroArea math c _ hz

/-- C22: on a triangle that is not culled and has zero area, cross(v1 - v0, v2 - v0) =
(0, 0, 0), the Normal stage returns the triangle it was given with Visible = false, for
every camera position, and so does the float64 computation, where the normal is NaN in X,
Y and Z and the comparison of NaN with zero is false; and every triangle that
Shape.GetTriangles returns, for a list of stages with Normal among them, comes from a
source triangle that did not reach that Normal with zero area. -/
theorem Normal_culls_zero_area [FloorRing F] (ops : MatrixOps F) (math : MathLib F)
    (hm : math.Exact) (projectionMatrix : Option (Matrix4X4 F)) (c : Vector F) (h : Heap F)
    (t : Nat) (hv : (h.mem t).visible = true) (hz : (h.mem t).zeroArea) :
    (Normal math c h t).2 = t ∧
    ((Normal math c h t).1.mem t).visible = false ∧
    Vector.NormalizeIEEE math
        ((((h.mem t).vectors 1).Subtract ((h.mem t).vectors 0)).CrossProduct
          (((h.mem t).vectors 2).Subtract ((h.mem t).vectors 0))) =
      (Float64.nan, Float64.nan, Float64.nan) ∧
    normalVisibleIEEE math c (h.mem t) = false ∧
    (∀ (s : Shape F) (pre post : List (Stage F)) (h0 : Heap F),
      (∀ t0 ∈ s.ts, t0 < h0.next) → s.ts.Nodup →
      ∀ a ∈ (s.GetTriangles ((pre ++ Stage.normal c :: post).map
          (Stage.run ops math projectionMatrix)) h0).2,
        ∃ t0 ∈ s.ts,
          (s.GetTriangles ((pre ++ Stage.normal c :: post).map
              (Stage.run ops math projectionMatrix)) h0).1.mem a =
            frameTriangle ops math projectionMatrix (pre ++ Stage.normal c :: post)
              (h0.mem t0) ∧
          ¬(frameTriangle ops math projectionMatrix pre (h0.mem t0)).zeroArea) := by
  have hfield : ((Normal math c h t).1.mem t).visible = false := by
    rw [Normal_visible_eq math c h t hv, faceNormal_dot_zeroArea math c (h.mem t) hz]
    simp
  refine ⟨by simp [Normal, hv], hfield, Vector.NormalizeIEEE_zero math hm _ hz, ?_, ?_⟩
  · rw [normalVisibleIEEE_eq math hm c (h.mem t), faceNormal_dot_zeroArea math c (h.mem t) hz]
    simp
  · intro s pre post h0 hwf hnd a ha
    have hrec := (getTrianglesRec_stages ops math projectionMatrix
      (pre ++ Stage.normal c :: post) s.ts h0 hwf hnd).2.2
    rw [GetTriangles_eq_rec] at ha ⊢
    have hm' : (getTrianglesRec ((pre ++ Stage.normal c :: post).map
          (Stage.run ops math projectionMatrix)) s.ts h0).1.mem a ∈
        (getTrianglesRec ((pre ++ Stage.normal c :: post).map
          (Stage.run ops math projectionMatrix)) s.ts h0).2.map
          (getTrianglesRec ((pre ++ Stage.normal c :: post).map
            (Stage.run ops math projectionMatrix)) s.ts h0).1.mem :=
      List.mem_map_of_mem _ ha
    rw [hrec] at hm'
    obtain ⟨hmem, hvis⟩ := List.mem_filter.mp hm'
    obtain ⟨t0, ht0, e⟩ := List.mem_map.mp hmem
    refine ⟨t0, ht0, e.symm, ?_⟩
    intro hzero
    have hfalse := frameTriangle_normal_zeroArea ops math projectionMatrix pre post c
      (h0.mem t0) hzero
    rw [e] at hfalse
    rw [hfalse] at hvis
    exact absurd hvis (by simp)

/-- The instance of C22 at the collinear corners (0,0,1), (1,0,1), (2,0,1) seen from the
origin: the triangle is not culled before the stage, has zero area, and is culled by it,
in the field and in float64. -/
theorem Normal_culls_zero_area_witness :
    ((⟨fun _ => ⟨arr3 (NewVector 0 0 1) (NewVector 1 0 1) (NewVector 2 0 1), NewVector 0 0 0,
        true, 0xFF0000FF⟩, 1⟩ : Heap ℝ).mem 0).visible = true ∧
    ((⟨fun _ => ⟨arr3 (NewVector 0 0 1) (NewVector 1 0 1) (NewVector 2 0 1), NewVector 0 0 0,
        true, 0xFF0000FF⟩, 1⟩ : Heap ℝ).mem 0).zeroArea ∧
    ((Normal ⟨Real.sqrt, Real.cos, Real.sin⟩ (NewVector 0 0 0)
        (⟨fun _ => ⟨arr3 (NewVector 0 0 1) (NewVector 1 0 1) (NewVector 2 0 1),
          NewVector 0 0 0, true, 0xFF0000FF⟩, 1⟩ : Heap ℝ) 0).1.mem 0).visible = false ∧
    normalVisibleIEEE ⟨Real.sqrt, Real.cos, Real.sin⟩ (NewVector 0 0 0)
      ((⟨fun _ => ⟨arr3 (NewVector 0 0 1) (NewVector 1 0 1) (NewVector 2 0 1),
        NewVector 0 0 0, true, 0xFF0000FF⟩, 1⟩ : Heap ℝ).mem 0) = false := by
  have hz : ((⟨fun _ => ⟨arr3 (NewVector 0 0 1) (NewVector 1 0 1) (NewVector 2 0 1),
      NewVector 0 0 0, true, 0xFF0000FF⟩, 1⟩ : Heap ℝ).mem 0).zeroArea := by
    simp [Triangle.zeroArea, arr3, NewVector, Vector.Subtract, Vector.CrossProduct]
  have h := Normal_culls_zero_area (shapesMatrixOps ⟨Real.sqrt, Real.cos, Real.sin⟩)
    ⟨Real.sqrt, Real.cos, Real.sin⟩ ⟨Real.sqrt_nonneg, fun x hx => Real.mul_self_sqrt hx⟩ none
    (NewVector 0 0 0)
    (⟨fun _ => ⟨arr3 (NewVector 0 0 1) (NewVector 1 0 1) (NewVector 2 0 1), NewVector 0 0 0,
      true, 0xFF0000FF⟩, 1⟩ : Heap ℝ) 0 rfl hz
  exact ⟨rfl, hz, h.2.1, h.2.2.2.1⟩

/-! ## Theorems: float64 with its rounding -/

namespace Binary64

theorem log_eq (q : ℚ) (e : ℤ) (h1 : (2 : ℚ) ^ e ≤ q) (h2 : q < 2 ^ (e + 1)) :
    Int.log 2 q = e := by
  have hq : 0 < q := lt_of_lt_of_le (by positivity) h1
  have a : e ≤ Int.log 2 q :=
    (Int.zpow_le_iff_le_log (by norm_num) hq).mp (by simpa using h1)
  have b : Int.log 2 q < e + 1 :=
    (Int.lt_zpow_iff_log_lt (by norm_num) hq).mp (by simpa using h2)
  omega

theorem roundHalfEven_natCast (n : ℕ) : roundHalfEven (n : ℚ) = n := by
  simp [roundHalfEven]

theorem roundHalfEven_of_lt (x : ℚ) (n : ℕ) (h1 : (n : ℚ) ≤ x) (h2 : x < n + 1 / 2) :
    roundHalfEven x = n := by
  have hf : ⌊x⌋₊ = n :=
    (Nat.floor_eq_iff (le_trans (Nat.cast_nonneg n) h1)).mpr ⟨h1, by linarith⟩
  unfold roundHalfEven
  rw [hf, if_pos (by linarith)]

theorem roundHalfEven_of_gt (x : ℚ) (n : ℕ) (h1 : (n : ℚ) + 1 / 2 < x) (h2 : x < n + 1) :
    roundHalfEven x = n + 1 := by
  have hf : ⌊x⌋₊ = n :=
    (Nat.floor_eq_iff (le_trans (Nat.cast_nonneg n) (by linarith))).mpr ⟨by linarith, h2⟩
  unfold roundHalfEven
  rw [hf, if_neg (by linarith), if_pos (by linarith)]

theorem roundHalfEven_tie (n : ℕ) :
    roundHalfEven ((n : ℚ) + 1 / 2) = if n % 2 = 0 then n else n + 1 := by
  have hf : ⌊(n : ℚ) + 1 / 2⌋₊ = n :=
    (Nat.floor_eq_iff (by positivity)).mpr ⟨by linarith, by linarith⟩
  unfold roundHalfEven
  rw [hf, if_neg (by linarith), if_neg (by linarith)]

theorem round_zero : round 0 = Float64.finite 0 := by
  simp [round]

theorem round_of_pos (q : ℚ) (e : ℤ) (h1 : (2 : ℚ) ^ e ≤ q) (h2 : q < 2 ^ (e + 1))
    (he : -1022 ≤ e)
    (hov : (roundHalfEven (q / 2 ^ (e - 52)) : ℚ) * 2 ^ (e - 52) < 2 ^ (1024 : ℤ)) :
    round q = Float64.finite ((roundHalfEven (q / 2 ^ (e - 52)) : ℚ) * 2 ^ (e - 52)) := by
  have hq : 0 < q := lt_of_lt_of_le (by positivity) h1
  have hu : quantum q = e - 52 := by
    unfold quantum
    rw [log_eq q e h1 h2]
    exact max_eq_left (by omega)
  unfold round
  rw [if_neg (ne_of_gt hq), abs_of_pos hq, hu, if_neg (not_le.mpr hov), if_pos hq]

theorem round_of_small (q : ℚ) (h0 : 0 < q) (h : q < 2 ^ (-1022 : ℤ))
    (hov : (roundHalfEven (q / 2 ^ (-1074 : ℤ)) : ℚ) * 2 ^ (-1074 : ℤ) < 2 ^ (1024 : ℤ)) :
    round q = Float64.finite ((roundHalfEven (q / 2 ^ (-1074 : ℤ)) : ℚ) * 2 ^ (-1074 : ℤ)) := by
  have hl : Int.log 2 q < -1022 :=
    (Int.lt_zpow_iff_log_lt (by norm_num) h0).mp (by simpa using h)
  have hu : quantum q = -1074 := by
    unfold quantum
    exact max_eq_right (by omega)
  unfold round
  rw [if_neg (ne_of_gt h0), abs_of_pos h0, hu, if_neg (not_le.mpr hov), if_pos h0]

theorem round_neg (q : ℚ) : round (-q) = neg (round q) := by
  unfold round
  by_cases h0 : q = 0
  · simp [h0, neg]
  · rcases lt_or_gt_of_ne h0 with hn | hp
    · have h1 : ¬ (0 < q) := not_lt.mpr hn.le
      have h2 : 0 < -q := neg_pos.mpr hn
      rw [if_neg (neg_ne_zero.mpr h0), if_neg h0, abs_neg, if_pos h2, if_pos h2, if_neg h1,
        if_neg h1]
      split_ifs <;> simp [neg]
    · have h1 : ¬ (0 < -q) := not_lt.mpr (neg_nonpos.mpr hp.le)
      rw [if_neg (neg_ne_zero.mpr h0), if_neg h0, abs_neg, if_neg h1, if_neg h1, if_pos hp,
        if_pos hp]
      split_ifs <;> simp [neg]

theorem round_normal (m : ℕ) (e : ℤ) (h52 : 2 ^ 52 ≤ m) (h53 : m < 2 ^ 53) (he1 : -1074 ≤ e)
    (he2 : e ≤ 971) : round ((m : ℚ) * 2 ^ e) = Float64.finite ((m : ℚ) * 2 ^ e) := by
  have hp : (0 : ℚ) < 2 ^ e := by positivity
  have h52q : (2 : ℚ) ^ (52 : ℤ) ≤ m := by exact_mod_cast h52
  have h53q : (m : ℚ) < 2 ^ (53 : ℤ) := by exact_mod_cast h53
  have hd : (m : ℚ) * 2 ^ e / 2 ^ (e + 52 - 52) = m := by
    rw [add_sub_cancel_right]
    field_simp
  have hr := round_of_pos ((m : ℚ) * 2 ^ e) (e + 52)
    (by
      rw [add_comm, zpow_add₀ (by norm_num)]
      exact mul_le_mul_of_nonneg_right h52q hp.le)
    (by
      rw [show e + 52 + 1 = 53 + e by ring, zpow_add₀ (by norm_num)]
      exact mul_lt_mul_of_pos_right h53q hp)
    (by omega)
    (by
      rw [hd, roundHalfEven_natCast, add_sub_cancel_right]
      calc (m : ℚ) * 2 ^ e < 2 ^ (53 : ℤ) * 2 ^ e := mul_lt_mul_of_pos_right h53q hp
        _ = 2 ^ (53 + e) := (zpow_add₀ (by norm_num) _ _).symm
        _ ≤ 2 ^ (1024 : ℤ) := zpow_le_zpow_right₀ (by norm_num) (by omega))
  rw [hd, roundHalfEven_natCast, add_sub_cancel_right] at hr
  exact hr

theorem round_zpow (e : ℤ) (h1 : -1022 ≤ e) (h2 : e ≤ 1023) :
    round ((2 : ℚ) ^ e) = Float64.finite (2 ^ e) := by
  have h := round_normal (2 ^ 52) (e - 52) (le_refl _) (by norm_num) (by omega) (by omega)
  have hx : (((2 ^ 52 : ℕ) : ℚ)) * 2 ^ (e - 52) = 2 ^ e := by
    rw [zpow_sub₀ (by norm_num : (2 : ℚ) ≠ 0)]
    push_cast
    ring
  rwa [hx] at h

theorem round_underflow (q : ℚ) (h0 : 0 < q) (h : q < 2 ^ (-1075 : ℤ)) :
    round q = Float64.finite 0 := by
  have hx : q / 2 ^ (-1074 : ℤ) < 1 / 2 := by
    rw [div_lt_iff₀ (by positivity)]
    calc q < 2 ^ (-1075 : ℤ) := h
      _ = 1 / 2 * 2 ^ (-1074 : ℤ) := by
        rw [show (-1075 : ℤ) = -1 + -1074 by norm_num, zpow_add₀ (by norm_num)]
        norm_num
  have hpos : (0 : ℚ) < 2 ^ (-1074 : ℤ) := by positivity
  have hr : roundHalfEven (q / 2 ^ (-1074 : ℤ)) = 0 :=
    roundHalfEven_of_lt _ 0
      (by simp only [Nat.cast_zero]; exact (div_pos h0 hpos).le)
      (by simp only [Nat.cast_zero, zero_add]; exact hx)
  have hs := round_of_small q h0
    (lt_trans h (zpow_lt_zpow_right₀ (by norm_num) (by norm_num)))
    (by rw [hr]; simp; positivity)
  rw [hs, hr]
  simp

theorem add_nan_left (b : Float64 ℚ) : add Float64.nan b = Float64.nan := by
  cases b <;> rfl

theorem mul_nan_left (b : Float64 ℚ) : mul Float64.nan b = Float64.nan := by
  cases b <;> rfl

theorem DotProduct1_nan (y z w : Float64 ℚ) (d : Vector (Float64 ℚ)) :
    DotProduct1 ⟨Float64.nan, y, z, w⟩ d = Float64.nan := by
  simp [DotProduct1, add_nan_left, mul_nan_left]

theorem add_finite (x y : ℚ) : add (Float64.finite x) (Float64.finite y) = round (x + y) := by
  simp [add]

theorem mul_finite (x y : ℚ) : mul (Float64.finite x) (Float64.finite y) = round (x * y) := by
  simp [mul]

theorem div_finite (x y : ℚ) (hy : y ≠ 0) :
    div (Float64.finite x) (Float64.finite y) = round (x / y) := by
  simp [div, hy]

theorem DotProduct1_finite (a b c w a1 b1 c1 w1 : ℚ) :
    DotProduct1 ⟨Float64.finite a, Float64.finite b, Float64.finite c, Float64.finite w⟩
      ⟨Float64.finite a1, Float64.finite b1, Float64.finite c1, Float64.finite w1⟩ =
    add (add (round (a * a1)) (round (b * b1))) (round (c * c1)) := by
  simp [DotProduct1, mul]

theorem DotProduct0_finite (a b c w : ℚ) :
    DotProduct0 ⟨Float64.finite a, Float64.finite b, Float64.finite c, Float64.finite w⟩ =
    add (add (round (a * a)) (round (b * b))) (round (c * c)) := by
  simp [DotProduct0, mul]

theorem Subtract_finite (a b c w a1 b1 c1 w1 : ℚ) :
    Subtract ⟨Float64.finite a, Float64.finite b, Float64.finite c, Float64.finite w⟩
      ⟨Float64.finite a1, Float64.finite b1, Float64.finite c1, Float64.finite w1⟩ =
    ⟨round (a - a1), round (b - b1), round (c - c1), Float64.finite 0⟩ := by
  simp [Subtract, sub, neg, add, sub_eq_add_neg]

theorem CrossProduct_finite (a b c w a1 b1 c1 w1 : ℚ) :
    CrossProduct ⟨Float64.finite a, Float64.finite b, Float64.finite c, Float64.finite w⟩
      ⟨Float64.finite a1, Float64.finite b1, Float64.finite c1, Float64.finite w1⟩ =
    ⟨sub (round (b * c1)) (round (c * b1)), sub (round (c * a1)) (round (a * c1)),
      sub (round (a * b1)) (round (b * a1)), Float64.finite 0⟩ := by
  simp [CrossProduct, mul]

theorem sub_finite (x y : ℚ) : sub (Float64.finite x) (Float64.finite y) = round (x - y) := by
  simp [sub, neg, add, sub_eq_add_neg]

theorem Normalize_underflow (z : ℚ) (w : Float64 ℚ) (hz : z ≠ 0)
    (hu : round (z * z) = Float64.finite 0) :
    Normalize ⟨Float64.finite 0, Float64.finite 0, Float64.finite z, w⟩ =
      ⟨Float64.nan, Float64.nan, if 0 < z then Float64.posInf else Float64.negInf,
        Float64.finite 0⟩ := by
  simp [Normalize, Length, DotProduct0, mul, add, round_zero, hu, sqrt, div, hz]

theorem Normal_of_visible (camera v0 v1 v2 n : Vector (Float64 ℚ)) (color next : Nat) :
    ((Normal camera ⟨fun _ => ⟨arr3 v0 v1 v2, n, true, color⟩, next⟩ 0).1.mem 0).normal =
      Normalize (CrossProduct (Subtract v1 v0) (Subtract v2 v0)) ∧
    ((Normal camera ⟨fun _ => ⟨arr3 v0 v1 v2, n, true, color⟩, next⟩ 0).1.mem 0).visible =
      Float64.gtZero (DotProduct1 (Normalize (CrossProduct (Subtract v1 v0) (Subtract v2 v0)))
        (Subtract v0 camera)) := by
  simp [Normal, Heap.store, arr3]

theorem sqrt_sq (m : ℕ) (e : ℤ) (h52 : 2 ^ 52 ≤ m) (h53 : m < 2 ^ 53) :
    sqrt (Float64.finite (((m : ℚ) * 2 ^ e) * ((m : ℚ) * 2 ^ e))) =
      Float64.finite ((m : ℚ) * 2 ^ e) := by
  have hp : (0 : ℚ) < 2 ^ e := by positivity
  have hm : (0 : ℚ) < m := by
    have : 0 < m := Nat.lt_of_lt_of_le (by norm_num) h52
    exact_mod_cast this
  have h52q : (2 : ℚ) ^ (52 : ℤ) ≤ m := by exact_mod_cast h52
  have h53q : (m : ℚ) < 2 ^ (53 : ℤ) := by exact_mod_cast h53
  have hx0 : (0 : ℚ) < ((m : ℚ) * 2 ^ e) * ((m : ℚ) * 2 ^ e) := by positivity
  have hxe : ((m : ℚ) * 2 ^ e) * ((m : ℚ) * 2 ^ e) = (m : ℚ) * m * 2 ^ (2 * e) := by
    rw [two_mul, zpow_add₀ (by norm_num : (2 : ℚ) ≠ 0)]
    ring
  have hp2 : (0 : ℚ) < 2 ^ (2 * e) := by positivity
  have hl1 : 104 + 2 * e ≤ Int.log 2 (((m : ℚ) * 2 ^ e) * ((m : ℚ) * 2 ^ e)) := by
    refine (Int.zpow_le_iff_le_log (by norm_num) hx0).mp ?_
    rw [hxe, zpow_add₀ (by norm_num)]
    refine mul_le_mul_of_nonneg_right ?_ hp2.le
    calc (((2 : ℕ) : ℚ)) ^ (104 : ℤ) = 2 ^ (52 : ℤ) * 2 ^ (52 : ℤ) := by norm_num
      _ ≤ (m : ℚ) * m := mul_le_mul h52q h52q (by positivity) hm.le
  have hl2 : Int.log 2 (((m : ℚ) * 2 ^ e) * ((m : ℚ) * 2 ^ e)) < 106 + 2 * e := by
    refine (Int.lt_zpow_iff_log_lt (by norm_num) hx0).mp ?_
    rw [hxe, zpow_add₀ (by norm_num)]
    refine mul_lt_mul_of_pos_right ?_ hp2
    calc (m : ℚ) * m < 2 ^ (53 : ℤ) * 2 ^ (53 : ℤ) :=
          mul_lt_mul h53q h53q.le hm (by positivity)
      _ = (((2 : ℕ) : ℚ)) ^ (106 : ℤ) := by norm_num
  have hpe : (Int.log 2 (((m : ℚ) * 2 ^ e) * ((m : ℚ) * 2 ^ e)) - 104) / 2 = e := by omega
  have hs : ((m : ℚ) * 2 ^ e) * ((m : ℚ) * 2 ^ e) / 2 ^ (2 * e) = ((m * m : ℕ) : ℚ) := by
    rw [hxe]
    push_cast
    field_simp
  have hlt : (((m * m : ℕ) : ℚ)) < ((m : ℚ) + 1 / 2) ^ 2 := by
    push_cast
    nlinarith
  simp only [sqrt]
  rw [if_neg (not_lt.mpr hx0.le), if_neg hx0.ne', hpe, hs, Nat.floor_natCast, Nat.sqrt_eq,
    if_pos hlt]

theorem max_finite (x y : ℚ) :
    max (Float64.finite x) (Float64.finite y) = Float64.finite (if x < y then y else x) := by
  simp [max]

theorem round_one : round 1 = Float64.finite 1 := by
  simpa using round_zpow 0 (by norm_num) (by norm_num)

theorem round_three : round 3 = Float64.finite 3 := by
  have h := round_normal 6755399441055744 (-51) (by norm_num) (by norm_num) (by norm_num)
    (by norm_num)
  rwa [show ((6755399441055744 : ℕ) : ℚ) * 2 ^ (-51 : ℤ) = 3 by norm_num] at h

theorem round_nine : round 9 = Float64.finite 9 := by
  have h := round_normal 5066549580791808 (-49) (by norm_num) (by norm_num) (by norm_num)
    (by norm_num)
  rwa [show ((5066549580791808 : ℕ) : ℚ) * 2 ^ (-49 : ℤ) = 9 by norm_num] at h

theorem sqrt_nine : sqrt (Float64.finite 9) = Float64.finite 3 := by
  have h := sqrt_sq 6755399441055744 (-51) (by norm_num) (by norm_num)
  rw [show ((6755399441055744 : ℕ) : ℚ) * 2 ^ (-51 : ℤ) = 3 by norm_num,
    show (3 : ℚ) * 3 = 9 by norm_num] at h
  exact h

theorem round_third :
    round (6004799503160661 / 18014398509481984) =
      Float64.finite (6004799503160661 / 18014398509481984) := by
  have h := round_normal 6004799503160661 (-54) (by norm_num) (by norm_num) (by norm_num)
    (by norm_num)
  rwa [show ((6004799503160661 : ℕ) : ℚ) * 2 ^ (-54 : ℤ) =
    6004799503160661 / 18014398509481984 by norm_num] at h

theorem round_tenth :
    round (1 / 10) = Float64.finite (3602879701896397 / 36028797018963968) := by
  have hr : roundHalfEven ((1 / 10 : ℚ) / 2 ^ ((-4 : ℤ) - 52)) = 7205759403792793 + 1 :=
    roundHalfEven_of_gt _ 7205759403792793 (by norm_num) (by norm_num)
  have h := round_of_pos (1 / 10) (-4) (by norm_num) (by norm_num) (by norm_num)
    (by rw [hr]; norm_num)
  rw [h, hr]
  norm_num

theorem round_three_thirds :
    round (18014398509481983 / 18014398509481984) = Float64.finite 1 := by
  have hx : (18014398509481983 / 18014398509481984 : ℚ) / 2 ^ ((-1 : ℤ) - 52) =
      ((9007199254740991 : ℕ) : ℚ) + 1 / 2 := by norm_num
  have hr : roundHalfEven ((18014398509481983 / 18014398509481984 : ℚ) / 2 ^ ((-1 : ℤ) - 52)) =
      9007199254740992 := by
    rw [hx, roundHalfEven_tie]
    norm_num
  have h := round_of_pos (18014398509481983 / 18014398509481984) (-1) (by norm_num)
    (by norm_num) (by norm_num) (by rw [hr]; norm_num)
  rw [h, hr]
  norm_num

theorem Shade_writes_color (light v0 v1 v2 n : Vector (Float64 ℚ)) (visible : Bool)
    (color next : Nat) :
    ((Shade light ⟨fun _ => ⟨arr3 v0 v1 v2, n, visible, color⟩, next⟩ 0).1.mem 0).color =
      Color.Uint32
        ⟨toUint8 (mul (ofUint8 (uint8 (color >>> 8 >>> 8 >>> 8)))
            (max (round (1 / 10)) (DotProduct1 n (Normalize light)))),
          toUint8 (mul (ofUint8 (uint8 (color >>> 8 >>> 8)))
            (max (round (1 / 10)) (DotProduct1 n (Normalize light)))),
          toUint8 (mul (ofUint8 (uint8 (color >>> 8)))
            (max (round (1 / 10)) (DotProduct1 n (Normalize light)))),
          uint8 color⟩ := by
  simp [Shade, Heap.store]

theorem Normalize_three :
    Normalize (NewVector (Float64.finite 0) (Float64.finite 0) (Float64.finite 3)) =
      ⟨Float64.finite 0, Float64.finite 0, Float64.finite 1, Float64.finite 0⟩ := by
  have hl : Length (NewVector (Float64.finite 0) (Float64.finite 0) (Float64.finite 3)) =
      Float64.finite 3 := by
    rw [Length, NewVector, DotProduct0_finite]
    simp only [mul_zero, round_zero, add_finite, add_zero, zero_add]
    rw [show (3 : ℚ) * 3 = 9 by norm_num, round_nine, add_finite, zero_add, round_nine,
      sqrt_nine]
  have h3 : (3 : ℚ) ≠ 0 := by norm_num
  rw [Normalize, hl]
  simp only [NewVector]
  rw [div_finite _ _ h3, div_finite _ _ h3, zero_div, round_zero, div_self h3, round_one]

theorem sqrt_finite_one : sqrt (Float64.finite 1) = Float64.finite 1 := by
  have h := sqrt_sq 4503599627370496 (-52) (by norm_num) (by norm_num)
  rw [show ((4503599627370496 : ℕ) : ℚ) * 2 ^ (-52 : ℤ) = 1 by norm_num, mul_one] at h
  exact h

theorem round_neg_one : round (-1) = Float64.finite (-1) := by
  rw [round_neg, round_one]
  rfl

theorem round_255 : round 255 = Float64.finite 255 := by
  have h := round_normal 8972014882652160 (-45) (by norm_num) (by norm_num) (by norm_num)
    (by norm_num)
  rwa [show ((8972014882652160 : ℕ) : ℚ) * 2 ^ (-45 : ℤ) = 255 by norm_num] at h

theorem round_255_tenth :
    round (918734323983581235 / 36028797018963968) = Float64.finite (51 / 2) := by
  have hr : roundHalfEven ((918734323983581235 / 36028797018963968 : ℚ) / 2 ^ ((4 : ℤ) - 52)) =
      7177611906121728 :=
    roundHalfEven_of_lt _ 7177611906121728 (by norm_num) (by norm_num)
  have h := round_of_pos (918734323983581235 / 36028797018963968) 4 (by norm_num)
    (by norm_num) (by norm_num) (by rw [hr]; norm_num)
  rw [h, hr]
  norm_num

theorem Normalize_unit (z : ℚ) (hz : z * z = 1) (hr : round z = Float64.finite z) :
    Normalize ⟨Float64.finite 0, Float64.finite 0, Float64.finite z, Float64.finite 0⟩ =
      ⟨Float64.finite 0, Float64.finite 0, Float64.finite z, Float64.finite 0⟩ := by
  have hl : Length ⟨Float64.finite 0, Float64.finite 0, Float64.finite z, Float64.finite 0⟩ =
      Float64.finite 1 := by
    rw [Length, DotProduct0_finite]
    simp only [mul_zero, round_zero, add_finite, add_zero, zero_add]
    rw [hz, round_one, add_finite, zero_add, round_one, sqrt_finite_one]
  have h1 : (1 : ℚ) ≠ 0 := by norm_num
  rw [Normalize, hl]
  simp only []
  rw [div_finite _ _ h1, div_finite _ _ h1, zero_div, round_zero, div_one, hr]

/-- In float64 the triangle (0,0,1), (1,0,1), (0,1,1) seen from the origin is left visible
by Normal and the reversed winding is culled, as under exact arithmetic. -/
theorem Normal_spec_example :
    ((Normal (NewVector (Float64.finite 0) (Float64.finite 0) (Float64.finite 0))
        ⟨fun _ =>
          ⟨arr3 (NewVector (Float64.finite 0) (Float64.finite 0) (Float64.finite 1))
            (NewVector (Float64.finite 1) (Float64.finite 0) (Float64.finite 1))
            (NewVector (Float64.finite 0) (Float64.finite 1) (Float64.finite 1)),
            NewVector (Float64.finite 0) (Float64.finite 0) (Float64.finite 0), true,
            0xFF0000FF⟩, 1⟩ 0).1.mem 0).visible = true ∧
    ((Normal (NewVector (Float64.finite 0) (Float64.finite 0) (Float64.finite 0))
        ⟨fun _ =>
          ⟨arr3 (NewVector (Float64.finite 0) (Float64.finite 0) (Float64.finite 1))
            (NewVector (Float64.finite 0) (Float64.finite 1) (Float64.finite 1))
            (NewVector (Float64.finite 1) (Float64.finite 0) (Float64.finite 1)),
            NewVector (Float64.finite 0) (Float64.finite 0) (Float64.finite 0), true,
            0xFF0000FF⟩, 1⟩ 0).1.mem 0).visible = false := by
  have e1 : (1 : ℚ) - 1 = 0 := by norm_num
  have hc : CrossProduct
      (Subtract (NewVector (Float64.finite 1) (Float64.finite 0) (Float64.finite 1))
        (NewVector (Float64.finite 0) (Float64.finite 0) (Float64.finite 1)))
      (Subtract (NewVector (Float64.finite 0) (Float64.finite 1) (Float64.finite 1))
        (NewVector (Float64.finite 0) (Float64.finite 0) (Float64.finite 1))) =
      ⟨Float64.finite 0, Float64.finite 0, Float64.finite 1, Float64.finite 0⟩ := by
    simp only [NewVector, Subtract_finite, sub_zero, e1, round_zero, round_one,
      CrossProduct_finite, mul_zero, zero_mul, mul_one, sub_finite]
  have hc2 : CrossProduct
      (Subtract (NewVector (Float64.finite 0) (Float64.finite 1) (Float64.finite 1))
        (NewVector (Float64.finite 0) (Float64.finite 0) (Float64.finite 1)))
      (Subtract (NewVector (Float64.finite 1) (Float64.finite 0) (Float64.finite 1))
        (NewVector (Float64.finite 0) (Float64.finite 0) (Float64.finite 1))) =
      ⟨Float64.finite 0, Float64.finite 0, Float64.finite (-1), Float64.finite 0⟩ := by
    simp only [NewVector, Subtract_finite, sub_zero, e1, round_zero, round_one,
      CrossProduct_finite, mul_zero, zero_mul, mul_one, sub_finite, zero_sub, round_neg_one]
  have hd : Subtract (NewVector (Float64.finite 0) (Float64.finite 0) (Float64.finite 1))
      (NewVector (Float64.finite 0) (Float64.finite 0) (Float64.finite 0)) =
      ⟨Float64.finite 0, Float64.finite 0, Float64.finite 1, Float64.finite 0⟩ := by
    simp only [NewVector, Subtract_finite, sub_zero, round_zero, round_one]
  constructor
  · rw [(Normal_of_visible _ _ _ _ _ _ _).2, hc, hd, Normalize_unit 1 (by norm_num) round_one,
      DotProduct1_finite]
    simp only [mul_zero, mul_one, round_zero, add_finite, add_zero, zero_add, round_one]
    simp [Float64.gtZero]
  · rw [(Normal_of_visible _ _ _ _ _ _ _).2, hc2, hd,
      Normalize_unit (-1) (by norm_num) round_neg_one, DotProduct1_finite]
    simp only [mul_zero, mul_one, round_zero, add_finite, add_zero, zero_add, round_neg_one]
    simp [Float64.gtZero]

/-- In float64 the colour 0xFF0000FF stays 0xFF0000FF under Shade when the normal (0,0,-1)
is aligned with the light direction (0,0,-1), and becomes 0x190000FF when the normal (1,0,0)
is perpendicular to it, as under exact arithmetic. -/
theorem Shade_spec_example :
    ((Shade (NewVector (Float64.finite 0) (Float64.finite 0) (Float64.finite (-1)))
        ⟨fun _ =>
          ⟨arr3 (NewVector (Float64.finite 0) (Float64.finite 0) (Float64.finite 1))
            (NewVector (Float64.finite 1) (Float64.finite 0) (Float64.finite 1))
            (NewVector (Float64.finite 0) (Float64.finite 1) (Float64.finite 1)),
            ⟨Float64.finite 0, Float64.finite 0, Float64.finite (-1), Float64.finite 0⟩, true,
            0xFF0000FF⟩, 1⟩ 0).1.mem 0).color = 0xFF0000FF ∧
    ((Shade (NewVector (Float64.finite 0) (Float64.finite 0) (Float64.finite (-1)))
        ⟨fun _ =>
          ⟨arr3 (NewVector (Float64.finite 0) (Float64.finite 0) (Float64.finite 1))
            (NewVector (Float64.finite 1) (Float64.finite 0) (Float64.finite 1))
            (NewVector (Float64.finite 0) (Float64.finite 1) (Float64.finite 1)),
            ⟨Float64.finite 1, Float64.finite 0, Float64.finite 0, Float64.finite 0⟩, true,
            0xFF0000FF⟩, 1⟩ 0).1.mem 0).color = 0x190000FF := by
  have hl : Normalize (NewVector (Float64.finite 0) (Float64.finite 0) (Float64.finite (-1))) =
      ⟨Float64.finite 0, Float64.finite 0, Float64.finite (-1), Float64.finite 0⟩ := by
    have hl1 : Length (NewVector (Float64.finite 0) (Float64.finite 0) (Float64.finite (-1))) =
        Float64.finite 1 := by
      rw [Length, NewVector, DotProduct0_finite]
      simp only [mul_zero, round_zero, add_finite, add_zero, zero_add]
      rw [show (-1 : ℚ) * -1 = 1 by norm_num, round_one, add_finite, zero_add, round_one,
        sqrt_finite_one]
    have h1 : (1 : ℚ) ≠ 0 := by norm_num
    rw [Normalize, hl1]
    simp only [NewVector]
    rw [div_finite _ _ h1, div_finite _ _ h1, zero_div, round_zero, div_one, round_neg_one]
  have e255 : uint8 (0xFF0000FF >>> 8 >>> 8 >>> 8) = 255 := by decide
  have e0 : uint8 (0xFF0000FF >>> 8 >>> 8) = 0 := by decide
  have e0b : uint8 (0xFF0000FF >>> 8) = 0 := by decide
  have ea : uint8 0xFF0000FF = 255 := by decide
  have c255 : ofUint8 255 = Float64.finite 255 := by simp [ofUint8]
  have c0 : ofUint8 0 = Float64.finite 0 := by simp [ofUint8]
  constructor
  · rw [Shade_writes_color, hl, DotProduct1_finite, e255, e0, e0b, ea, c255, c0]
    simp only [mul_zero, round_zero, add_finite, add_zero, zero_add]
    rw [show (-1 : ℚ) * -1 = 1 by norm_num, round_one, add_finite, zero_add, round_one,
      round_tenth, max_finite, if_pos (by norm_num), mul_finite, mul_finite, mul_one, zero_mul,
      round_255, round_zero]
    simp only [toUint8, floatToUint8]
    rw [show ⌊(255 : ℚ)⌋₊ = 255 from Nat.floor_natCast 255,
      show ⌊(0 : ℚ)⌋₊ = 0 from Nat.floor_zero]
    decide
  · rw [Shade_writes_color, hl, DotProduct1_finite, e255, e0, e0b, ea, c255, c0]
    simp only [mul_zero, zero_mul, round_zero, add_finite, add_zero, zero_add]
    rw [round_tenth, max_finite, if_neg (by norm_num), mul_finite, mul_finite, zero_mul,
      round_zero,
      show (255 : ℚ) * (3602879701896397 / 36028797018963968) =
        918734323983581235 / 36028797018963968 by norm_num, round_255_tenth]
    simp only [toUint8, floatToUint8]
    rw [show ⌊(51 / 2 : ℚ)⌋₊ = 25 from (Nat.floor_eq_iff (by norm_num)).mpr (by norm_num),
      show ⌊(0 : ℚ)⌋₊ = 0 from Nat.floor_zero]
    decide

end Binary64

/-- C12 fails in float64. The normal (0, 0, 6004799503160661 / 2^54), which float64 prints
as 0.3333333333333333, and the light direction (0, 0, 3) are binary64 numbers, the normal
is shorter than 1 and the light is not zero. The intensity max(0.1, dot(n, normalize(L)))
is the third component of the normal, exactly and in float64, so floor(channel * intensity)
is floor(3 * 0.3333333333333333) = 0 for each channel of the colour 0x030303FF, and the
claimed colour is 0x000000FF. In float64 the product 3 * 0.3333333333333333 = 1 - 2^-54
lies half way between two binary64 numbers and rounds to 1, so Shade returns 0x010101FF. -/
theorem Shade_binary64_channel_not_floor :
    (Binary64.round (6004799503160661 / 18014398509481984) =
        Float64.finite (6004799503160661 / 18014398509481984) ∧
      Binary64.round 3 = Float64.finite 3) ∧
    ((⟨0, 0, 6004799503160661 / 18014398509481984, 0⟩ : Vector ℝ).Length
        ⟨Real.sqrt, Real.cos, Real.sin⟩ ≤ 1 ∧
      ¬((NewVector 0 0 3 : Vector ℝ).X = 0 ∧ (NewVector 0 0 3 : Vector ℝ).Y = 0 ∧
        (NewVector 0 0 3 : Vector ℝ).Z = 0)) ∧
    (max (1 / 10) ((⟨0, 0, 6004799503160661 / 18014398509481984, 0⟩ : Vector ℝ).DotProduct1
        ((NewVector 0 0 3 : Vector ℝ).Normalize ⟨Real.sqrt, Real.cos, Real.sin⟩)) =
        6004799503160661 / 18014398509481984 ∧
      ⌊((3 : ℕ) : ℝ) * max (1 / 10)
        ((⟨0, 0, 6004799503160661 / 18014398509481984, 0⟩ : Vector ℝ).DotProduct1
          ((NewVector 0 0 3 : Vector ℝ).Normalize ⟨Real.sqrt, Real.cos, Real.sin⟩))⌋₊ = 0) ∧
    ((Shade ⟨Real.sqrt, Real.cos, Real.sin⟩ (NewVector 0 0 3)
      (⟨fun _ => ⟨arr3 (NewVector 0 0 1) (NewVector 1 0 1) (NewVector 0 1 1),
        ⟨0, 0, 6004799503160661 / 18014398509481984, 0⟩, true, 0x030303FF⟩, 1⟩ : Heap ℝ) 0).1.mem 0).color = 0x000000FF ∧
    Binary64.max (Binary64.round (1 / 10))
      (Binary64.DotProduct1
        ⟨Float64.finite 0, Float64.finite 0,
          Float64.finite (6004799503160661 / 18014398509481984), Float64.finite 0⟩
        (Binary64.Normalize
          (Binary64.NewVector (Float64.finite 0) (Float64.finite 0) (Float64.finite 3)))) =
      Float64.finite (6004799503160661 / 18014398509481984) ∧
    ((Binary64.Shade
        (Binary64.NewVector (Float64.finite 0) (Float64.finite 0) (Float64.finite 3))
        ⟨fun _ =>
          ⟨arr3
            (Binary64.NewVector (Float64.finite 0) (Float64.finite 0) (Float64.finite 1))
            (Binary64.NewVector (Float64.finite 1) (Float64.finite 0) (Float64.finite 1))
            (Binary64.NewVector (Float64.finite 0) (Float64.finite 1) (Float64.finite 1)),
            ⟨Float64.finite 0, Float64.finite 0,
              Float64.finite (6004799503160661 / 18014398509481984), Float64.finite 0⟩,
            true, 0x030303FF⟩, 1⟩ 0).1.mem 0).color = 0x010101FF ∧
    ((Binary64.Shade
        (Binary64.NewVector (Float64.finite 0) (Float64.finite 0) (Float64.finite 3))
        ⟨fun _ =>
          ⟨arr3
            (Binary64.NewVector (Float64.finite 0) (Float64.finite 0) (Float64.finite 1))
            (Binary64.NewVector (Float64.finite 1) (Float64.finite 0) (Float64.finite 1))
            (Binary64.NewVector (Float64.finite 0) (Float64.finite 1) (Float64.finite 1)),
            ⟨Float64.finite 0, Float64.finite 0,
              Float64.finite (6004799503160661 / 18014398509481984), Float64.finite 0⟩,
            true, 0x030303FF⟩, 1⟩ 0).1.mem 0).FaceColor.R = 1 := by
  have hs : Real.sqrt 9 = 3 := by
    rw [show (9 : ℝ) = 3 ^ 2 by norm_num, Real.sqrt_sq (by norm_num)]
  have hdot : (⟨0, 0, 6004799503160661 / 18014398509481984, 0⟩ : Vector ℝ).DotProduct1
      ((NewVector 0 0 3 : Vector ℝ).Normalize ⟨Real.sqrt, Real.cos, Real.sin⟩) =
      6004799503160661 / 18014398509481984 := by
    simp only [Vector.DotProduct1, Vector.Normalize, Vector.Length, Vector.DotProduct0,
      NewVector]
    rw [show (0 : ℝ) * 0 + 0 * 0 + 3 * 3 = 9 by norm_num, hs]
    norm_num
  have hmax : max (1 / 10 : ℝ) (6004799503160661 / 18014398509481984) =
      6004799503160661 / 18014398509481984 := max_eq_right (by norm_num)
  have hfl : ⌊((3 : ℕ) : ℝ) * (6004799503160661 / 18014398509481984)⌋₊ = 0 := by
    rw [Nat.floor_eq_iff (by norm_num)]
    norm_num
  have hd : Binary64.DotProduct1
      ⟨Float64.finite 0, Float64.finite 0,
        Float64.finite (6004799503160661 / 18014398509481984), Float64.finite 0⟩
      (Binary64.Normalize
        (Binary64.NewVector (Float64.finite 0) (Float64.finite 0) (Float64.finite 3))) =
      Float64.finite (6004799503160661 / 18014398509481984) := by
    rw [Binary64.Normalize_three, Binary64.DotProduct1_finite]
    simp only [mul_zero, mul_one, Binary64.round_zero, Binary64.add_finite, add_zero, zero_add,
      Binary64.round_third]
  have hdp : Binary64.max (Binary64.round (1 / 10))
      (Binary64.DotProduct1
        ⟨Float64.finite 0, Float64.finite 0,
          Float64.finite (6004799503160661 / 18014398509481984), Float64.finite 0⟩
        (Binary64.Normalize
          (Binary64.NewVector (Float64.finite 0) (Float64.finite 0) (Float64.finite 3)))) =
      Float64.finite (6004799503160661 / 18014398509481984) := by
    rw [hd, Binary64.round_tenth, Binary64.max_finite, if_pos (by norm_num)]
  have hch : Binary64.toUint8 (Binary64.mul (Binary64.ofUint8 3)
      (Float64.finite (6004799503160661 / 18014398509481984))) = 1 := by
    rw [Binary64.ofUint8, Binary64.mul_finite,
      show (((3 : ℕ) : ℚ)) * (6004799503160661 / 18014398509481984) =
        18014398509481983 / 18014398509481984 by norm_num,
      Binary64.round_three_thirds]
    simp [Binary64.toUint8, floatToUint8]
  have hcol : ((Binary64.Shade
        (Binary64.NewVector (Float64.finite 0) (Float64.finite 0) (Float64.finite 3))
        ⟨fun _ =>
          ⟨arr3
            (Binary64.NewVector (Float64.finite 0) (Float64.finite 0) (Float64.finite 1))
            (Binary64.NewVector (Float64.finite 1) (Float64.finite 0) (Float64.finite 1))
            (Binary64.NewVector (Float64.finite 0) (Float64.finite 1) (Float64.finite 1)),
            ⟨Float64.finite 0, Float64.finite 0,
              Float64.finite (6004799503160661 / 18014398509481984), Float64.finite 0⟩,
            true, 0x030303FF⟩, 1⟩ 0).1.mem 0).color = 0x010101FF := by
    rw [Binary64.Shade_writes_color, hdp,
      show uint8 (0x030303FF >>> 8 >>> 8 >>> 8) = 3 by decide,
      show uint8 (0x030303FF >>> 8 >>> 8) = 3 by decide,
      show uint8 (0x030303FF >>> 8) = 3 by decide,
      show uint8 0x030303FF = 255 by decide, hch]
    decide
  refine ⟨⟨Binary64.round_third, Binary64.round_three⟩, ⟨?_, ?_⟩, ⟨?_, ?_⟩, ?_, hdp, hcol, ?_⟩
  · simp only [Vector.Length, Vector.DotProduct0]
    exact Real.sqrt_le_one.mpr (by norm_num)
  · simp [NewVector]
  · rw [hdot, hmax]
  · rw [hdot, hmax, hfl]
  · simp only [Shade, Heap.store, Function.update_same]
    rw [hdot, hmax, show uint8 (0x030303FF >>> 8 >>> 8 >>> 8) = 3 by decide,
      show uint8 (0x030303FF >>> 8 >>> 8) = 3 by decide,
      show uint8 (0x030303FF >>> 8) = 3 by decide,
      show uint8 0x030303FF = 255 by decide]
    simp only [floatToUint8]
    rw [hfl]
    decide
  · simp only [Triangle.FaceColor]
    rw [hcol]
    decide

/-- C7 fails in float64. The corners (0,0,0), (2^-300,0,0), (0,2^-300,0) and the camera
(0,0,-1) are binary64 numbers, and dot(cross(v1 - v0, v2 - v0), v0 - c) is 2^-600, not
zero, both exactly and as float64 computes it. The squared length 2^-1200 of the cross
product rounds to zero, so Normalize divides by zero: the normal is (NaN, NaN, +Inf), for
the reversed winding (NaN, NaN, -Inf), its dot product with v0 - c is NaN, and the
comparison NaN > 0 is false. Normal(c) culls both windings. -/
theorem Normal_binary64_culls_both_windings :
    (Binary64.round (2 ^ (-300 : ℤ)) = Float64.finite (2 ^ (-300 : ℤ)) ∧
      Binary64.round (-1) = Float64.finite (-1)) ∧
    (((NewVector (2 ^ (-300 : ℤ)) 0 0 : Vector ℚ).Subtract (NewVector 0 0 0)).CrossProduct
      ((NewVector 0 (2 ^ (-300 : ℤ)) 0 : Vector ℚ).Subtract (NewVector 0 0 0))).DotProduct1
        ((NewVector 0 0 0 : Vector ℚ).Subtract (NewVector 0 0 (-1))) ≠ 0 ∧
    Binary64.DotProduct1
      (Binary64.CrossProduct
        (Binary64.Subtract
          (Binary64.NewVector (Float64.finite (2 ^ (-300 : ℤ))) (Float64.finite 0)
            (Float64.finite 0))
          (Binary64.NewVector (Float64.finite 0) (Float64.finite 0) (Float64.finite 0)))
        (Binary64.Subtract
          (Binary64.NewVector (Float64.finite 0) (Float64.finite (2 ^ (-300 : ℤ)))
            (Float64.finite 0))
          (Binary64.NewVector (Float64.finite 0) (Float64.finite 0) (Float64.finite 0))))
      (Binary64.Subtract
        (Binary64.NewVector (Float64.finite 0) (Float64.finite 0) (Float64.finite 0))
        (Binary64.NewVector (Float64.finite 0) (Float64.finite 0) (Float64.finite (-1)))) =
      Float64.finite (2 ^ (-600 : ℤ)) ∧
    ((Binary64.Normal
        (Binary64.NewVector (Float64.finite 0) (Float64.finite 0) (Float64.finite (-1)))
        ⟨fun _ =>
          ⟨arr3
            (Binary64.NewVector (Float64.finite 0) (Float64.finite 0) (Float64.finite 0))
            (Binary64.NewVector (Float64.finite (2 ^ (-300 : ℤ))) (Float64.finite 0)
              (Float64.finite 0))
            (Binary64.NewVector (Float64.finite 0) (Float64.finite (2 ^ (-300 : ℤ)))
              (Float64.finite 0)),
            Binary64.NewVector (Float64.finite 0) (Float64.finite 0) (Float64.finite 0), true,
            0xFF0000FF⟩, 1⟩ 0).1.mem 0).normal =
      ⟨Float64.nan, Float64.nan, Float64.posInf, Float64.finite 0⟩ ∧
    ((Binary64.Normal
        (Binary64.NewVector (Float64.finite 0) (Float64.finite 0) (Float64.finite (-1)))
        ⟨fun _ =>
          ⟨arr3
            (Binary64.NewVector (Float64.finite 0) (Float64.finite 0) (Float64.finite 0))
            (Binary64.NewVector (Float64.finite (2 ^ (-300 : ℤ))) (Float64.finite 0)
              (Float64.finite 0))
            (Binary64.NewVector (Float64.finite 0) (Float64.finite (2 ^ (-300 : ℤ)))
              (Float64.finite 0)),
            Binary64.NewVector (Float64.finite 0) (Float64.finite 0) (Float64.finite 0), true,
            0xFF0000FF⟩, 1⟩ 0).1.mem 0).visible = false ∧
    ((Binary64.Normal
        (Binary64.NewVector (Float64.finite 0) (Float64.finite 0) (Float64.finite (-1)))
        ⟨fun _ =>
          ⟨arr3
            (Binary64.NewVector (Float64.finite 0) (Float64.finite 0) (Float64.finite 0))
            (Binary64.NewVector (Float64.finite 0) (Float64.finite (2 ^ (-300 : ℤ)))
              (Float64.finite 0))
            (Binary64.NewVector (Float64.finite (2 ^ (-300 : ℤ))) (Float64.finite 0)
              (Float64.finite 0)),
            Binary64.NewVector (Float64.finite 0) (Float64.finite 0) (Float64.finite 0), true,
            0xFF0000FF⟩, 1⟩ 0).1.mem 0).normal =
      ⟨Float64.nan, Float64.nan, Float64.negInf, Float64.finite 0⟩ ∧
    ((Binary64.Normal
        (Binary64.NewVector (Float64.finite 0) (Float64.finite 0) (Float64.finite (-1)))
        ⟨fun _ =>
          ⟨arr3
            (Binary64.NewVector (Float64.finite 0) (Float64.finite 0) (Float64.finite 0))
            (Binary64.NewVector (Float64.finite 0) (Float64.finite (2 ^ (-300 : ℤ)))
              (Float64.finite 0))
            (Binary64.NewVector (Float64.finite (2 ^ (-300 : ℤ))) (Float64.finite 0)
              (Float64.finite 0)),
            Binary64.NewVector (Float64.finite 0) (Float64.finite 0) (Float64.finite 0), true,
            0xFF0000FF⟩, 1⟩ 0).1.mem 0).visible = false := by
  have ht : Binary64.round (2 ^ (-300 : ℤ)) = Float64.finite (2 ^ (-300 : ℤ)) :=
    Binary64.round_zpow _ (by norm_num) (by norm_num)
  have h1 : Binary64.round 1 = Float64.finite 1 := by
    simpa using Binary64.round_zpow 0 (by norm_num) (by norm_num)
  have hm1 : Binary64.round (-1) = Float64.finite (-1) := by
    rw [Binary64.round_neg, h1]
    rfl
  have hsq : (2 : ℚ) ^ (-300 : ℤ) * 2 ^ (-300 : ℤ) = 2 ^ (-600 : ℤ) := by
    rw [← zpow_add₀ (by norm_num : (2 : ℚ) ≠ 0)]
    norm_num
  have htt : Binary64.round (2 ^ (-600 : ℤ)) = Float64.finite (2 ^ (-600 : ℤ)) :=
    Binary64.round_zpow _ (by norm_num) (by norm_num)
  have hntt : Binary64.round (-2 ^ (-600 : ℤ)) = Float64.finite (-2 ^ (-600 : ℤ)) := by
    rw [Binary64.round_neg, htt]
    rfl
  have hqq : (2 : ℚ) ^ (-600 : ℤ) * 2 ^ (-600 : ℤ) = 2 ^ (-1200 : ℤ) := by
    rw [← zpow_add₀ (by norm_num : (2 : ℚ) ≠ 0)]
    norm_num
  have hu : Binary64.round (2 ^ (-1200 : ℤ)) = Float64.finite 0 :=
    Binary64.round_underflow _ (by positivity)
      (zpow_lt_zpow_right₀ (by norm_num) (by norm_num))
  have hz : (2 : ℚ) ^ (-600 : ℤ) ≠ 0 := by positivity
  have hzp : (0 : ℚ) < 2 ^ (-600 : ℤ) := by positivity
  have hc : Binary64.CrossProduct
      (Binary64.Subtract
        (Binary64.NewVector (Float64.finite (2 ^ (-300 : ℤ))) (Float64.finite 0)
          (Float64.finite 0))
        (Binary64.NewVector (Float64.finite 0) (Float64.finite 0) (Float64.finite 0)))
      (Binary64.Subtract
        (Binary64.NewVector (Float64.finite 0) (Float64.finite (2 ^ (-300 : ℤ)))
          (Float64.finite 0))
        (Binary64.NewVector (Float64.finite 0) (Float64.finite 0) (Float64.finite 0))) =
      ⟨Float64.finite 0, Float64.finite 0, Float64.finite (2 ^ (-600 : ℤ)),
        Float64.finite 0⟩ := by
    simp only [Binary64.NewVector, Binary64.Subtract_finite, sub_zero, Binary64.round_zero, ht,
      Binary64.CrossProduct_finite, mul_zero, zero_mul, Binary64.sub_finite, hsq, htt]
  have hc' : Binary64.CrossProduct
      (Binary64.Subtract
        (Binary64.NewVector (Float64.finite 0) (Float64.finite (2 ^ (-300 : ℤ)))
          (Float64.finite 0))
        (Binary64.NewVector (Float64.finite 0) (Float64.finite 0) (Float64.finite 0)))
      (Binary64.Subtract
        (Binary64.NewVector (Float64.finite (2 ^ (-300 : ℤ))) (Float64.finite 0)
          (Float64.finite 0))
        (Binary64.NewVector (Float64.finite 0) (Float64.finite 0) (Float64.finite 0))) =
      ⟨Float64.finite 0, Float64.finite 0, Float64.finite (-2 ^ (-600 : ℤ)),
        Float64.finite 0⟩ := by
    simp only [Binary64.NewVector, Binary64.Subtract_finite, sub_zero, Binary64.round_zero, ht,
      Binary64.CrossProduct_finite, mul_zero, zero_mul, Binary64.sub_finite, hsq, htt,
      zero_sub, hntt]
  have hd : Binary64.Subtract
      (Binary64.NewVector (Float64.finite 0) (Float64.finite 0) (Float64.finite 0))
      (Binary64.NewVector (Float64.finite 0) (Float64.finite 0) (Float64.finite (-1))) =
      ⟨Float64.finite 0, Float64.finite 0, Float64.finite 1, Float64.finite 0⟩ := by
    simp only [Binary64.NewVector, Binary64.Subtract_finite, sub_zero, Binary64.round_zero,
      zero_sub, neg_neg, h1]
  have hn : Binary64.Normalize
      ⟨Float64.finite 0, Float64.finite 0, Float64.finite (2 ^ (-600 : ℤ)),
        Float64.finite 0⟩ =
      ⟨Float64.nan, Float64.nan, Float64.posInf, Float64.finite 0⟩ := by
    rw [Binary64.Normalize_underflow _ _ hz (by rw [hqq]; exact hu), if_pos hzp]
  have hn' : Binary64.Normalize
      ⟨Float64.finite 0, Float64.finite 0, Float64.finite (-2 ^ (-600 : ℤ)),
        Float64.finite 0⟩ =
      ⟨Float64.nan, Float64.nan, Float64.negInf, Float64.finite 0⟩ := by
    rw [Binary64.Normalize_underflow _ _ (neg_ne_zero.mpr hz)
      (by rw [neg_mul_neg, hqq]; exact hu), if_neg (not_lt.mpr (neg_nonpos.mpr hzp.le))]
  refine ⟨⟨ht, hm1⟩, ?_, ?_, ?_, ?_, ?_, ?_⟩
  · simp [NewVector, Vector.Subtract, Vector.CrossProduct, Vector.DotProduct1]
    norm_num
  · rw [hc, hd, Binary64.DotProduct1_finite]
    simp only [mul_zero, mul_one, Binary64.round_zero, Binary64.add_finite, add_zero, zero_add,
      htt]
  · rw [(Binary64.Normal_of_visible _ _ _ _ _ _ _).1, hc, hn]
  · rw [(Binary64.Normal_of_visible _ _ _ _ _ _ _).2, hc, hn, Binary64.DotProduct1_nan]
    rfl
  · rw [(Binary64.Normal_of_visible _ _ _ _ _ _ _).1, hc', hn']
  · rw [(Binary64.Normal_of_visible _ _ _ _ _ _ _).2, hc', hn', Binary64.DotProduct1_nan]
    rfl

end G3
